import Mathlib

/-!
# Shopping-cart data layers: the relational and the single-table handlers

A shallow embedding of the cart handlers of `mysql-solution/src/main.go` and
`dynamodb-solution/src/main.go`.  A handler is a function from the store it
runs against and its (already bound) request to an `Outcome`: the HTTP
response, the store afterwards and the storage calls it issued, in order.

Conventions of the embedding

* `c.BindJSON` is the boundary: a request body is `none` when binding fails
  and `some` of the bound value otherwise.
* Go's `int32`, `uint`, `uint64` are `Int`/`Nat`; no handler does arithmetic
  on them, the only place where a width matters is the `INT UNSIGNED` column
  `cart_item.quantity`, which is narrower than Go's `uint`.
* Storage calls are deterministic: the only failures modelled are those the
  stored data, the statement text or the schema decide (no lost connection,
  no lock timeout, no cancelled context).
* `fmt.Sprintf` with `%d` is `toString`, with `%v` on a slice of integers the
  bracketed, blank-separated list.
-/

namespace MySQL

/-! ## Schema (`createDBTables`) -/

/-- Values of the column `shopping_cart.status`, an `ENUM`; the first is the
column default. -/
inductive CartStatus where
  | active | ordered | paid | shipped | completed | cancelled | invalid
  deriving DecidableEq, Repr

/-- Text of a status value, as the driver scans it into a Go string. -/
def CartStatus.text : CartStatus → String
  | .active => "active"
  | .ordered => "ordered"
  | .paid => "paid"
  | .shipped => "shipped"
  | .completed => "completed"
  | .cancelled => "cancelled"
  | .invalid => "invalid"

/-- The Go constant `CartStatusActive`. -/
def CartStatusActive : String := "active"

/-- A row of table `product`, restricted to the two columns the cart handlers
read (`product_id`, the primary key, and `name`). -/
structure ProductRow where
  product_id : Int
  name : String
  deriving DecidableEq, Repr

/-- A row of table `shopping_cart`. -/
structure ShoppingCartRow where
  cart_id : Nat
  customer_id : Nat
  status : CartStatus
  deriving DecidableEq, Repr

/-- A row of table `cart_item`, without the surrogate key `item_id` and the
column `status` (default `valid`), which no handler reads or sets. -/
structure CartItemRow where
  product_id : Int
  quantity : Nat
  cart_id : Nat
  deriving DecidableEq, Repr

/-- The database: the three tables the cart handlers touch, rows in insertion
order, and the next `AUTO_INCREMENT` value of `shopping_cart.cart_id`. -/
structure DB where
  product : List ProductRow
  shopping_cart : List ShoppingCartRow
  cart_item : List CartItemRow
  next_cart_id : Nat
  deriving DecidableEq, Repr

/-- Largest value of an `INT UNSIGNED` column. -/
def maxIntUnsigned : Nat := 4294967295

/-- Errors the engine raises for a statement, as far as data, statement text
and schema decide them. -/
inductive SqlError where
  | syntaxError
  | outOfRange
  | checkViolated
  | foreignKeyViolated
  | duplicateKey
  deriving DecidableEq, Repr

/-- Stands for `err.Error()` of a driver error. -/
def SqlError.Error : SqlError → String
  | .syntaxError => "Error 1064 (42000): You have an error in your SQL syntax"
  | .outOfRange => "Error 1264 (22003): Out of range value for column"
  | .checkViolated => "Error 3819 (HY000): Check constraint is violated"
  | .foreignKeyViolated => "Error 1452 (23000): a foreign key constraint fails"
  | .duplicateKey => "Error 1062 (23000): Duplicate entry"

/-- The schema's constraints on the stored data: primary keys are unique,
`cart_item` is `UNIQUE (cart_id, product_id)`, `quantity` is an `INT UNSIGNED`
with `CHECK (quantity > 0)`, both foreign keys of `cart_item` resolve, and the
auto-increment counter is positive and past every stored `cart_id`. -/
def DB.wellFormed (db : DB) : Prop :=
  (db.product.map (fun p => p.product_id)).Nodup ∧
  (db.shopping_cart.map (fun r => r.cart_id)).Nodup ∧
  (db.cart_item.map (fun r => (r.cart_id, r.product_id))).Nodup ∧
  (∀ r ∈ db.cart_item, 0 < r.quantity ∧ r.quantity ≤ maxIntUnsigned) ∧
  (∀ r ∈ db.cart_item, r.cart_id ∈ db.shopping_cart.map (fun c => c.cart_id)) ∧
  (∀ r ∈ db.cart_item, r.product_id ∈ db.product.map (fun p => p.product_id)) ∧
  (∀ r ∈ db.shopping_cart, r.cart_id < db.next_cart_id) ∧
  0 < db.next_cart_id

instance (db : DB) : Decidable db.wellFormed := by
  unfold DB.wellFormed
  infer_instance

/-! ## Requests, responses, storage calls -/

/-- The Go struct `updateCartItem`. -/
structure updateCartItem where
  ProductID : Int
  Quantity : Nat
  deriving DecidableEq, Repr

/-- The Go struct `updateCartItemsRequest`. -/
structure updateCartItemsRequest where
  Items : List updateCartItem
  deriving DecidableEq, Repr

/-- The Go struct `cartItemInfo`. -/
structure cartItemInfo where
  ProductID : Int
  ProductName : String
  Quantity : Int
  deriving DecidableEq, Repr

/-- The Go struct `shoppingCartInfo`. -/
structure shoppingCartInfo where
  CartID : Nat
  CustomerID : Nat
  Status : String
  Items : List cartItemInfo
  deriving DecidableEq, Repr

/-- The Go struct `ErrorResponse`. -/
structure ErrorResponse where
  Err : String
  Message : String
  Details : String := ""
  deriving DecidableEq, Repr

/-- JSON bodies the cart handlers send. `H key value` is a `gin.H` with one
string entry; `cart` is the anonymous struct of `createShoppingCart`. -/
inductive Body where
  | error (e : ErrorResponse)
  | H (key value : String)
  | cart (CartID : Nat) (Status : String)
  | info (r : shoppingCartInfo)
  deriving DecidableEq, Repr

/-- An HTTP response: status code and body. -/
structure Response where
  status : Nat
  body : Body
  deriving DecidableEq, Repr

/-- Statements and transaction calls the handlers send to the database. -/
inductive SqlCall where
  | Begin
  | Commit
  | Rollback
  | selectActiveCart (customer_id : Nat)
  | insertCart (customer_id : Nat)
  | selectCartExists (cart_id : Nat)
  | selectProducts (ids : List Int)
  | prepareUpsert
  | execUpsert (product_id : Int) (quantity : Nat) (cart_id : Nat)
  | selectCartWithItems (cart_id : Nat)
  | deleteFrom (table : String)
  deriving DecidableEq, Repr

/-- What a handler run leaves behind. -/
structure Outcome where
  response : Response
  db : DB
  calls : List SqlCall
  deriving DecidableEq, Repr

/-! ## Formatting and parsing helpers -/

/-- Go's `strconv.ParseUint(s, 10, 64)`: a non-empty string of decimal digits
whose value fits 64 bits; anything else is an error (`none`). -/
def ParseUint (s : String) : Option Nat :=
  if s.data = [] then none
  else if s.data.all Char.isDigit then
    let v := s.data.foldl (fun acc c => acc * 10 + (c.toNat - 48)) 0
    if v < 2 ^ 64 then some v else none
  else none

/-- Go's `fmt.Sprintf("%v", xs)` for a slice of `int32`. -/
def fmtInt32Slice (xs : List Int) : String :=
  "[" ++ " ".intercalate (xs.map toString) ++ "]"

/-- Stands for the text of the error `c.BindJSON` returned. -/
def bindErrorText : String := "invalid request"

/-- The 400 response both cart-id handlers send for a path parameter that is
not a positive integer. -/
def invalidCartID (cartIDStr : String) : Response :=
  ⟨400, .error ⟨"INVALID_INPUT", "The provided shopping cart id is invalid",
    "Shopping cart ID must be an positive integer >= 1 (input: " ++ cartIDStr ++ ")"⟩⟩

/-- The 400 response for a body that does not bind. -/
def invalidBody : Response :=
  ⟨400, .error ⟨"INVALID_INPUT", "The provided request body is invalid", bindErrorText⟩⟩

/-! ## Statements -/

/-- The statement `SELECT cart_id FROM shopping_cart WHERE customer_id = ? AND status =
'active' FOR UPDATE`, read with `QueryRow(...).Scan`: the first matching row,
`none` for `sql.ErrNoRows`. -/
def selectActiveCart (db : DB) (customer_id : Nat) : Option Nat :=
  (db.shopping_cart.find?
    (fun r => decide (r.customer_id = customer_id ∧ r.status = CartStatus.active))).map
    (fun r => r.cart_id)

/-- The statement `INSERT INTO shopping_cart (customer_id) VALUES (?)`: the new row takes the
next auto-increment id and the default status; the result carries
`LastInsertId`. -/
def insertCart (db : DB) (customer_id : Nat) : Except SqlError (DB × Nat) :=
  if db.shopping_cart.any (fun r => decide (r.cart_id = db.next_cart_id)) then
    .error .duplicateKey
  else
    .ok ({ db with
            shopping_cart := db.shopping_cart ++ [⟨db.next_cart_id, customer_id, .active⟩]
            next_cart_id := db.next_cart_id + 1 },
         db.next_cart_id)

/-- The statement
`SELECT EXISTS(SELECT 1 FROM shopping_cart WHERE cart_id=? FOR UPDATE)`. -/
def selectCartExists (db : DB) (cart_id : Nat) : Bool :=
  db.shopping_cart.any (fun r => decide (r.cart_id = cart_id))

/-- The statement
`SELECT product_id FROM product WHERE product_id IN (?,...,?) FOR UPDATE`
with one placeholder per element of `ids`. For no id the statement text ends
in `IN ()`, which MySQL rejects as a syntax error. -/
def selectProducts (db : DB) (ids : List Int) : Except SqlError (List Int) :=
  if ids = [] then .error .syntaxError
  else .ok ((db.product.filter (fun p => decide (p.product_id ∈ ids))).map
    (fun p => p.product_id))

/-- The statement `INSERT INTO cart_item (product_id, quantity, cart_id) VALUES (?, ?, ?)
ON DUPLICATE KEY UPDATE quantity = VALUES(quantity)` under the schema of
`createDBTables` (strict SQL mode, `CHECK` enforced): a quantity outside the
column's range or not above zero is refused; a row with the same
`(cart_id, product_id)` has its quantity overwritten; otherwise the row is
inserted, provided both foreign keys resolve. -/
def upsertCartItem (db : DB) (product_id : Int) (quantity : Nat) (cart_id : Nat) :
    Except SqlError DB :=
  if maxIntUnsigned < quantity then .error .outOfRange
  else if quantity = 0 then .error .checkViolated
  else if db.cart_item.any
      (fun r => decide (r.cart_id = cart_id ∧ r.product_id = product_id)) then
    .ok { db with
          cart_item := db.cart_item.map (fun r =>
            if r.cart_id = cart_id ∧ r.product_id = product_id
            then { r with quantity := quantity } else r) }
  else if ¬ db.shopping_cart.any (fun r => decide (r.cart_id = cart_id)) then
    .error .foreignKeyViolated
  else if ¬ db.product.any (fun p => decide (p.product_id = product_id)) then
    .error .foreignKeyViolated
  else
    .ok { db with cart_item := db.cart_item ++ [⟨product_id, quantity, cart_id⟩] }

/-- The rows `cart_item LEFT JOIN product` contributes for one cart item, as
the JSON objects of `getShoppingCart` unmarshalled into `cartItemInfo`: one
per product row with the item's `product_id`, and one with a null name (the
Go zero value after unmarshalling) when there is none. -/
def joinProduct (db : DB) (ci : CartItemRow) : List cartItemInfo :=
  match db.product.filter (fun p => decide (p.product_id = ci.product_id)) with
  | [] => [⟨ci.product_id, "", ci.quantity⟩]
  | ps => ps.map (fun p => ⟨ci.product_id, p.name, ci.quantity⟩)

/-- The `items` column of the query of `getShoppingCart` for a cart row,
unmarshalled: `shopping_cart LEFT JOIN cart_item LEFT JOIN product`
aggregated with `JSON_ARRAYAGG(JSON_OBJECT(...))`. A cart without items still
has one joined row, all of whose item columns are `NULL`; its JSON object has
three `null` members, which `json.Unmarshal` leaves at the zero values. -/
def selectItems (db : DB) (cart_id : Nat) : List cartItemInfo :=
  match db.cart_item.filter (fun ci => decide (ci.cart_id = cart_id)) with
  | [] => [⟨0, "", 0⟩]
  | cis => cis.flatMap (joinProduct db)

/-! ## Handlers -/

/-- The handler `createShoppingCart` (`POST /shopping-carts`); `req` is the
bound `customer_id`. -/
def createShoppingCart (db : DB) (req : Option Nat) : Outcome :=
  match req with
  | none => ⟨invalidBody, db, []⟩
  | some CustomerID =>
    if CustomerID = 0 then
      ⟨⟨400, .error ⟨"INVALID_INPUT", "customer_id cannot be 0", ""⟩⟩, db, []⟩
    else
      match selectActiveCart db CustomerID with
      | some cartID =>
        ⟨⟨400, .error ⟨"INVALID_INPUT", "Active cart already exists",
            "Customer " ++ toString CustomerID ++
              " has an active shopping cart (id = " ++ toString cartID ++ ")"⟩⟩,
          db, [.Begin, .selectActiveCart CustomerID, .Rollback]⟩
      | none =>
        match insertCart db CustomerID with
        | .error e =>
          ⟨⟨500, .error ⟨"DB_ERROR", "Failed to create shopping cart", e.Error⟩⟩,
            db, [.Begin, .selectActiveCart CustomerID, .insertCart CustomerID, .Rollback]⟩
        | .ok (db1, cartID) =>
          ⟨⟨201, .cart cartID CartStatusActive⟩,
            db1, [.Begin, .selectActiveCart CustomerID, .insertCart CustomerID, .Commit]⟩

/-- The handler `getShoppingCart` (`GET /shopping-carts/:id`). -/
def getShoppingCart (db : DB) (cartIDStr : String) : Outcome :=
  match ParseUint cartIDStr with
  | none => ⟨invalidCartID cartIDStr, db, []⟩
  | some cartID =>
    if cartID < 1 then ⟨invalidCartID cartIDStr, db, []⟩
    else
      match db.shopping_cart.find? (fun r => decide (r.cart_id = cartID)) with
      | none =>
        ⟨⟨404, .error ⟨"CART_NOT_FOUND", "Shopping cart not found",
            "Shopping cart " ++ cartIDStr ++ " does not exist"⟩⟩,
          db, [.selectCartWithItems cartID]⟩
      | some sc =>
        ⟨⟨200, .info ⟨sc.cart_id, sc.customer_id, sc.status.text, selectItems db cartID⟩⟩,
          db, [.selectCartWithItems cartID]⟩

/-- State of the duplicate check of `updateItemToShoppingCart`: the map
`seen` (as the list of its keys) and the two slices the loop appends to. -/
structure DupScan where
  seen : List Int
  duplicateProducts : List Int
  productIDs : List Int
  deriving DecidableEq, Repr

/-- One iteration of the duplicate check. -/
def DupScan.step (s : DupScan) (item : updateCartItem) : DupScan :=
  if item.ProductID ∈ s.seen then
    { s with duplicateProducts := s.duplicateProducts ++ [item.ProductID] }
  else
    { s with seen := item.ProductID :: s.seen
             productIDs := s.productIDs ++ [item.ProductID] }

/-- The duplicate check over the whole request. -/
def dupScan (items : List updateCartItem) : DupScan :=
  items.foldl DupScan.step ⟨[], [], []⟩

/-- Result of the loop that executes the prepared upsert per request item. -/
structure ExecLoop where
  db : DB
  calls : List SqlCall
  failed : Option Int
  deriving DecidableEq, Repr

/-- The loop `for _, item := range req.Items` around `statement.Exec`: stops at
the first item whose statement fails and remembers its product id. -/
def execLoop (cartID : Nat) : DB → List updateCartItem → ExecLoop
  | db, [] => ⟨db, [], none⟩
  | db, item :: rest =>
    match upsertCartItem db item.ProductID item.Quantity cartID with
    | .error _ =>
      ⟨db, [.execUpsert item.ProductID item.Quantity cartID], some item.ProductID⟩
    | .ok db1 =>
      let r := execLoop cartID db1 rest
      ⟨r.db, .execUpsert item.ProductID item.Quantity cartID :: r.calls, r.failed⟩

/-- The part of `updateItemToShoppingCart` that runs inside the transaction,
for a parsed cart id and a request that passed the duplicate check. Every
failure path ends in the deferred rollback, which restores `db`. -/
def updateInTx (db : DB) (cartIDStr : String) (cartID : Nat)
    (req : updateCartItemsRequest) (productIDs : List Int) : Outcome :=
  if ¬ selectCartExists db cartID then
    ⟨⟨404, .error ⟨"CART_NOT_FOUND", "Shopping cart not found",
        "Shopping cart " ++ cartIDStr ++ "  does not exist"⟩⟩,
      db, [.Begin, .selectCartExists cartID, .Rollback]⟩
  else
    match selectProducts db productIDs with
    | .error e =>
      ⟨⟨500, .error ⟨"DB_ERROR", "Fail to check products in the database", e.Error⟩⟩,
        db, [.Begin, .selectCartExists cartID, .selectProducts productIDs, .Rollback]⟩
    | .ok existingList =>
      if existingList.length < productIDs.length then
        let missingProducts :=
          (req.Items.filter (fun item => decide (item.ProductID ∉ existingList))).map
            (fun item => item.ProductID)
        ⟨⟨404, .error ⟨"PRODUCT_NOT_FOUND", "Invalid product_id",
            "Product IDs " ++ fmtInt32Slice missingProducts ++ " not found"⟩⟩,
          db, [.Begin, .selectCartExists cartID, .selectProducts productIDs, .Rollback]⟩
      else
        let r := execLoop cartID db req.Items
        match r.failed with
        | some pid =>
          ⟨⟨500, .H "error" ("Failed to add/update item " ++ toString pid)⟩,
            db,
            [.Begin, .selectCartExists cartID, .selectProducts productIDs, .prepareUpsert]
              ++ r.calls ++ [.Rollback]⟩
        | none =>
          ⟨⟨200, .H "message" ("Cart " ++ toString cartID ++ " updated")⟩,
            r.db,
            [.Begin, .selectCartExists cartID, .selectProducts productIDs, .prepareUpsert]
              ++ r.calls ++ [.Commit]⟩

/-- The handler `updateItemToShoppingCart`
(`POST /shopping-carts/:id/items`). -/
def updateItemToShoppingCart (db : DB) (cartIDStr : String)
    (req : Option updateCartItemsRequest) : Outcome :=
  match ParseUint cartIDStr with
  | none => ⟨invalidCartID cartIDStr, db, []⟩
  | some cartID =>
    if cartID < 1 then ⟨invalidCartID cartIDStr, db, []⟩
    else
      match req with
      | none => ⟨invalidBody, db, []⟩
      | some req =>
        let scan := dupScan req.Items
        if scan.duplicateProducts.length > 0 then
          ⟨⟨400, .error ⟨"INVALID_INPUT", "Duplicate product_ids in request",
              "Duplicate product_ids in request: " ++ fmtInt32Slice scan.duplicateProducts⟩⟩,
            db, []⟩
        else updateInTx db cartIDStr cartID req scan.productIDs

/-- The handler `clearCartsData` (`DELETE /debug/clear-carts`): deletes every
row of `cart_item`, then every row of `shopping_cart`. -/
def clearCartsData (db : DB) : Outcome :=
  ⟨⟨200, .H "message" "Shopping cart data cleared"⟩,
    { db with cart_item := [], shopping_cart := [] },
    [.deleteFrom "cart_item", .deleteFrom "shopping_cart"]⟩

end MySQL

namespace DynamoDB

/-! ## Stored records -/

/-- The Go struct `cartMetadata`: the attributes of a cart's metadata record. -/
structure cartMetadata where
  PK : String
  SK : String
  GSI1PK : String
  GSI1SK : String
  CartID : String
  CustomerID : Nat
  Status : String
  deriving DecidableEq, Repr

/-- The Go struct `cartItemData`: the attributes of an item record. -/
structure cartItemData where
  PK : String
  SK : String
  ProductID : Int
  Quantity : Nat
  ProductName : String
  deriving DecidableEq, Repr

/-- A stored item: the attribute map `attributevalue.MarshalMap` makes of one
of the two structs. The handlers write no other shape. -/
inductive Item where
  | cart (m : cartMetadata)
  | cartItem (d : cartItemData)
  deriving DecidableEq, Repr

/-- Partition key attribute of a stored item. -/
def Item.PK : Item → String
  | .cart m => m.PK
  | .cartItem d => d.PK

/-- Sort key attribute of a stored item. -/
def Item.SK : Item → String
  | .cart m => m.SK
  | .cartItem d => d.SK

/-- The call `attributevalue.UnmarshalMap(dbItem, &meta)`: attributes the map lacks
leave the struct's fields at their zero values. -/
def unmarshalMetadata : Item → cartMetadata
  | .cart m => m
  | .cartItem d => ⟨d.PK, d.SK, "", "", "", 0, ""⟩

/-- The call `attributevalue.UnmarshalMap(dbItem, &item)`. -/
def unmarshalItemData : Item → cartItemData
  | .cartItem d => d
  | .cart m => ⟨m.PK, m.SK, 0, 0, ""⟩

/-- The table: its items, in no particular order. Primary key is `(PK, SK)`. -/
abbrev Table := List Item

/-- Whether an item sits at primary key `(pk, sk)`. -/
def Item.hasKey (pk sk : String) (r : Item) : Bool :=
  decide (r.PK = pk ∧ r.SK = sk)

/-- The item stored at a primary key, if any. -/
def Table.get (t : Table) (pk sk : String) : Option Item :=
  t.find? (Item.hasKey pk sk)

/-- An unconditional put: creates the item or replaces the one at its key. -/
def Table.put (t : Table) (item : Item) : Table :=
  t.filter (fun r => ! Item.hasKey item.PK item.SK r) ++ [item]

/-- Keys are unique: the table holds at most one item per primary key. -/
def Table.wellFormed (t : Table) : Prop :=
  (t.map (fun r => (r.PK, r.SK))).Nodup

/-- Errors the service raises for a request, as far as data and request shape
decide them. -/
inductive DynamoError where
  | ConditionalCheckFailedException
  | ValidationException
  deriving DecidableEq, Repr

/-- Stands for `err.Error()` of a service error. -/
def DynamoError.Error : DynamoError → String
  | .ConditionalCheckFailedException =>
    "ConditionalCheckFailedException: The conditional request failed"
  | .ValidationException => "ValidationException"

/-- The call `PutItem` with `ConditionExpression: attribute_not_exists(PK)`: refused
when an item already sits at the new item's primary key. -/
def PutItemIfNotExists (t : Table) (item : Item) : Except DynamoError Table :=
  if (t.get item.PK item.SK).isSome then .error .ConditionalCheckFailedException
  else .ok (t.put item)

/-- Order of string sort keys: the order of their UTF-8 bytes, which is the
lexicographic order of their code points. -/
def sortKeyLE : List Char → List Char → Bool
  | [], _ => true
  | _ :: _, [] => false
  | a :: as, b :: bs =>
    if a.toNat < b.toNat then true
    else if b.toNat < a.toNat then false
    else sortKeyLE as bs

/-- The call `Query` with `KeyConditionExpression: PK = :pk`: the items of one
partition, in ascending sort-key order. (The handler reads one page.) -/
def Query (t : Table) (pk : String) : List Item :=
  (t.filter (fun r => decide (r.PK = pk))).insertionSort
    (fun a b => sortKeyLE a.SK.data b.SK.data = true)

/-- The call `BatchWriteItem` with put requests only: the service takes between 1 and
25 requests per call and no two for the same primary key; an accepted batch
is applied put by put (no unprocessed items are modelled). -/
def BatchWriteItem (t : Table) (puts : List Item) : Except DynamoError Table :=
  if puts.length < 1 ∨ 25 < puts.length then .error .ValidationException
  else if ¬ (puts.map (fun r => (r.PK, r.SK))).Nodup then .error .ValidationException
  else .ok (puts.foldl Table.put t)

/-! ## Requests, responses, storage calls -/

/-- The Go struct `updateCartItem`. -/
structure updateCartItem where
  ProductID : Int
  Quantity : Nat
  deriving DecidableEq, Repr

/-- The Go struct `updateCartItemsRequest`. -/
structure updateCartItemsRequest where
  Items : List updateCartItem
  deriving DecidableEq, Repr

/-- The Go struct `cartItemInfo`. -/
structure cartItemInfo where
  ProductID : Int
  ProductName : String
  Quantity : Nat
  deriving DecidableEq, Repr

/-- The Go struct `shoppingCartInfo`. -/
structure shoppingCartInfo where
  CartID : String
  CustomerID : Nat
  Status : String
  Items : List cartItemInfo
  deriving DecidableEq, Repr

/-- The Go struct `ErrorResponse`. -/
structure ErrorResponse where
  Err : String
  Message : String
  Details : String := ""
  deriving DecidableEq, Repr

/-- JSON bodies the handlers send. `message text` is the `gin.H` with the
single key `message`; `created` is the `gin.H` of `createShoppingCart`. -/
inductive Body where
  | error (e : ErrorResponse)
  | message (text : String)
  | created (cart_id : String) (status : String)
  | info (r : shoppingCartInfo)
  deriving DecidableEq, Repr

/-- An HTTP response: status code and body. -/
structure Response where
  status : Nat
  body : Body
  deriving DecidableEq, Repr

/-- Calls the handlers send to the service. -/
inductive DynamoCall where
  | PutItem (item : Item)
  | Query (pk : String)
  | BatchWriteItem (puts : List Item)
  deriving DecidableEq, Repr

/-- What a handler run leaves behind. -/
structure Outcome where
  response : Response
  table : Table
  calls : List DynamoCall
  deriving DecidableEq, Repr

/-- Stands for the text of the error `c.BindJSON` returned. -/
def bindErrorText : String := "invalid request"

/-- The 400 response for a body that does not bind. -/
def invalidBody : Response :=
  ⟨400, .error ⟨"INVALID_INPUT", "The provided request body is invalid", bindErrorText⟩⟩

/-! ## Handlers -/

/-- The handler `createShoppingCart` (`POST /shopping-carts`); `req` is the
bound `customer_id` and `cartID` the string `uuid.New().String()` returned.
Marshalling a `cartMetadata` cannot fail, so that error path has no
counterpart here. -/
def createShoppingCart (t : Table) (req : Option Nat) (cartID : String) : Outcome :=
  match req with
  | none => ⟨invalidBody, t, []⟩
  | some CustomerID =>
    if CustomerID = 0 then
      ⟨⟨400, .error ⟨"INVALID_INPUT", "customer_id cannot be 0", ""⟩⟩, t, []⟩
    else
      let cartPK := "CART#" ++ cartID
      let custPK := "CUST#" ++ toString CustomerID
      let meta : cartMetadata :=
        { PK := cartPK, SK := "CART", GSI1PK := custPK, GSI1SK := cartPK,
          CartID := cartID, CustomerID := CustomerID, Status := "active" }
      match PutItemIfNotExists t (.cart meta) with
      | .error .ConditionalCheckFailedException =>
        ⟨⟨500, .error ⟨"INTERNAL_ERROR", "Cart ID collision, try again.",
            DynamoError.ConditionalCheckFailedException.Error⟩⟩,
          t, [.PutItem (.cart meta)]⟩
      | .error e =>
        ⟨⟨500, .error ⟨"DB_ERROR", "Failed to create shopping cart", e.Error⟩⟩,
          t, [.PutItem (.cart meta)]⟩
      | .ok t1 =>
        ⟨⟨201, .created cartID "active"⟩, t1, [.PutItem (.cart meta)]⟩

/-- State of the loop of `getShoppingCart` over the queried items. -/
structure GetScan where
  response : shoppingCartInfo
  foundCartMeta : Bool
  deriving DecidableEq, Repr

/-- One iteration of that loop: the metadata record fills the cart fields, a
record whose sort key starts with `ITEM#` appends an item, anything else is
passed over. -/
def GetScan.step (s : GetScan) (dbItem : Item) : GetScan :=
  if dbItem.SK = "CART" then
    let m := unmarshalMetadata dbItem
    { response := { s.response with
                    CartID := m.CartID, CustomerID := m.CustomerID, Status := m.Status }
      foundCartMeta := true }
  else if "ITEM#".data.isPrefixOf dbItem.SK.data then
    let item := unmarshalItemData dbItem
    { s with response := { s.response with
        Items := s.response.Items ++ [⟨item.ProductID, item.ProductName, item.Quantity⟩] } }
  else s

/-- The handler `getShoppingCart` (`GET /shopping-carts/:id`). -/
def getShoppingCart (t : Table) (cartIDStr : String) : Outcome :=
  let cartPK := "CART#" ++ cartIDStr
  let items := Query t cartPK
  if items.length = 0 then
    ⟨⟨404, .error ⟨"CART_NOT_FOUND", "Shopping cart not found",
        "Shopping cart " ++ cartIDStr ++ " does not exist"⟩⟩,
      t, [.Query cartPK]⟩
  else
    let s := items.foldl GetScan.step ⟨⟨"", 0, "", []⟩, false⟩
    if ¬ s.foundCartMeta then
      ⟨⟨404, .error ⟨"CART_NOT_FOUND", "Cart data corrupted, metadata not found",
          "Cart " ++ cartIDStr ++ " has items but no main record"⟩⟩,
        t, [.Query cartPK]⟩
    else ⟨⟨200, .info s.response⟩, t, [.Query cartPK]⟩

/-- The Go function `lookupProductName`. -/
def lookupProductName (productID : Int) : String :=
  "Widget #" ++ toString productID

/-- The item record `updateItemToShoppingCart` builds for a request entry. -/
def itemRecord (cartPK : String) (item : updateCartItem) : Item :=
  .cartItem
    { PK := cartPK, SK := "ITEM#" ++ toString item.ProductID,
      ProductID := item.ProductID, Quantity := item.Quantity,
      ProductName := lookupProductName item.ProductID }

/-- The loop of `updateItemToShoppingCart` over the request items, from the
state `(seen, writeRequests)`: `none` when it returns early on a product id
already seen, otherwise the collected put requests (one per entry of
quantity above zero, in request order). -/
def collectWrites (cartPK : String) :
    List Int → List Item → List updateCartItem → Option (List Item)
  | _, writeRequests, [] => some writeRequests
  | seen, writeRequests, item :: rest =>
    if item.ProductID ∈ seen then none
    else
      collectWrites cartPK (item.ProductID :: seen)
        (if item.Quantity > 0 then writeRequests ++ [itemRecord cartPK item]
         else writeRequests)
        rest

/-- The handler `updateItemToShoppingCart`
(`POST /shopping-carts/:id/items`). Marshalling a `cartItemData` cannot fail,
so that error path has no counterpart here. -/
def updateItemToShoppingCart (t : Table) (cartIDStr : String)
    (req : Option updateCartItemsRequest) : Outcome :=
  match req with
  | none => ⟨invalidBody, t, []⟩
  | some req =>
    let cartPK := "CART#" ++ cartIDStr
    match collectWrites cartPK [] [] req.Items with
    | none =>
      ⟨⟨400, .error ⟨"INVALID_INPUT", "Duplicate product_ids in request", ""⟩⟩, t, []⟩
    | some writeRequests =>
      if writeRequests.length = 0 then
        ⟨⟨200, .message "No items to update."⟩, t, []⟩
      else
        match BatchWriteItem t writeRequests with
        | .error e =>
          ⟨⟨500, .error ⟨"DB_ERROR", "Failed to batch write items", e.Error⟩⟩,
            t, [.BatchWriteItem writeRequests]⟩
        | .ok t1 =>
          ⟨⟨200, .message ("Cart " ++ cartIDStr ++ " updated")⟩,
            t1, [.BatchWriteItem writeRequests]⟩

end DynamoDB

/-! # Vocabulary of the specification and sample stores -/

namespace DynamoDB

/-- An error response names product `p` when the decimal text of `p` occurs
in one of its three fields. -/
def ErrorResponse.mentions (e : ErrorResponse) (p : Int) : Prop :=
  (toString p).data <:+: e.Err.data ∨ (toString p).data <:+: e.Message.data ∨
    (toString p).data <:+: e.Details.data

instance (e : ErrorResponse) (p : Int) : Decidable (e.mentions p) := by
  unfold ErrorResponse.mentions
  infer_instance

/-- A table with the metadata record of cart `C` and one item record. -/
def sampleTable : Table :=
  [.cart ⟨"CART#C", "CART", "CUST#42", "CART#C", "C", 42, "active"⟩,
   .cartItem ⟨"CART#C", "ITEM#7", 7, 2, "Widget #7"⟩]

end DynamoDB

namespace MySQL

/-- The error classification of a response: the `error` member of an
`ErrorResponse` body, `none` for any other body. -/
def Response.errorCode (r : Response) : Option String :=
  match r.body with
  | .error e => some e.Err
  | _ => none

/-- The invariant "a customer has at most one active cart": the customer ids of
the `shopping_cart` rows whose status is `active` are pairwise distinct. -/
def DB.oneActiveCartPerCustomer (db : DB) : Prop :=
  ((db.shopping_cart.filter (fun r => decide (r.status = CartStatus.active))).map
    (fun r => r.customer_id)).Nodup

instance (db : DB) : Decidable db.oneActiveCartPerCustomer := by
  unfold DB.oneActiveCartPerCustomer
  infer_instance

/-- The product ids stored in the catalog. -/
def DB.productIDs (db : DB) : List Int :=
  db.product.map (fun p => p.product_id)

/-- A database with four products, the active cart 1 of customer 42 holding
two of product 1, and a second cart of another customer. -/
def sampleDB : DB :=
  { product := [⟨1, "Product Alpha 1"⟩, ⟨2, "Product Beta 2"⟩, ⟨3, "Product Gamma 3"⟩,
      ⟨5, "Product Epsilon 5"⟩]
    shopping_cart := [⟨1, 42, .active⟩, ⟨2, 43, .active⟩]
    cart_item := [⟨1, 2, 1⟩, ⟨3, 1, 2⟩]
    next_cart_id := 3 }

end MySQL

namespace DynamoDB

/-- The error classification of a response: the `error` member of an
`ErrorResponse` body, `none` for any other body. -/
def Response.errorCode (r : Response) : Option String :=
  match r.body with
  | .error e => some e.Err
  | _ => none

/-- Whether `getShoppingCart` takes a queried record for an item record: its
sort key starts with `ITEM#`. -/
def Item.isItemRecord (r : Item) : Bool :=
  "ITEM#".data.isPrefixOf r.SK.data

/-- The entry of the response's item list that `getShoppingCart` makes of an
item record. -/
def Item.info (r : Item) : cartItemInfo :=
  ⟨(unmarshalItemData r).ProductID, (unmarshalItemData r).ProductName,
    (unmarshalItemData r).Quantity⟩

/-- The tables reachable from the empty table through the two writing
handlers, with any requests, path parameters and generated identities. -/
inductive Reachable : Table → Prop where
  | empty : Reachable []
  | create (t : Table) (req : Option Nat) (cartID : String) :
      Reachable t → Reachable (createShoppingCart t req cartID).table
  | update (t : Table) (cartIDStr : String) (req : Option updateCartItemsRequest) :
      Reachable t → Reachable (updateItemToShoppingCart t cartIDStr req).table

/-- A string of the form `uuid.New().String()` returns (version 4). -/
def sampleUUID : String := "3f2b8c1e-9d4a-4e57-8a6b-0c1d2e3f4a5b"

/-- A table holding one item record under the sample identity and no
metadata record: what `updateItemToShoppingCart` leaves when it is called for
a cart id that was never created. -/
def orphanTable : Table :=
  [.cartItem ⟨"CART#3f2b8c1e-9d4a-4e57-8a6b-0c1d2e3f4a5b", "ITEM#7", 7, 2, "Widget #7"⟩]

/-- A batch of 26 entries with pairwise distinct product ids 1 to 26, each of
quantity 1. -/
def batch26 : List updateCartItem :=
  (List.range 26).map (fun k => ⟨(k : Int) + 1, 1⟩)

end DynamoDB

/-! # Properties -/

/-! ## Decimal text of integers -/

/-- A decimal digit value prints as a digit character. -/
theorem digitChar_isDigit (k : Nat) (hk : k < 10) : (Nat.digitChar k).isDigit = true := by
  interval_cases k <;> decide

/-- Every character `Nat.toDigitsCore` adds in base ten is a digit. -/
theorem toDigitsCore_isDigit (fuel : Nat) :
    ∀ (n : Nat) (acc : List Char), (∀ c ∈ acc, c.isDigit = true) →
      ∀ c ∈ Nat.toDigitsCore 10 fuel n acc, c.isDigit = true := by
  induction fuel with
  | zero => intro n acc hacc c hc; exact hacc c (by simpa [Nat.toDigitsCore] using hc)
  | succ fuel ih =>
    intro n acc hacc c hc
    have hd : (Nat.digitChar (n % 10)).isDigit = true :=
      digitChar_isDigit _ (Nat.mod_lt _ (by decide))
    have hacc2 : ∀ c ∈ Nat.digitChar (n % 10) :: acc, c.isDigit = true := by
      intro c hc
      rcases List.mem_cons.1 hc with rfl | h
      · exact hd
      · exact hacc c h
    simp only [Nat.toDigitsCore] at hc
    split_ifs at hc
    · exact hacc2 c hc
    · exact ih _ _ hacc2 c hc

/-- The digits accumulated so far are never dropped. -/
theorem toDigitsCore_ne_nil (fuel : Nat) :
    ∀ (n : Nat) (acc : List Char), acc ≠ [] → Nat.toDigitsCore 10 fuel n acc ≠ [] := by
  induction fuel with
  | zero => intro n acc hacc; simpa [Nat.toDigitsCore] using hacc
  | succ fuel ih =>
    intro n acc _
    simp only [Nat.toDigitsCore]
    split_ifs
    · simp
    · exact ih _ _ (by simp)

/-- The decimal text of a natural number is a non-empty string of digits. -/
theorem nat_toString_digits (n : Nat) :
    (toString n).data ≠ [] ∧ ∀ c ∈ (toString n).data, c.isDigit = true := by
  show (Nat.repr n).data ≠ [] ∧ ∀ c ∈ (Nat.repr n).data, c.isDigit = true
  unfold Nat.repr Nat.toDigits
  simp only [List.asString]
  constructor
  · simp only [Nat.toDigitsCore]
    split_ifs
    · simp
    · exact toDigitsCore_ne_nil _ _ _ (by simp)
  · exact toDigitsCore_isDigit _ _ _ (by simp)

/-- The decimal text of an integer is a non-empty string of digits and minus
signs. -/
theorem int_toString_chars (p : Int) :
    (toString p).data ≠ [] ∧ ∀ c ∈ (toString p).data, c.isDigit = true ∨ c = '-' := by
  cases p with
  | ofNat m =>
    show (toString m).data ≠ [] ∧ ∀ c ∈ (toString m).data, c.isDigit = true ∨ c = '-'
    exact ⟨(nat_toString_digits m).1, fun c hc => Or.inl ((nat_toString_digits m).2 c hc)⟩
  | negSucc m =>
    show ("-" ++ toString (Nat.succ m)).data ≠ [] ∧
      ∀ c ∈ ("-" ++ toString (Nat.succ m)).data, c.isDigit = true ∨ c = '-'
    rw [String.data_append]
    constructor
    · simp
    · intro c hc
      rcases List.mem_append.1 hc with h | h
      · right
        simpa using h
      · exact Or.inl ((nat_toString_digits _).2 c h)

namespace MySQL

/-! ## The duplicate check of the relational handler -/

/-- The `seen` map never changes what was reported before, and an id is
reported once per occurrence after its first. -/
theorem mem_duplicateProducts_foldl (p : Int) (items : List updateCartItem) :
    ∀ s : DupScan,
      (p ∈ (items.foldl DupScan.step s).duplicateProducts ↔
        p ∈ s.duplicateProducts ∨
        (p ∈ s.seen ∧ 1 ≤ (items.map (fun i => i.ProductID)).count p) ∨
        2 ≤ (items.map (fun i => i.ProductID)).count p) := by
  induction items with
  | nil => intro s; simp
  | cons item rest ih =>
    intro s
    rw [List.foldl_cons, ih]
    by_cases hseen : item.ProductID ∈ s.seen
    · by_cases hp : item.ProductID = p
      · subst hp
        simp [DupScan.step, hseen, List.count_cons]
      · have hp2 : ¬ p = item.ProductID := fun h => hp h.symm
        simp [DupScan.step, hseen, List.count_cons, hp, hp2]
    · by_cases hp : item.ProductID = p
      · subst hp
        simp only [DupScan.step, hseen, if_false, List.mem_cons, true_or, true_and,
          List.map_cons, List.count_cons, beq_self_eq_true, if_true, false_and, false_or]
        refine or_congr Iff.rfl ?_
        constructor
        · rintro (h | h) <;> omega
        · intro h
          exact Or.inl (by omega)
      · have hp2 : ¬ p = item.ProductID := fun h => hp h.symm
        simp [DupScan.step, hseen, List.count_cons, hp, hp2]

/-- The reported ids are exactly those occurring at least twice. -/
theorem mem_duplicateProducts (p : Int) (items : List updateCartItem) :
    p ∈ (dupScan items).duplicateProducts ↔
      2 ≤ (items.map (fun i => i.ProductID)).count p := by
  unfold dupScan
  rw [mem_duplicateProducts_foldl]
  simp

/-- Something is reported exactly when the request repeats a product id. -/
theorem duplicateProducts_length_pos (items : List updateCartItem) :
    0 < (dupScan items).duplicateProducts.length ↔
      ∃ p, 2 ≤ (items.map (fun i => i.ProductID)).count p := by
  rw [List.length_pos]
  constructor
  · intro h
    obtain ⟨p, hp⟩ := List.exists_mem_of_ne_nil _ h
    exact ⟨p, (mem_duplicateProducts p items).1 hp⟩
  · rintro ⟨p, hp⟩
    exact List.ne_nil_of_mem ((mem_duplicateProducts p items).2 hp)

/-- A request repeats a product id exactly when its ids are not pairwise
distinct. -/
theorem exists_count_two_iff_not_nodup (ids : List Int) :
    (∃ p, 2 ≤ ids.count p) ↔ ¬ ids.Nodup := by
  rw [List.nodup_iff_count_le_one]
  constructor
  · rintro ⟨p, hp⟩ h
    have := h p
    omega
  · intro h
    by_contra hc
    apply h
    intro p
    by_contra hp
    exact hc ⟨p, by omega⟩

/-- Without a repeated id nothing is reported. -/
theorem duplicateProducts_eq_nil (items : List updateCartItem)
    (h : (items.map (fun i => i.ProductID)).Nodup) :
    (dupScan items).duplicateProducts = [] := by
  by_contra hne
  have hpos := List.length_pos.2 hne
  rw [duplicateProducts_length_pos, exists_count_two_iff_not_nodup] at hpos
  exact hpos h

/-- The rejection of a request that repeats a product id. -/
theorem sql_update_duplicate (db : DB) (cartIDStr : String) (cartID : Nat)
    (hparse : ParseUint cartIDStr = some cartID) (hpos : 1 ≤ cartID)
    (items : List updateCartItem)
    (hdup : ∃ p, 2 ≤ (items.map (fun i => i.ProductID)).count p) :
    updateItemToShoppingCart db cartIDStr (some ⟨items⟩) =
      ⟨⟨400, .error ⟨"INVALID_INPUT", "Duplicate product_ids in request",
          "Duplicate product_ids in request: " ++
            fmtInt32Slice (dupScan items).duplicateProducts⟩⟩, db, []⟩ := by
  have hlen := (duplicateProducts_length_pos items).2 hdup
  have h1 : ¬ cartID < 1 := by omega
  simp only [updateItemToShoppingCart, hparse, h1, if_false]
  rw [if_pos (by simpa using hlen)]

end MySQL

namespace DynamoDB

/-! ## The duplicate check of the single-table handler -/

/-- The loop returns early exactly when an id was seen before or repeats. -/
theorem collectWrites_eq_none (cartPK : String) (items : List updateCartItem) :
    ∀ (seen : List Int) (w : List Item),
      (collectWrites cartPK seen w items = none ↔
        (∃ p ∈ items.map (fun i => i.ProductID), p ∈ seen) ∨
        ¬ (items.map (fun i => i.ProductID)).Nodup) := by
  induction items with
  | nil => intro seen w; simp [collectWrites]
  | cons item rest ih =>
    intro seen w
    by_cases hseen : item.ProductID ∈ seen
    · simp [collectWrites, hseen]
    · simp only [collectWrites, hseen, if_false, ih, List.map_cons, List.nodup_cons,
        List.mem_cons, exists_eq_or_imp, false_or]
      constructor
      · rintro (⟨p, hp, h | h⟩ | h)
        · subst h
          right
          intro hh
          exact hh.1 hp
        · exact Or.inl ⟨p, hp, h⟩
        · right
          intro hh
          exact h hh.2
      · rintro (⟨p, hp, h⟩ | h)
        · exact Or.inl ⟨p, hp, Or.inr h⟩
        · by_cases hm : item.ProductID ∈ rest.map (fun i => i.ProductID)
          · exact Or.inl ⟨item.ProductID, hm, Or.inl rfl⟩
          · right
            intro hn
            exact h ⟨hm, hn⟩

/-- Without a repeat the loop collects one put per entry of quantity above
zero, in request order. -/
theorem collectWrites_eq_some (cartPK : String) (items : List updateCartItem) :
    ∀ (seen : List Int) (w : List Item),
      (∀ p ∈ items.map (fun i => i.ProductID), p ∉ seen) →
      (items.map (fun i => i.ProductID)).Nodup →
      collectWrites cartPK seen w items =
        some (w ++ (items.filter (fun i => decide (i.Quantity > 0))).map
          (itemRecord cartPK)) := by
  induction items with
  | nil => intro seen w _ _; simp [collectWrites]
  | cons item rest ih =>
    intro seen w hs hn
    have hseen : item.ProductID ∉ seen := hs _ (by simp)
    rw [List.map_cons, List.nodup_cons] at hn
    have hrest : ∀ p ∈ rest.map (fun i => i.ProductID), p ∉ item.ProductID :: seen := by
      intro p hp
      simp only [List.mem_cons, not_or]
      refine ⟨?_, hs p (by simp only [List.map_cons, List.mem_cons]; exact Or.inr hp)⟩
      rintro rfl
      exact hn.1 hp
    simp only [collectWrites, hseen, if_false]
    rw [ih _ _ hrest hn.2]
    by_cases hq : item.Quantity > 0
    · simp [List.filter_cons, hq]
    · simp [List.filter_cons, hq]

/-- The rejection of a request that repeats a product id. -/
theorem dyn_update_duplicate (t : Table) (cartIDStr : String)
    (items : List updateCartItem)
    (hdup : ∃ p, 2 ≤ (items.map (fun i => i.ProductID)).count p) :
    updateItemToShoppingCart t cartIDStr (some ⟨items⟩) =
      ⟨⟨400, .error ⟨"INVALID_INPUT", "Duplicate product_ids in request", ""⟩⟩, t, []⟩ := by
  have hn : ¬ (items.map (fun i => i.ProductID)).Nodup :=
    (MySQL.exists_count_two_iff_not_nodup _).1 hdup
  have h := (collectWrites_eq_none ("CART#" ++ cartIDStr) items [] []).2 (Or.inr hn)
  simp only [updateItemToShoppingCart, h]

/-- The duplicate rejection names no product id whatever: its three fields
contain neither a digit nor a minus sign. -/
theorem duplicate_error_mentions_none (p : Int) :
    ¬ ErrorResponse.mentions
      ⟨"INVALID_INPUT", "Duplicate product_ids in request", ""⟩ p := by
  obtain ⟨hne, hch⟩ := int_toString_chars p
  obtain ⟨c, cs, hcs⟩ := List.exists_cons_of_ne_nil hne
  have hc := hch c (by rw [hcs]; exact List.mem_cons_self _ _)
  have hclean : ∀ s ∈ ["INVALID_INPUT", "Duplicate product_ids in request", ""],
      ∀ d ∈ String.data s, ¬ (d.isDigit = true ∨ d = '-') := by decide
  unfold ErrorResponse.mentions
  rw [hcs]
  rintro (h | h | h)
  · exact hclean "INVALID_INPUT" (by simp) c (h.subset (List.mem_cons_self _ _)) hc
  · exact hclean "Duplicate product_ids in request" (by simp) c
      (h.subset (List.mem_cons_self _ _)) hc
  · exact hclean "" (by simp) c (h.subset (List.mem_cons_self _ _)) hc

end DynamoDB

/-! ## C1 -/

/-- C1. In both strategies, an update whose item sequence repeats a product id
is rejected with status 400, `INVALID_INPUT`, "Duplicate product_ids in
request"; the handler issues no storage call at all, the store is the one it
started from, and every cart read answers as it did before the call. -/
theorem C1_duplicate_request_rejected_without_write
    (db : MySQL.DB) (cartIDStr : String) (cartID : Nat)
    (hparse : MySQL.ParseUint cartIDStr = some cartID) (hpos : 1 ≤ cartID)
    (items : List MySQL.updateCartItem)
    (hdup : ∃ p, 2 ≤ (items.map (fun i => i.ProductID)).count p)
    (t : DynamoDB.Table) (cartIDStr' : String)
    (items' : List DynamoDB.updateCartItem)
    (hdup' : ∃ p, 2 ≤ (items'.map (fun i => i.ProductID)).count p) :
    ((MySQL.updateItemToShoppingCart db cartIDStr (some ⟨items⟩)).response =
        ⟨400, .error ⟨"INVALID_INPUT", "Duplicate product_ids in request",
          "Duplicate product_ids in request: " ++
            MySQL.fmtInt32Slice (MySQL.dupScan items).duplicateProducts⟩⟩ ∧
      (MySQL.updateItemToShoppingCart db cartIDStr (some ⟨items⟩)).calls = [] ∧
      (MySQL.updateItemToShoppingCart db cartIDStr (some ⟨items⟩)).db = db ∧
      ∀ id, MySQL.getShoppingCart
          (MySQL.updateItemToShoppingCart db cartIDStr (some ⟨items⟩)).db id =
        MySQL.getShoppingCart db id) ∧
    ((DynamoDB.updateItemToShoppingCart t cartIDStr' (some ⟨items'⟩)).response =
        ⟨400, .error ⟨"INVALID_INPUT", "Duplicate product_ids in request", ""⟩⟩ ∧
      (DynamoDB.updateItemToShoppingCart t cartIDStr' (some ⟨items'⟩)).calls = [] ∧
      (DynamoDB.updateItemToShoppingCart t cartIDStr' (some ⟨items'⟩)).table = t ∧
      ∀ id, DynamoDB.getShoppingCart
          (DynamoDB.updateItemToShoppingCart t cartIDStr' (some ⟨items'⟩)).table id =
        DynamoDB.getShoppingCart t id) := by
  rw [MySQL.sql_update_duplicate db cartIDStr cartID hparse hpos items hdup,
    DynamoDB.dyn_update_duplicate t cartIDStr' items' hdup']
  exact ⟨⟨rfl, rfl, rfl, fun _ => rfl⟩, rfl, rfl, rfl, fun _ => rfl⟩

/-- C1 at the sample stores and the request `[(5,1),(5,2)]`. -/
theorem C1_duplicate_request_rejected_without_write_witness :
    (MySQL.updateItemToShoppingCart MySQL.sampleDB "1" (some ⟨[⟨5, 1⟩, ⟨5, 2⟩]⟩)).response =
        ⟨400, .error ⟨"INVALID_INPUT", "Duplicate product_ids in request",
          "Duplicate product_ids in request: [5]"⟩⟩ ∧
      (MySQL.updateItemToShoppingCart MySQL.sampleDB "1" (some ⟨[⟨5, 1⟩, ⟨5, 2⟩]⟩)).db =
        MySQL.sampleDB ∧
      (DynamoDB.updateItemToShoppingCart DynamoDB.sampleTable "C"
          (some ⟨[⟨5, 1⟩, ⟨5, 2⟩]⟩)).table = DynamoDB.sampleTable := by
  have h := C1_duplicate_request_rejected_without_write MySQL.sampleDB "1" 1
    (by decide) (by decide) [⟨5, 1⟩, ⟨5, 2⟩] ⟨5, by decide⟩
    DynamoDB.sampleTable "C" [⟨5, 1⟩, ⟨5, 2⟩] ⟨5, by decide⟩
  exact ⟨h.1.1, h.1.2.2.1, h.2.2.2.1⟩

/-! ## C2 -/

/-- C2. In the relational handler, a request that repeats a product id is
rejected with the list `duplicateProducts` printed in the details, and a
product id is in that list if and only if it occurs at least twice in the
request: every repeated id is reported, no id occurring once is. -/
theorem C2_reported_ids_are_exactly_the_repeated_ids
    (db : MySQL.DB) (cartIDStr : String) (cartID : Nat)
    (hparse : MySQL.ParseUint cartIDStr = some cartID) (hpos : 1 ≤ cartID)
    (items : List MySQL.updateCartItem)
    (hdup : ∃ p, 2 ≤ (items.map (fun i => i.ProductID)).count p) :
    (MySQL.updateItemToShoppingCart db cartIDStr (some ⟨items⟩)).response =
        ⟨400, .error ⟨"INVALID_INPUT", "Duplicate product_ids in request",
          "Duplicate product_ids in request: " ++
            MySQL.fmtInt32Slice (MySQL.dupScan items).duplicateProducts⟩⟩ ∧
      ∀ p : Int, p ∈ (MySQL.dupScan items).duplicateProducts ↔
        2 ≤ (items.map (fun i => i.ProductID)).count p := by
  rw [MySQL.sql_update_duplicate db cartIDStr cartID hparse hpos items hdup]
  exact ⟨rfl, fun p => MySQL.mem_duplicateProducts p items⟩

/-- C2 at the request `[(5,1),(7,1),(5,2),(9,4),(9,1),(5,3)]`: 5 and 9 are
reported, 7 is not. -/
theorem C2_reported_ids_are_exactly_the_repeated_ids_witness :
    (MySQL.dupScan [⟨5, 1⟩, ⟨7, 1⟩, ⟨5, 2⟩, ⟨9, 4⟩, ⟨9, 1⟩, ⟨5, 3⟩]).duplicateProducts =
        [5, 9, 5] ∧
      (MySQL.updateItemToShoppingCart MySQL.sampleDB "1"
          (some ⟨[⟨5, 1⟩, ⟨7, 1⟩, ⟨5, 2⟩, ⟨9, 4⟩, ⟨9, 1⟩, ⟨5, 3⟩]⟩)).response =
        ⟨400, .error ⟨"INVALID_INPUT", "Duplicate product_ids in request",
          "Duplicate product_ids in request: [5 9 5]"⟩⟩ ∧
      ((7 : Int) ∈
          (MySQL.dupScan [⟨5, 1⟩, ⟨7, 1⟩, ⟨5, 2⟩, ⟨9, 4⟩, ⟨9, 1⟩, ⟨5, 3⟩]).duplicateProducts ↔
        2 ≤ ([⟨5, 1⟩, ⟨7, 1⟩, ⟨5, 2⟩, ⟨9, 4⟩, ⟨9, 1⟩, ⟨5, 3⟩].map
          (fun i : MySQL.updateCartItem => i.ProductID)).count 7) := by
  have h := C2_reported_ids_are_exactly_the_repeated_ids MySQL.sampleDB "1" 1
    (by decide) (by decide) [⟨5, 1⟩, ⟨7, 1⟩, ⟨5, 2⟩, ⟨9, 4⟩, ⟨9, 1⟩, ⟨5, 3⟩] ⟨5, by decide⟩
  exact ⟨by decide, h.1, h.2 7⟩

/-! ## C3 -/

/-- C3 fails as stated: the single-table handler rejects `[(5,1),(5,2)]` with
an error whose details are empty and none of whose fields names product 5. -/
theorem C3_counterexample :
    (DynamoDB.updateItemToShoppingCart DynamoDB.sampleTable "C"
        (some ⟨[⟨5, 1⟩, ⟨5, 2⟩]⟩)).response =
      ⟨400, .error ⟨"INVALID_INPUT", "Duplicate product_ids in request", ""⟩⟩ ∧
    ¬ DynamoDB.ErrorResponse.mentions
        ⟨"INVALID_INPUT", "Duplicate product_ids in request", ""⟩ 5 := by
  decide

/-- C3, amended. In the single-table handler, every request that repeats a
product id gets one and the same rejection, status 400 with `INVALID_INPUT`,
"Duplicate product_ids in request" and empty details, whichever ids repeat
and however often: the loop returns at the first repeated id and the error
names no product id at all. -/
theorem C3_duplicate_rejection_carries_no_ids
    (t : DynamoDB.Table) (cartIDStr : String) (items : List DynamoDB.updateCartItem)
    (hdup : ∃ p, 2 ≤ (items.map (fun i => i.ProductID)).count p) :
    (DynamoDB.updateItemToShoppingCart t cartIDStr (some ⟨items⟩)).response =
        ⟨400, .error ⟨"INVALID_INPUT", "Duplicate product_ids in request", ""⟩⟩ ∧
      (∀ p : Int, ¬ DynamoDB.ErrorResponse.mentions
        ⟨"INVALID_INPUT", "Duplicate product_ids in request", ""⟩ p) ∧
      ∀ (t' : DynamoDB.Table) (cartIDStr' : String) (items' : List DynamoDB.updateCartItem),
        (∃ p, 2 ≤ (items'.map (fun i => i.ProductID)).count p) →
        (DynamoDB.updateItemToShoppingCart t' cartIDStr' (some ⟨items'⟩)).response =
          (DynamoDB.updateItemToShoppingCart t cartIDStr (some ⟨items⟩)).response := by
  rw [DynamoDB.dyn_update_duplicate t cartIDStr items hdup]
  refine ⟨rfl, DynamoDB.duplicate_error_mentions_none, fun t' c' items' h' => ?_⟩
  rw [DynamoDB.dyn_update_duplicate t' c' items' h']

/-- C3 amended, at the request `[(5,1),(5,2)]`. -/
theorem C3_duplicate_rejection_carries_no_ids_witness :
    (DynamoDB.updateItemToShoppingCart DynamoDB.sampleTable "C"
        (some ⟨[⟨5, 1⟩, ⟨5, 2⟩]⟩)).response =
      ⟨400, .error ⟨"INVALID_INPUT", "Duplicate product_ids in request", ""⟩⟩ :=
  (C3_duplicate_rejection_carries_no_ids DynamoDB.sampleTable "C" [⟨5, 1⟩, ⟨5, 2⟩]
    ⟨5, by decide⟩).1

/-! ## C5 -/

/-- C5. In the single-table handler, a batch of pairwise distinct product ids
whose quantities are all zero (the empty batch included) is answered with
status 200 without any storage call: the table is unchanged and every key
holds what it held before. -/
theorem C5_zero_quantity_batch_touches_no_storage
    (t : DynamoDB.Table) (cartIDStr : String) (items : List DynamoDB.updateCartItem)
    (hdistinct : (items.map (fun i => i.ProductID)).Nodup)
    (hzero : ∀ i ∈ items, i.Quantity = 0) :
    (DynamoDB.updateItemToShoppingCart t cartIDStr (some ⟨items⟩)).response =
        ⟨200, .message "No items to update."⟩ ∧
      (DynamoDB.updateItemToShoppingCart t cartIDStr (some ⟨items⟩)).calls = [] ∧
      (DynamoDB.updateItemToShoppingCart t cartIDStr (some ⟨items⟩)).table = t ∧
      ∀ pk sk,
        (DynamoDB.updateItemToShoppingCart t cartIDStr (some ⟨items⟩)).table.get pk sk =
          t.get pk sk := by
  have hfilter : items.filter (fun i => decide (i.Quantity > 0)) = [] := by
    rw [List.filter_eq_nil_iff]
    intro i hi
    simp [hzero i hi]
  have h := DynamoDB.collectWrites_eq_some ("CART#" ++ cartIDStr) items [] []
    (by simp) hdistinct
  rw [hfilter] at h
  simp only [DynamoDB.updateItemToShoppingCart, h]
  exact ⟨rfl, rfl, rfl, fun _ _ => rfl⟩

/-- C5 at a two-entry zero batch against a cart that holds product 7. -/
theorem C5_zero_quantity_batch_touches_no_storage_witness :
    (DynamoDB.updateItemToShoppingCart DynamoDB.sampleTable "C"
        (some ⟨[⟨7, 0⟩, ⟨8, 0⟩]⟩)).response = ⟨200, .message "No items to update."⟩ ∧
      (DynamoDB.updateItemToShoppingCart DynamoDB.sampleTable "C"
        (some ⟨[⟨7, 0⟩, ⟨8, 0⟩]⟩)).table = DynamoDB.sampleTable := by
  have h := C5_zero_quantity_batch_touches_no_storage DynamoDB.sampleTable "C"
    [⟨7, 0⟩, ⟨8, 0⟩] (by decide) (by decide)
  exact ⟨h.1, h.2.2.1⟩

namespace MySQL

/-! ## The relational update inside its transaction -/

/-- Ids not seen before are appended to `productIDs` in request order. -/
theorem productIDs_foldl (items : List updateCartItem) :
    ∀ s : DupScan,
      (∀ p ∈ items.map (fun i => i.ProductID), p ∉ s.seen) →
      (items.map (fun i => i.ProductID)).Nodup →
      (items.foldl DupScan.step s).productIDs =
        s.productIDs ++ items.map (fun i => i.ProductID) := by
  induction items with
  | nil => intro s _ _; simp
  | cons item rest ih =>
    intro s hs hn
    have hseen : item.ProductID ∉ s.seen := hs _ (by simp)
    rw [List.map_cons, List.nodup_cons] at hn
    rw [List.foldl_cons, ih]
    · simp [DupScan.step, hseen]
    · intro p hp
      simp only [DupScan.step, hseen, if_false, List.mem_cons, not_or]
      refine ⟨?_, hs p (by simp only [List.map_cons, List.mem_cons]; exact Or.inr hp)⟩
      rintro rfl
      exact hn.1 hp
    · exact hn.2

/-- For pairwise distinct ids `productIDs` is the request's id sequence. -/
theorem dupScan_productIDs (items : List updateCartItem)
    (h : (items.map (fun i => i.ProductID)).Nodup) :
    (dupScan items).productIDs = items.map (fun i => i.ProductID) := by
  unfold dupScan
  rw [productIDs_foldl items _ (by simp) h]
  simp

/-- A request with pairwise distinct ids and a parsed, positive cart id
reaches the transaction. -/
theorem update_eq_updateInTx (db : DB) (cartIDStr : String) (cartID : Nat)
    (hparse : ParseUint cartIDStr = some cartID) (hpos : 1 ≤ cartID)
    (items : List updateCartItem)
    (hdistinct : (items.map (fun i => i.ProductID)).Nodup) :
    updateItemToShoppingCart db cartIDStr (some ⟨items⟩) =
      updateInTx db cartIDStr cartID ⟨items⟩ (items.map (fun i => i.ProductID)) := by
  have h1 : ¬ cartID < 1 := by omega
  simp only [updateItemToShoppingCart, hparse, h1, if_false,
    duplicateProducts_eq_nil items hdistinct, dupScan_productIDs items hdistinct,
    List.length_nil, gt_iff_lt, lt_self_iff_false]

/-- The ids the product query returns, for a catalog with unique ids: no
fewer than requested exactly when every requested id is in the catalog. -/
theorem existing_length_lt_iff (db : DB) (ids : List Int)
    (hpk : db.productIDs.Nodup) (hids : ids.Nodup) :
    ((db.product.filter (fun p => decide (p.product_id ∈ ids))).map
        (fun p => p.product_id)).length < ids.length ↔
      ∃ p ∈ ids, p ∉ db.productIDs := by
  have hmap : (db.product.filter (fun p => decide (p.product_id ∈ ids))).map
      (fun p => p.product_id) = db.productIDs.filter (fun q => decide (q ∈ ids)) := by
    unfold DB.productIDs
    rw [List.filter_map]
    rfl
  rw [hmap]
  have hnd : (db.productIDs.filter (fun q => decide (q ∈ ids))).Nodup := hpk.filter _
  have hsub : db.productIDs.filter (fun q => decide (q ∈ ids)) ⊆ ids := by
    intro q hq
    simpa using (List.mem_filter.1 hq).2
  constructor
  · intro hlt
    by_contra hall
    push_neg at hall
    have hsub2 : ids ⊆ db.productIDs.filter (fun q => decide (q ∈ ids)) := by
      intro q hq
      exact List.mem_filter.2 ⟨hall q hq, by simpa using hq⟩
    have := (List.subperm_of_subset hids hsub2).length_le
    omega
  · rintro ⟨p, hp, hnot⟩
    have hsub3 : db.productIDs.filter (fun q => decide (q ∈ ids)) ⊆ ids.erase p := by
      intro q hq
      have hq1 := List.mem_filter.1 hq
      have hne : q ≠ p := by
        rintro rfl
        exact hnot hq1.1
      exact (List.mem_erase_of_ne hne).2 (by simpa using hq1.2)
    have h1 := (List.subperm_of_subset hnd hsub3).length_le
    have h2 := List.length_erase_of_mem hp
    have h3 : 0 < ids.length := List.length_pos_of_mem hp
    omega

/-- Membership in the product query's result. -/
theorem mem_existing (db : DB) (ids : List Int) (p : Int) :
    p ∈ (db.product.filter (fun p => decide (p.product_id ∈ ids))).map
        (fun p => p.product_id) ↔ p ∈ db.productIDs ∧ p ∈ ids := by
  unfold DB.productIDs
  simp only [List.mem_map, List.mem_filter, decide_eq_true_eq]
  constructor
  · rintro ⟨r, ⟨hr, hin⟩, rfl⟩
    exact ⟨⟨r, hr, rfl⟩, hin⟩
  · rintro ⟨⟨r, hr, rfl⟩, hin⟩
    exact ⟨r, ⟨hr, hin⟩, rfl⟩

/-- The list of missing ids the handler prints: the requested ids, in request
order, that the catalog lacks. -/
theorem missingProducts_eq (db : DB) (items : List updateCartItem) :
    (items.filter (fun item => decide (item.ProductID ∉
        (db.product.filter (fun p => decide (p.product_id ∈
          items.map (fun i => i.ProductID)))).map (fun p => p.product_id)))).map
        (fun item => item.ProductID) =
      (items.map (fun i => i.ProductID)).filter (fun p => decide (p ∉ db.productIDs)) := by
  rw [List.filter_map]
  congr 1
  apply List.filter_congr
  intro item hitem
  have hin : item.ProductID ∈ items.map (fun i => i.ProductID) :=
    List.mem_map.2 ⟨item, hitem, rfl⟩
  simp only [Function.comp, mem_existing, hin, and_true]

end MySQL

namespace MySQL

/-- A cart row with the id makes the existence check succeed. -/
theorem selectCartExists_of_mem (db : DB) (cartID : Nat)
    (hcart : ∃ r ∈ db.shopping_cart, r.cart_id = cartID) :
    selectCartExists db cartID = true := by
  obtain ⟨r, hr, hrc⟩ := hcart
  exact List.any_eq_true.2 ⟨r, hr, by simpa using hrc⟩

/-- With no product id to look up, the product query is malformed and the
transaction ends in `DB_ERROR`. -/
theorem updateInTx_no_ids (db : DB) (cartIDStr : String) (cartID : Nat)
    (req : updateCartItemsRequest)
    (hex : selectCartExists db cartID = true) :
    updateInTx db cartIDStr cartID req [] =
      ⟨⟨500, .error ⟨"DB_ERROR", "Fail to check products in the database",
          SqlError.syntaxError.Error⟩⟩,
        db, [.Begin, .selectCartExists cartID, .selectProducts [], .Rollback]⟩ := by
  simp only [updateInTx, hex, selectProducts, if_true, not_true_eq_false, if_false]

/-- With a requested id missing from the catalog, the transaction ends in
`PRODUCT_NOT_FOUND` before any upsert. -/
theorem updateInTx_missing (db : DB) (cartIDStr : String) (cartID : Nat)
    (items : List updateCartItem)
    (hex : selectCartExists db cartID = true)
    (hpk : db.productIDs.Nodup)
    (hdistinct : (items.map (fun i => i.ProductID)).Nodup)
    (hmiss : ∃ p ∈ items.map (fun i => i.ProductID), p ∉ db.productIDs) :
    updateInTx db cartIDStr cartID ⟨items⟩ (items.map (fun i => i.ProductID)) =
      ⟨⟨404, .error ⟨"PRODUCT_NOT_FOUND", "Invalid product_id",
          "Product IDs " ++ fmtInt32Slice
            ((items.map (fun i => i.ProductID)).filter
              (fun p => decide (p ∉ db.productIDs))) ++ " not found"⟩⟩,
        db,
        [.Begin, .selectCartExists cartID,
          .selectProducts (items.map (fun i => i.ProductID)), .Rollback]⟩ := by
  have hlt := (existing_length_lt_iff db _ hpk hdistinct).2 hmiss
  have hnil : items.map (fun i => i.ProductID) ≠ [] := by
    obtain ⟨p, hp, _⟩ := hmiss
    exact List.ne_nil_of_mem hp
  simp only [updateInTx, hex, selectProducts, hnil, if_false, hlt,
    if_true, missingProducts_eq, not_true_eq_false]

/-- With every requested id in the catalog (and at least one requested), the
transaction runs the upsert loop and commits exactly when no statement
fails. -/
theorem updateInTx_exec (db : DB) (cartIDStr : String) (cartID : Nat)
    (items : List updateCartItem)
    (hex : selectCartExists db cartID = true)
    (hpk : db.productIDs.Nodup)
    (hdistinct : (items.map (fun i => i.ProductID)).Nodup)
    (hne : items ≠ [])
    (hall : ∀ p ∈ items.map (fun i => i.ProductID), p ∈ db.productIDs) :
    updateInTx db cartIDStr cartID ⟨items⟩ (items.map (fun i => i.ProductID)) =
      match (execLoop cartID db items).failed with
      | some pid =>
        ⟨⟨500, .H "error" ("Failed to add/update item " ++ toString pid)⟩,
          db,
          [.Begin, .selectCartExists cartID,
            .selectProducts (items.map (fun i => i.ProductID)), .prepareUpsert]
            ++ (execLoop cartID db items).calls ++ [.Rollback]⟩
      | none =>
        ⟨⟨200, .H "message" ("Cart " ++ toString cartID ++ " updated")⟩,
          (execLoop cartID db items).db,
          [.Begin, .selectCartExists cartID,
            .selectProducts (items.map (fun i => i.ProductID)), .prepareUpsert]
            ++ (execLoop cartID db items).calls ++ [.Commit]⟩ := by
  have hge : ¬ ((db.product.filter (fun p => decide (p.product_id ∈
      items.map (fun i => i.ProductID)))).map (fun p => p.product_id)).length <
      (items.map (fun i => i.ProductID)).length := by
    rw [existing_length_lt_iff db _ hpk hdistinct]
    rintro ⟨p, hp, hnot⟩
    exact hnot (hall p hp)
  have hnil : items.map (fun i => i.ProductID) ≠ [] := by
    simpa using hne
  simp only [updateInTx, hex, selectProducts, hnil, if_false, hge, not_true_eq_false]

end MySQL

/-! ## C6 -/

/-- C6. In the relational handler, for a database satisfying its schema, an
existing cart and a batch of pairwise distinct product ids: the response is
classified `PRODUCT_NOT_FOUND` if and only if some requested id is not in the
catalog; then it is the 404 response whose details print exactly the
requested ids the catalog lacks, in request order, the transaction is rolled
back before any upsert is executed and the database is unchanged. -/
theorem C6_missing_product_rejects_whole_batch
    (db : MySQL.DB) (hwf : db.wellFormed) (cartIDStr : String) (cartID : Nat)
    (hparse : MySQL.ParseUint cartIDStr = some cartID) (hpos : 1 ≤ cartID)
    (hcart : ∃ r ∈ db.shopping_cart, r.cart_id = cartID)
    (items : List MySQL.updateCartItem)
    (hdistinct : (items.map (fun i => i.ProductID)).Nodup) :
    ((MySQL.updateItemToShoppingCart db cartIDStr (some ⟨items⟩)).response.errorCode =
          some "PRODUCT_NOT_FOUND" ↔
        ∃ p ∈ items.map (fun i => i.ProductID), p ∉ db.productIDs) ∧
      ((∃ p ∈ items.map (fun i => i.ProductID), p ∉ db.productIDs) →
        MySQL.updateItemToShoppingCart db cartIDStr (some ⟨items⟩) =
          ⟨⟨404, .error ⟨"PRODUCT_NOT_FOUND", "Invalid product_id",
              "Product IDs " ++ MySQL.fmtInt32Slice
                ((items.map (fun i => i.ProductID)).filter
                  (fun p => decide (p ∉ db.productIDs))) ++ " not found"⟩⟩,
            db,
            [.Begin, .selectCartExists cartID,
              .selectProducts (items.map (fun i => i.ProductID)), .Rollback]⟩) := by
  have hex := MySQL.selectCartExists_of_mem db cartID hcart
  rw [MySQL.update_eq_updateInTx db cartIDStr cartID hparse hpos items hdistinct]
  by_cases hmiss : ∃ p ∈ items.map (fun i => i.ProductID), p ∉ db.productIDs
  · rw [MySQL.updateInTx_missing db cartIDStr cartID items hex hwf.1 hdistinct hmiss]
    exact ⟨⟨fun _ => hmiss, fun _ => rfl⟩, fun _ => rfl⟩
  · refine ⟨?_, fun h => absurd h hmiss⟩
    simp only [hmiss, iff_false]
    by_cases hnil : items = []
    · subst hnil
      rw [List.map_nil, MySQL.updateInTx_no_ids db cartIDStr cartID _ hex]
      simp only [MySQL.Response.errorCode, Option.some.injEq]
      decide
    · rw [MySQL.updateInTx_exec db cartIDStr cartID items hex hwf.1 hdistinct hnil
        (by
          intro p hp
          by_contra hnot
          exact hmiss ⟨p, hp, hnot⟩)]
      cases hf : (MySQL.execLoop cartID db items).failed with
      | none => simp [MySQL.Response.errorCode]
      | some pid => simp [MySQL.Response.errorCode]

/-- C6 at the sample database: the batch `[(1,4),(7,1),(2,0),(9,3)]` names the
missing products 7 and 9 and leaves cart 1 as it was. -/
theorem C6_missing_product_rejects_whole_batch_witness :
    MySQL.updateItemToShoppingCart MySQL.sampleDB "1"
        (some ⟨[⟨1, 4⟩, ⟨7, 1⟩, ⟨2, 0⟩, ⟨9, 3⟩]⟩) =
      ⟨⟨404, .error ⟨"PRODUCT_NOT_FOUND", "Invalid product_id",
          "Product IDs [7 9] not found"⟩⟩,
        MySQL.sampleDB,
        [.Begin, .selectCartExists 1, .selectProducts [1, 7, 2, 9], .Rollback]⟩ :=
  (C6_missing_product_rejects_whole_batch MySQL.sampleDB (by decide) "1" 1
    (by decide) (by decide) ⟨⟨1, 42, .active⟩, by decide, rfl⟩
    [⟨1, 4⟩, ⟨7, 1⟩, ⟨2, 0⟩, ⟨9, 3⟩] (by decide)).2 ⟨7, by decide, by decide⟩

namespace MySQL

/-! ## The upsert statement and the loop around it -/

/-- A zero quantity violates `CHECK (quantity > 0)`. -/
theorem upsertCartItem_zero (db : DB) (pid : Int) (cid : Nat) :
    upsertCartItem db pid 0 cid = .error .checkViolated := by
  simp [upsertCartItem, maxIntUnsigned]

/-- A quantity beyond the column's range is refused. -/
theorem upsertCartItem_outOfRange (db : DB) (pid : Int) (q cid : Nat)
    (hq : maxIntUnsigned < q) :
    upsertCartItem db pid q cid = .error .outOfRange := by
  simp [upsertCartItem, hq]

/-- An upsert with an admissible quantity, for an existing cart and product,
succeeds: afterwards the row `(pid, q, cid)` is stored, no other row of that
cart and product is, every other row is as before, and the schema's
constraints still hold. -/
theorem upsertCartItem_ok (db : DB) (pid : Int) (q cid : Nat)
    (hq : 0 < q) (hmax : q ≤ maxIntUnsigned)
    (hcart : ∃ r ∈ db.shopping_cart, r.cart_id = cid)
    (hprod : pid ∈ db.productIDs) :
    ∃ db1, upsertCartItem db pid q cid = .ok db1 ∧
      db1.product = db.product ∧ db1.shopping_cart = db.shopping_cart ∧
      db1.next_cart_id = db.next_cart_id ∧
      (∀ r, r ∈ db1.cart_item ↔
        r = ⟨pid, q, cid⟩ ∨
          (r ∈ db.cart_item ∧ ¬ (r.cart_id = cid ∧ r.product_id = pid))) ∧
      ((db.cart_item.map (fun r => (r.cart_id, r.product_id))).Nodup →
        (db1.cart_item.map (fun r => (r.cart_id, r.product_id))).Nodup) := by
  have h1 : ¬ maxIntUnsigned < q := by omega
  have h2 : ¬ q = 0 := by omega
  have hc : db.shopping_cart.any (fun r => decide (r.cart_id = cid)) = true :=
    selectCartExists_of_mem db cid hcart
  have hp : db.product.any (fun p => decide (p.product_id = pid)) = true := by
    obtain ⟨r, hr, hrp⟩ := List.mem_map.1 hprod
    exact List.any_eq_true.2 ⟨r, hr, by simpa using hrp⟩
  by_cases hany : db.cart_item.any
      (fun r => decide (r.cart_id = cid ∧ r.product_id = pid)) = true
  · refine ⟨{ db with
        cart_item := db.cart_item.map (fun r =>
          if r.cart_id = cid ∧ r.product_id = pid
          then { r with quantity := q } else r) },
      by simp only [upsertCartItem, h1, h2, hany, if_true, if_false],
      rfl, rfl, rfl, ?_, ?_⟩
    · intro r
      simp only [List.mem_map]
      constructor
      · rintro ⟨r0, hr0, rfl⟩
        by_cases hm : r0.cart_id = cid ∧ r0.product_id = pid
        · left
          rw [if_pos hm]
          obtain ⟨ha, hb⟩ := hm
          subst ha hb
          rfl
        · right
          rw [if_neg hm]
          exact ⟨hr0, hm⟩
      · rintro (rfl | ⟨hr, hm⟩)
        · obtain ⟨r0, hr0, hm0⟩ := List.any_eq_true.1 hany
          have hm0 : r0.cart_id = cid ∧ r0.product_id = pid := by simpa using hm0
          refine ⟨r0, hr0, ?_⟩
          rw [if_pos hm0]
          obtain ⟨ha, hb⟩ := hm0
          subst ha hb
          rfl
        · exact ⟨r, hr, by rw [if_neg hm]⟩
    · intro hnd
      have hkeys : (db.cart_item.map (fun r =>
            if r.cart_id = cid ∧ r.product_id = pid
            then { r with quantity := q } else r)).map
          (fun r => (r.cart_id, r.product_id)) =
          db.cart_item.map (fun r => (r.cart_id, r.product_id)) := by
        rw [List.map_map]
        apply List.map_congr_left
        intro r _
        by_cases hm : r.cart_id = cid ∧ r.product_id = pid
        · simp [hm]
        · simp [hm]
      show ((db.cart_item.map _).map _).Nodup
      rw [hkeys]
      exact hnd
  · have hnone : ∀ r ∈ db.cart_item, ¬ (r.cart_id = cid ∧ r.product_id = pid) := by
      intro r hr hm
      exact hany (List.any_eq_true.2 ⟨r, hr, by simpa using hm⟩)
    refine ⟨{ db with cart_item := db.cart_item ++ [⟨pid, q, cid⟩] },
      by simp only [upsertCartItem, h1, h2, hany, hc, hp, if_true, if_false,
        not_true_eq_false, Bool.false_eq_true], rfl, rfl, rfl, ?_, ?_⟩
    · intro r
      simp only [List.mem_append, List.mem_singleton]
      constructor
      · rintro (hr | rfl)
        · exact Or.inr ⟨hr, hnone r hr⟩
        · exact Or.inl rfl
      · rintro (rfl | ⟨hr, _⟩)
        · exact Or.inr rfl
        · exact Or.inl hr
    · intro hnd
      show ((db.cart_item ++ [(⟨pid, q, cid⟩ : CartItemRow)]).map
        (fun r => (r.cart_id, r.product_id))).Nodup
      rw [List.map_append, List.nodup_append]
      refine ⟨hnd, by simp, ?_⟩
      intro k hk hk2
      simp only [List.map_cons, List.map_nil, List.mem_singleton] at hk2
      obtain ⟨r, hr, hrk⟩ := List.mem_map.1 hk
      rw [hk2] at hrk
      simp only [Prod.mk.injEq] at hrk
      exact hnone r hr hrk

end MySQL

namespace MySQL

/-- The upsert loop over a batch of pairwise distinct, existing product ids
with admissible quantities, for an existing cart: no statement fails, one
upsert is executed per entry, and afterwards the cart holds the row of every
entry while all rows outside the batch are as before. -/
theorem execLoop_ok (cid : Nat) (items : List updateCartItem) :
    ∀ db : DB,
      (∃ r ∈ db.shopping_cart, r.cart_id = cid) →
      (∀ i ∈ items, 0 < i.Quantity ∧ i.Quantity ≤ maxIntUnsigned) →
      (∀ p ∈ items.map (fun i => i.ProductID), p ∈ db.productIDs) →
      (items.map (fun i => i.ProductID)).Nodup →
      (execLoop cid db items).failed = none ∧
      (execLoop cid db items).calls =
        items.map (fun i => SqlCall.execUpsert i.ProductID i.Quantity cid) ∧
      (execLoop cid db items).db.product = db.product ∧
      (execLoop cid db items).db.shopping_cart = db.shopping_cart ∧
      (execLoop cid db items).db.next_cart_id = db.next_cart_id ∧
      (∀ r, r ∈ (execLoop cid db items).db.cart_item ↔
        (∃ i ∈ items, r = ⟨i.ProductID, i.Quantity, cid⟩) ∨
          (r ∈ db.cart_item ∧
            ¬ (r.cart_id = cid ∧ r.product_id ∈ items.map (fun i => i.ProductID)))) ∧
      ((db.cart_item.map (fun r => (r.cart_id, r.product_id))).Nodup →
        ((execLoop cid db items).db.cart_item.map
          (fun r => (r.cart_id, r.product_id))).Nodup) := by
  induction items with
  | nil =>
    intro db _ _ _ _
    simp [execLoop]
  | cons item rest ih =>
    intro db hcart hq hprod hnd
    rw [List.map_cons, List.nodup_cons] at hnd
    obtain ⟨db1, hup, hP, hS, hN, hmem, hkeys⟩ :=
      upsertCartItem_ok db item.ProductID item.Quantity cid
        (hq item (by simp)).1 (hq item (by simp)).2 hcart (hprod _ (by simp))
    have hcart1 : ∃ r ∈ db1.shopping_cart, r.cart_id = cid := by rw [hS]; exact hcart
    have hprod1 : ∀ p ∈ rest.map (fun i => i.ProductID), p ∈ db1.productIDs := by
      intro p hp
      unfold DB.productIDs
      rw [hP]
      exact hprod p (by simp only [List.map_cons, List.mem_cons]; exact Or.inr hp)
    obtain ⟨hf, hc, hP2, hS2, hN2, hmem2, hkeys2⟩ :=
      ih db1 hcart1 (fun i hi => hq i (List.mem_cons_of_mem _ hi)) hprod1 hnd.2
    simp only [execLoop, hup]
    refine ⟨hf, by rw [hc]; rfl, hP2.trans hP, hS2.trans hS, hN2.trans hN, ?_,
      fun h => hkeys2 (hkeys h)⟩
    intro r
    rw [hmem2, hmem]
    simp only [List.mem_cons, List.map_cons, exists_eq_or_imp]
    constructor
    · rintro (h | ⟨rfl | ⟨hr, hm⟩, hn⟩)
      · exact Or.inl (Or.inr h)
      · exact Or.inl (Or.inl rfl)
      · right
        refine ⟨hr, ?_⟩
        rintro ⟨hc1, heq | hin⟩
        · exact hm ⟨hc1, heq⟩
        · exact hn ⟨hc1, hin⟩
    · rintro ((rfl | h) | ⟨hr, hn⟩)
      · right
        refine ⟨Or.inl rfl, ?_⟩
        rintro ⟨_, hin⟩
        exact hnd.1 hin
      · exact Or.inl h
      · right
        refine ⟨Or.inr ⟨hr, fun hm => hn ⟨hm.1, Or.inl hm.2⟩⟩, ?_⟩
        rintro ⟨hc1, hin⟩
        exact hn ⟨hc1, Or.inr hin⟩

/-- The upsert loop keeps the schema's constraints. -/
theorem execLoop_wellFormed (cid : Nat) (items : List updateCartItem) (db : DB)
    (hwf : db.wellFormed)
    (hcart : ∃ r ∈ db.shopping_cart, r.cart_id = cid)
    (hq : ∀ i ∈ items, 0 < i.Quantity ∧ i.Quantity ≤ maxIntUnsigned)
    (hprod : ∀ p ∈ items.map (fun i => i.ProductID), p ∈ db.productIDs)
    (hnd : (items.map (fun i => i.ProductID)).Nodup) :
    (execLoop cid db items).db.wellFormed := by
  obtain ⟨_, _, hP, hS, hN, hmem, hkeys⟩ := execLoop_ok cid items db hcart hq hprod hnd
  obtain ⟨w1, w2, w3, w4, w5, w6, w7, w8⟩ := hwf
  refine ⟨by rw [hP]; exact w1, by rw [hS]; exact w2, hkeys w3, ?_, ?_, ?_,
    by rw [hS, hN]; exact w7, by rw [hN]; exact w8⟩
  · intro r hr
    rcases (hmem r).1 hr with ⟨i, hi, rfl⟩ | ⟨hr0, _⟩
    · exact hq i hi
    · exact w4 r hr0
  · intro r hr
    rw [hS]
    rcases (hmem r).1 hr with ⟨i, hi, rfl⟩ | ⟨hr0, _⟩
    · obtain ⟨c, hc, hcid⟩ := hcart
      exact List.mem_map.2 ⟨c, hc, hcid⟩
    · exact w5 r hr0
  · intro r hr
    rw [hP]
    rcases (hmem r).1 hr with ⟨i, hi, rfl⟩ | ⟨hr0, _⟩
    · exact hprod _ (List.mem_map.2 ⟨i, hi, rfl⟩)
    · exact w6 r hr0

end MySQL

/-! ## C4 -/

/-- C4 fails as stated: against the sample database, whose cart 1 exists and
whose catalog has product 1, the zero-quantity batch `[(1,0)]` is answered
with status 500, and so is the empty batch. -/
theorem C4_counterexample :
    (MySQL.updateItemToShoppingCart MySQL.sampleDB "1" (some ⟨[⟨1, 0⟩]⟩)).response =
        ⟨500, .H "error" "Failed to add/update item 1"⟩ ∧
      (MySQL.updateItemToShoppingCart MySQL.sampleDB "1" (some ⟨[]⟩)).response =
        ⟨500, .error ⟨"DB_ERROR", "Fail to check products in the database",
          MySQL.SqlError.syntaxError.Error⟩⟩ := by
  decide

/-- C4, amended. In the relational handler, for a database satisfying its
schema, an existing cart and a non-empty batch of pairwise distinct, existing
product ids whose quantities are all zero, the operation does not succeed:
the upsert of the first entry violates `CHECK (quantity > 0)`, the handler
answers status 500 naming that entry's product, and the transaction is rolled
back, so the database, and with it the cart's stored item set, is
unchanged. -/
theorem C4_zero_quantity_batch_refused_and_rolled_back
    (db : MySQL.DB) (hwf : db.wellFormed) (cartIDStr : String) (cartID : Nat)
    (hparse : MySQL.ParseUint cartIDStr = some cartID) (hpos : 1 ≤ cartID)
    (hcart : ∃ r ∈ db.shopping_cart, r.cart_id = cartID)
    (first : MySQL.updateCartItem) (rest : List MySQL.updateCartItem)
    (hdistinct : ((first :: rest).map (fun i => i.ProductID)).Nodup)
    (hexist : ∀ p ∈ (first :: rest).map (fun i => i.ProductID), p ∈ db.productIDs)
    (hzero : ∀ i ∈ first :: rest, i.Quantity = 0) :
    MySQL.updateItemToShoppingCart db cartIDStr (some ⟨first :: rest⟩) =
      ⟨⟨500, .H "error" ("Failed to add/update item " ++ toString first.ProductID)⟩,
        db,
        [.Begin, .selectCartExists cartID,
          .selectProducts ((first :: rest).map (fun i => i.ProductID)), .prepareUpsert,
          .execUpsert first.ProductID 0 cartID, .Rollback]⟩ := by
  have hex := MySQL.selectCartExists_of_mem db cartID hcart
  have hq : first.Quantity = 0 := hzero first (by simp)
  rw [MySQL.update_eq_updateInTx db cartIDStr cartID hparse hpos _ hdistinct,
    MySQL.updateInTx_exec db cartIDStr cartID _ hex hwf.1 hdistinct (by simp) hexist]
  simp [MySQL.execLoop, hq, MySQL.upsertCartItem_zero]

/-- C4 amended, at the sample database and the batch `[(1,0),(2,0)]`. -/
theorem C4_zero_quantity_batch_refused_and_rolled_back_witness :
    MySQL.updateItemToShoppingCart MySQL.sampleDB "1" (some ⟨[⟨1, 0⟩, ⟨2, 0⟩]⟩) =
      ⟨⟨500, .H "error" "Failed to add/update item 1"⟩,
        MySQL.sampleDB,
        [.Begin, .selectCartExists 1, .selectProducts [1, 2], .prepareUpsert,
          .execUpsert 1 0 1, .Rollback]⟩ :=
  C4_zero_quantity_batch_refused_and_rolled_back MySQL.sampleDB (by decide) "1" 1
    (by decide) (by decide) ⟨⟨1, 42, .active⟩, by decide, rfl⟩ ⟨1, 0⟩ [⟨2, 0⟩]
    (by decide) (by decide) (by decide)

/-! ## C7 -/

/-- C7 fails as stated: against the sample database, whose cart 1 exists and
whose catalog has product 1, the batch `[(1, 4294967296)]` (a quantity above
zero that Go's `uint` holds and the `INT UNSIGNED` column does not) is
answered with status 500, and so is the empty batch; neither changes the
database. -/
theorem C7_counterexample :
    MySQL.updateItemToShoppingCart MySQL.sampleDB "1" (some ⟨[⟨1, 4294967296⟩]⟩) =
        ⟨⟨500, .H "error" "Failed to add/update item 1"⟩,
          MySQL.sampleDB,
          [.Begin, .selectCartExists 1, .selectProducts [1], .prepareUpsert,
            .execUpsert 1 4294967296 1, .Rollback]⟩ ∧
      MySQL.updateItemToShoppingCart MySQL.sampleDB "1" (some ⟨[]⟩) =
        ⟨⟨500, .error ⟨"DB_ERROR", "Fail to check products in the database",
            MySQL.SqlError.syntaxError.Error⟩⟩,
          MySQL.sampleDB,
          [.Begin, .selectCartExists 1, .selectProducts [], .Rollback]⟩ := by
  decide

/-- C7, amended. In the relational handler, for a database satisfying its
schema, an existing cart and a non-empty batch of pairwise distinct product
ids that all exist in the catalog and all have a quantity from 1 to
4294967295, the operation succeeds with status 200. Afterwards `cart_item`
holds, for each entry, the row (product, quantity, cart), it holds no other
row for that cart and a product of the batch, and every other row (other
products, other carts) is as before; so the quantity stored for an entry's
product is the entry's quantity. The tables `product` and `shopping_cart` are
unchanged and the schema's constraints, `UNIQUE (cart_id, product_id)` among
them, still hold. -/
theorem C7_batch_upsert_inserts_or_overwrites
    (db : MySQL.DB) (hwf : db.wellFormed) (cartIDStr : String) (cartID : Nat)
    (hparse : MySQL.ParseUint cartIDStr = some cartID) (hpos : 1 ≤ cartID)
    (hcart : ∃ r ∈ db.shopping_cart, r.cart_id = cartID)
    (items : List MySQL.updateCartItem) (hne : items ≠ [])
    (hdistinct : (items.map (fun i => i.ProductID)).Nodup)
    (hexist : ∀ p ∈ items.map (fun i => i.ProductID), p ∈ db.productIDs)
    (hq : ∀ i ∈ items, 0 < i.Quantity ∧ i.Quantity ≤ MySQL.maxIntUnsigned) :
    (MySQL.updateItemToShoppingCart db cartIDStr (some ⟨items⟩)).response =
        ⟨200, .H "message" ("Cart " ++ toString cartID ++ " updated")⟩ ∧
      (MySQL.updateItemToShoppingCart db cartIDStr (some ⟨items⟩)).db.product =
        db.product ∧
      (MySQL.updateItemToShoppingCart db cartIDStr (some ⟨items⟩)).db.shopping_cart =
        db.shopping_cart ∧
      (∀ r, r ∈ (MySQL.updateItemToShoppingCart db cartIDStr (some ⟨items⟩)).db.cart_item ↔
        (∃ i ∈ items, r = ⟨i.ProductID, i.Quantity, cartID⟩) ∨
          (r ∈ db.cart_item ∧
            ¬ (r.cart_id = cartID ∧ r.product_id ∈ items.map (fun i => i.ProductID)))) ∧
      (∀ i ∈ items, ∀ r ∈
          (MySQL.updateItemToShoppingCart db cartIDStr (some ⟨items⟩)).db.cart_item,
        r.cart_id = cartID → r.product_id = i.ProductID → r.quantity = i.Quantity) ∧
      (MySQL.updateItemToShoppingCart db cartIDStr (some ⟨items⟩)).db.wellFormed := by
  have hex := MySQL.selectCartExists_of_mem db cartID hcart
  obtain ⟨hf, _, hP, hS, _, hmem, _⟩ :=
    MySQL.execLoop_ok cartID items db hcart hq hexist hdistinct
  have hw := MySQL.execLoop_wellFormed cartID items db hwf hcart hq hexist hdistinct
  rw [MySQL.update_eq_updateInTx db cartIDStr cartID hparse hpos _ hdistinct,
    MySQL.updateInTx_exec db cartIDStr cartID _ hex hwf.1 hdistinct hne hexist]
  rw [hf]
  refine ⟨rfl, hP, hS, hmem, ?_, hw⟩
  intro i hi r hr hc hp
  rcases (hmem r).1 hr with ⟨j, hj, rfl⟩ | ⟨_, hn⟩
  · have hji : j = i :=
      List.inj_on_of_nodup_map hdistinct hj hi hp
    rw [hji]
  · exact absurd ⟨hc, hp ▸ List.mem_map.2 ⟨i, hi, rfl⟩⟩ hn

/-- C7 amended, at the sample database: the batch `[(1,5),(2,3)]` overwrites
the quantity 2 of product 1 in cart 1, adds product 2 and leaves the item of
cart 2 alone. -/
theorem C7_batch_upsert_inserts_or_overwrites_witness :
    (MySQL.updateItemToShoppingCart MySQL.sampleDB "1"
        (some ⟨[⟨1, 5⟩, ⟨2, 3⟩]⟩)).response = ⟨200, .H "message" "Cart 1 updated"⟩ ∧
      (MySQL.updateItemToShoppingCart MySQL.sampleDB "1"
        (some ⟨[⟨1, 5⟩, ⟨2, 3⟩]⟩)).db.cart_item = [⟨1, 5, 1⟩, ⟨3, 1, 2⟩, ⟨2, 3, 1⟩] ∧
      (MySQL.updateItemToShoppingCart MySQL.sampleDB "1"
        (some ⟨[⟨1, 5⟩, ⟨2, 3⟩]⟩)).db.wellFormed := by
  have h := C7_batch_upsert_inserts_or_overwrites MySQL.sampleDB (by decide) "1" 1
    (by decide) (by decide) ⟨⟨1, 42, .active⟩, by decide, rfl⟩ [⟨1, 5⟩, ⟨2, 3⟩]
    (by decide) (by decide) (by decide) (by decide)
  exact ⟨h.1, by decide, h.2.2.2.2.2⟩

namespace DynamoDB

/-! ## Puts and batches on the table -/

/-- After a put the table holds the new item, no other item at its key, and
every item stored at another key. -/
theorem mem_put (t : Table) (w r : Item) :
    r ∈ t.put w ↔ r = w ∨ (r ∈ t ∧ ¬ (r.PK = w.PK ∧ r.SK = w.SK)) := by
  simp only [Table.put, Item.hasKey, List.mem_append, List.mem_filter, List.mem_singleton,
    Bool.not_eq_true', decide_eq_false_iff_not]
  constructor
  · rintro (h | h)
    · exact Or.inr h
    · exact Or.inl h
  · rintro (h | h)
    · exact Or.inr h
    · exact Or.inl h

/-- Reading a key after a put: the new item at its own key, the old contents
elsewhere. -/
theorem get_put (t : Table) (w : Item) (pk sk : String) :
    (t.put w).get pk sk = if w.PK = pk ∧ w.SK = sk then some w else t.get pk sk := by
  induction t with
  | nil =>
    simp [Table.get, Table.put, Item.hasKey]
  | cons a t ih =>
    simp only [Table.get, Table.put] at ih ⊢
    by_cases ha : a.PK = w.PK ∧ a.SK = w.SK
    · have hf : (!Item.hasKey w.PK w.SK a) = false := by simp [Item.hasKey, ha]
      rw [List.filter_cons_of_neg (p := fun r => !Item.hasKey w.PK w.SK r)
        (by simp [hf]), ih]
      by_cases hk : w.PK = pk ∧ w.SK = sk
      · simp [hk]
      · have hak : Item.hasKey pk sk a = false := by
          simp only [Item.hasKey, decide_eq_false_iff_not]
          rintro ⟨h1, h2⟩
          exact hk ⟨ha.1 ▸ h1, ha.2 ▸ h2⟩
        simp [hk, List.find?_cons, hak]
    · have hf : (!Item.hasKey w.PK w.SK a) = true := by simp [Item.hasKey, ha]
      rw [List.filter_cons_of_pos (p := fun r => !Item.hasKey w.PK w.SK r) hf,
        List.cons_append, List.find?_cons, ih, List.find?_cons]
      by_cases hak : Item.hasKey pk sk a = true
      · have hk : ¬ (w.PK = pk ∧ w.SK = sk) := by
          simp only [Item.hasKey, decide_eq_true_eq] at hak
          rintro ⟨h1, h2⟩
          exact ha ⟨hak.1.trans h1.symm, hak.2.trans h2.symm⟩
        simp [hak, hk]
      · have hak2 : Item.hasKey pk sk a = false := by simpa using hak
        simp [hak2]

/-- A put keeps the keys of the table unique. -/
theorem put_wellFormed (t : Table) (w : Item) (h : t.wellFormed) :
    (t.put w).wellFormed := by
  unfold Table.wellFormed Table.put at *
  rw [List.map_append, List.nodup_append]
  refine ⟨(h.sublist ((List.filter_sublist t).map _)), by simp, ?_⟩
  intro k hk hk2
  simp only [List.map_cons, List.map_nil, List.mem_singleton] at hk2
  obtain ⟨r, hr, hrk⟩ := List.mem_map.1 hk
  have hr2 := (List.mem_filter.1 hr).2
  rw [hk2] at hrk
  simp only [Prod.mk.injEq] at hrk
  simp [Item.hasKey, hrk] at hr2

/-- The items of a table after a sequence of puts with pairwise distinct
keys: the put items, and the old items at keys not written. -/
theorem mem_foldl_put (writes : List Item) :
    ∀ (t : Table), (writes.map (fun r => (r.PK, r.SK))).Nodup →
      ∀ r, (r ∈ writes.foldl Table.put t ↔
        r ∈ writes ∨ (r ∈ t ∧ ∀ w ∈ writes, ¬ (r.PK = w.PK ∧ r.SK = w.SK))) := by
  induction writes with
  | nil => intro t _ r; simp
  | cons w rest ih =>
    intro t hnd r
    rw [List.map_cons, List.nodup_cons] at hnd
    rw [List.foldl_cons, ih (t.put w) hnd.2, mem_put]
    simp only [List.mem_cons, forall_eq_or_imp]
    constructor
    · rintro (h | ⟨rfl | ⟨hr, hk⟩, hall⟩)
      · exact Or.inl (Or.inr h)
      · exact Or.inl (Or.inl rfl)
      · exact Or.inr ⟨hr, hk, hall⟩
    · rintro ((rfl | h) | ⟨hr, hk, hall⟩)
      · right
        refine ⟨Or.inl rfl, ?_⟩
        intro w2 hw2 hkey
        apply hnd.1
        rw [List.mem_map]
        exact ⟨w2, hw2, by rw [Prod.mk.injEq]; exact ⟨hkey.1.symm, hkey.2.symm⟩⟩
      · exact Or.inl h
      · exact Or.inr ⟨Or.inr ⟨hr, hk⟩, hall⟩

/-- Reading a key after a sequence of puts with pairwise distinct keys. -/
theorem get_foldl_put (writes : List Item) :
    ∀ (t : Table), (writes.map (fun r => (r.PK, r.SK))).Nodup →
      ∀ pk sk, (writes.foldl Table.put t).get pk sk =
        match writes.find? (Item.hasKey pk sk) with
        | some w => some w
        | none => t.get pk sk := by
  induction writes with
  | nil => intro t _ pk sk; rfl
  | cons w rest ih =>
    intro t hnd pk sk
    rw [List.map_cons, List.nodup_cons] at hnd
    rw [List.foldl_cons, ih (t.put w) hnd.2, get_put, List.find?_cons]
    by_cases hk : w.PK = pk ∧ w.SK = sk
    · have hw : Item.hasKey pk sk w = true := by simp [Item.hasKey, hk]
      have hrest : rest.find? (Item.hasKey pk sk) = none := by
        rw [List.find?_eq_none]
        intro x hx hxk
        apply hnd.1
        rw [List.mem_map]
        simp only [Item.hasKey, decide_eq_true_eq] at hxk
        exact ⟨x, hx, by rw [Prod.mk.injEq]; exact ⟨hxk.1.trans hk.1.symm, hxk.2.trans hk.2.symm⟩⟩
      simp [hw, hrest, hk]
    · have hw : Item.hasKey pk sk w = false := by simp [Item.hasKey, hk]
      simp [hw, hk]

/-- A sequence of puts keeps the keys of the table unique. -/
theorem foldl_put_wellFormed (writes : List Item) :
    ∀ (t : Table), t.wellFormed → (writes.foldl Table.put t).wellFormed := by
  induction writes with
  | nil => intro t h; exact h
  | cons w rest ih => intro t h; exact ih _ (put_wellFormed t w h)

end DynamoDB

namespace DynamoDB

/-! ## The single-table update -/

/-- The put requests of a request with pairwise distinct product ids. -/
theorem collectWrites_distinct (cartPK : String) (items : List updateCartItem)
    (hdistinct : (items.map (fun i => i.ProductID)).Nodup) :
    collectWrites cartPK [] [] items =
      some ((items.filter (fun i => decide (i.Quantity > 0))).map (itemRecord cartPK)) := by
  rw [collectWrites_eq_some cartPK items [] [] (by simp) hdistinct]
  simp

/-- A successful update with pairwise distinct product ids has applied its
put requests, whose keys the service found pairwise distinct, to the table
it started from. -/
theorem update_success (t : Table) (cartIDStr : String) (items : List updateCartItem)
    (hdistinct : (items.map (fun i => i.ProductID)).Nodup)
    (hsucc : (updateItemToShoppingCart t cartIDStr (some ⟨items⟩)).response.status = 200) :
    (updateItemToShoppingCart t cartIDStr (some ⟨items⟩)).table =
        ((items.filter (fun i => decide (i.Quantity > 0))).map
          (itemRecord ("CART#" ++ cartIDStr))).foldl Table.put t ∧
      (((items.filter (fun i => decide (i.Quantity > 0))).map
          (itemRecord ("CART#" ++ cartIDStr))).map (fun r => (r.PK, r.SK))).Nodup := by
  have hw := collectWrites_distinct ("CART#" ++ cartIDStr) items hdistinct
  simp only [updateItemToShoppingCart, hw] at hsucc ⊢
  by_cases hlen : ((items.filter (fun i => decide (i.Quantity > 0))).map
      (itemRecord ("CART#" ++ cartIDStr))).length = 0
  · have hnil := List.length_eq_zero.1 hlen
    rw [if_pos hlen]
    rw [hnil]
    exact ⟨rfl, by simp⟩
  · rw [if_neg hlen] at hsucc ⊢
    unfold BatchWriteItem at hsucc ⊢
    by_cases h1 : ((items.filter (fun i => decide (i.Quantity > 0))).map
        (itemRecord ("CART#" ++ cartIDStr))).length < 1 ∨
        25 < ((items.filter (fun i => decide (i.Quantity > 0))).map
        (itemRecord ("CART#" ++ cartIDStr))).length
    · rw [if_pos h1] at hsucc
      simp at hsucc
    · rw [if_neg h1] at hsucc ⊢
      by_cases h2 : ¬ (((items.filter (fun i => decide (i.Quantity > 0))).map
          (itemRecord ("CART#" ++ cartIDStr))).map (fun r => (r.PK, r.SK))).Nodup
      · rw [if_pos h2] at hsucc
        simp at hsucc
      · rw [if_neg h2]
        exact ⟨rfl, not_not.1 h2⟩

/-- An item is among the put requests exactly when it is the record of an
entry of quantity above zero. -/
theorem mem_writes (cartPK : String) (items : List updateCartItem) (r : Item) :
    r ∈ (items.filter (fun i => decide (i.Quantity > 0))).map (itemRecord cartPK) ↔
      ∃ i ∈ items, 0 < i.Quantity ∧
        r = .cartItem ⟨cartPK, "ITEM#" ++ toString i.ProductID, i.ProductID, i.Quantity,
          "Widget #" ++ toString i.ProductID⟩ := by
  simp only [List.mem_map, List.mem_filter, decide_eq_true_eq, itemRecord,
    lookupProductName]
  constructor
  · rintro ⟨i, ⟨hi, hq⟩, rfl⟩
    exact ⟨i, hi, hq, rfl⟩
  · rintro ⟨i, hi, hq, rfl⟩
    exact ⟨i, ⟨hi, hq⟩, rfl⟩

end DynamoDB

namespace MySQL

/-! ## Cart creation in the relational strategy -/

/-- The lookup finds no active cart exactly when no row of the customer is
active. -/
theorem selectActiveCart_eq_none (db : DB) (customer : Nat) :
    selectActiveCart db customer = none ↔
      ∀ r ∈ db.shopping_cart, ¬ (r.customer_id = customer ∧ r.status = .active) := by
  simp only [selectActiveCart, Option.map_eq_none', List.find?_eq_none, decide_eq_true_eq]

/-- A successful creation: no active cart of the customer was stored, no row
had the next auto-increment id, the new row took that id, and the handler
returned it. -/
theorem create_success (db : DB) (customer C : Nat) (hcust : customer ≠ 0)
    (h : (createShoppingCart db (some customer)).response = ⟨201, .cart C "active"⟩) :
    selectActiveCart db customer = none ∧ C = db.next_cart_id ∧
      (∀ r ∈ db.shopping_cart, r.cart_id ≠ db.next_cart_id) ∧
      (createShoppingCart db (some customer)).db =
        { db with
          shopping_cart := db.shopping_cart ++ [⟨db.next_cart_id, customer, .active⟩]
          next_cart_id := db.next_cart_id + 1 } := by
  simp only [createShoppingCart, hcust, if_false] at h ⊢
  cases hsel : selectActiveCart db customer with
  | some c =>
    rw [hsel] at h
    simp at h
  | none =>
    rw [hsel] at h
    simp only [insertCart] at h ⊢
    by_cases hcol : db.shopping_cart.any (fun r => decide (r.cart_id = db.next_cart_id)) = true
    · rw [if_pos hcol] at h
      simp at h
    · rw [if_neg hcol] at h ⊢
      simp only [Response.mk.injEq, Body.cart.injEq, true_and] at h
      refine ⟨trivial, h.1.symm, ?_, rfl⟩
      intro r hr hrc
      exact hcol (List.any_eq_true.2 ⟨r, hr, by simpa using hrc⟩)

/-- The invariant in the words of the data model: no customer id has two
`shopping_cart` rows whose status is `active`. -/
theorem oneActiveCartPerCustomer_iff (db : DB) :
    db.oneActiveCartPerCustomer ↔
      ∀ c, (db.shopping_cart.filter
        (fun r => decide (r.customer_id = c ∧ r.status = .active))).length ≤ 1 := by
  unfold DB.oneActiveCartPerCustomer
  rw [List.nodup_iff_count_le_one]
  refine forall_congr' (fun c => ?_)
  have hcount : List.count c ((db.shopping_cart.filter
      (fun r => decide (r.status = CartStatus.active))).map (fun r => r.customer_id)) =
      (db.shopping_cart.filter
        (fun r => decide (r.customer_id = c ∧ r.status = .active))).length := by
    rw [List.count, List.countP_map, List.countP_filter, List.countP_eq_length_filter]
    congr 1
    apply List.filter_congr
    intro r _
    by_cases h1 : r.customer_id = c <;> by_cases h2 : r.status = CartStatus.active <;>
      simp [h1, h2]
  rw [hcount]

/-- The upsert statement does not touch `shopping_cart`. -/
theorem upsertCartItem_shopping_cart (db db1 : DB) (pid : Int) (q cid : Nat)
    (h : upsertCartItem db pid q cid = .ok db1) :
    db1.shopping_cart = db.shopping_cart := by
  unfold upsertCartItem at h
  split_ifs at h <;> cases h <;> rfl

/-- The upsert loop does not touch `shopping_cart`. -/
theorem execLoop_shopping_cart (cid : Nat) (items : List updateCartItem) :
    ∀ db : DB, (execLoop cid db items).db.shopping_cart = db.shopping_cart := by
  induction items with
  | nil => intro db; rfl
  | cons item rest ih =>
    intro db
    simp only [execLoop]
    cases hup : upsertCartItem db item.ProductID item.Quantity cid with
    | error e => rfl
    | ok db1 =>
      simp only []
      rw [ih db1, upsertCartItem_shopping_cart db db1 _ _ _ hup]

/-- No run of the update handler changes `shopping_cart`. -/
theorem update_shopping_cart (db : DB) (cartIDStr : String)
    (req : Option updateCartItemsRequest) :
    (updateItemToShoppingCart db cartIDStr req).db.shopping_cart = db.shopping_cart := by
  simp only [updateItemToShoppingCart, updateInTx]
  repeat' split
  all_goals first | rfl | exact execLoop_shopping_cart _ _ _

/-- No run of the read handler changes the database. -/
theorem get_db (db : DB) (cartIDStr : String) :
    (getShoppingCart db cartIDStr).db = db := by
  unfold getShoppingCart
  cases ParseUint cartIDStr with
  | none => rfl
  | some cartID =>
    simp only []
    split_ifs
    · rfl
    · cases db.shopping_cart.find? (fun r => decide (r.cart_id = cartID)) <;> rfl

/-- Creation keeps the active carts' customers pairwise distinct. -/
theorem create_oneActiveCartPerCustomer (db : DB) (req : Option Nat)
    (hinv : db.oneActiveCartPerCustomer) :
    (createShoppingCart db req).db.oneActiveCartPerCustomer := by
  unfold createShoppingCart
  cases req with
  | none => exact hinv
  | some customer =>
    simp only []
    split_ifs
    · exact hinv
    · cases hsel : selectActiveCart db customer with
      | some c => exact hinv
      | none =>
        simp only [insertCart]
        split_ifs
        · exact hinv
        · have hno := (selectActiveCart_eq_none db customer).1 hsel
          unfold DB.oneActiveCartPerCustomer at hinv ⊢
          simp only [List.filter_append, List.map_append, List.filter_cons, decide_True,
            if_true, List.filter_nil, List.map_cons, List.map_nil]
          rw [List.nodup_append]
          refine ⟨hinv, by simp, ?_⟩
          intro c hc hc2
          rw [List.mem_singleton] at hc2
          obtain ⟨r, hr, hrc⟩ := List.mem_map.1 hc
          have hr2 := List.mem_filter.1 hr
          exact hno r hr2.1 ⟨hrc.trans hc2, by simpa using hr2.2⟩

end MySQL

/-! ## C9 -/

/-- C9. In the relational strategy, when `createShoppingCart` for a non-zero
customer id succeeds and returns cart id `C`, a second call for the same
customer against the resulting database is rejected with status 400,
`INVALID_INPUT`, "Active cart already exists", its details naming cart `C`;
the second call issues no insert and leaves the database as the first call
left it, in which `C` is the id of exactly the active cart row of that
customer. -/
theorem C9_second_create_rejected_naming_first_cart
    (db : MySQL.DB) (customer C : Nat) (hcust : customer ≠ 0)
    (hfirst : (MySQL.createShoppingCart db (some customer)).response =
      ⟨201, .cart C "active"⟩) :
    MySQL.createShoppingCart (MySQL.createShoppingCart db (some customer)).db
        (some customer) =
      ⟨⟨400, .error ⟨"INVALID_INPUT", "Active cart already exists",
          "Customer " ++ toString customer ++ " has an active shopping cart (id = " ++
            toString C ++ ")"⟩⟩,
        (MySQL.createShoppingCart db (some customer)).db,
        [.Begin, .selectActiveCart customer, .Rollback]⟩ ∧
    (⟨C, customer, .active⟩ : MySQL.ShoppingCartRow) ∈
      (MySQL.createShoppingCart (MySQL.createShoppingCart db (some customer)).db
        (some customer)).db.shopping_cart ∧
    ∀ r ∈ (MySQL.createShoppingCart (MySQL.createShoppingCart db (some customer)).db
        (some customer)).db.shopping_cart,
      r.cart_id = C → r = ⟨C, customer, .active⟩ := by
  obtain ⟨hsel, hC, hcol, hdb⟩ := MySQL.create_success db customer C hcust hfirst
  have hno := (MySQL.selectActiveCart_eq_none db customer).1 hsel
  have hfind : List.find?
      (fun r : MySQL.ShoppingCartRow =>
        decide (r.customer_id = customer ∧ r.status = MySQL.CartStatus.active))
      db.shopping_cart = none := by
    rw [List.find?_eq_none]
    intro r hr
    simpa using hno r hr
  have hsel2 : MySQL.selectActiveCart
      { db with
        shopping_cart := db.shopping_cart ++ [⟨db.next_cart_id, customer, .active⟩]
        next_cart_id := db.next_cart_id + 1 } customer = some C := by
    simp only [MySQL.selectActiveCart, List.find?_append, hfind, Option.none_or,
      List.find?_singleton, and_self, decide_True, if_true, Option.map_some', hC]
  rw [hdb]
  have hout : MySQL.createShoppingCart
      { db with
        shopping_cart := db.shopping_cart ++ [⟨db.next_cart_id, customer, .active⟩]
        next_cart_id := db.next_cart_id + 1 } (some customer) =
      ⟨⟨400, .error ⟨"INVALID_INPUT", "Active cart already exists",
          "Customer " ++ toString customer ++ " has an active shopping cart (id = " ++
            toString C ++ ")"⟩⟩,
        { db with
          shopping_cart := db.shopping_cart ++ [⟨db.next_cart_id, customer, .active⟩]
          next_cart_id := db.next_cart_id + 1 },
        [.Begin, .selectActiveCart customer, .Rollback]⟩ := by
    simp only [MySQL.createShoppingCart, hcust, if_false, hsel2]
  rw [hout]
  refine ⟨rfl, ?_, ?_⟩
  · rw [hC]
    exact List.mem_append_right _ (List.mem_singleton.2 rfl)
  · intro r hr hrc
    rcases List.mem_append.1 hr with h | h
    · exact absurd (hrc.trans hC) (hcol r h)
    · rw [hC]
      exact List.mem_singleton.1 h

/-- C9 at the sample database: customer 44 gets cart 3, the second call names
cart 3. -/
theorem C9_second_create_rejected_naming_first_cart_witness :
    (MySQL.createShoppingCart MySQL.sampleDB (some 44)).response =
        ⟨201, .cart 3 "active"⟩ ∧
      (MySQL.createShoppingCart (MySQL.createShoppingCart MySQL.sampleDB (some 44)).db
        (some 44)).response =
        ⟨400, .error ⟨"INVALID_INPUT", "Active cart already exists",
          "Customer 44 has an active shopping cart (id = 3)"⟩⟩ := by
  have h := C9_second_create_rejected_naming_first_cart MySQL.sampleDB 44 3
    (by decide) (by decide)
  refine ⟨by decide, ?_⟩
  rw [h.1]
  decide

/-! ## C10 -/

/-- C10. In the relational store model, "no customer has two active carts" is
an invariant of the four cart handlers: if the customer ids of the active
`shopping_cart` rows are pairwise distinct before `createShoppingCart`,
`updateItemToShoppingCart`, `getShoppingCart` or `clearCartsData` runs, they
are pairwise distinct in the database the handler leaves, whatever the
request and whether it is answered with success or with an error. -/
theorem C10_one_active_cart_per_customer_invariant
    (db : MySQL.DB) (hinv : db.oneActiveCartPerCustomer)
    (createReq : Option Nat) (cartIDStr : String)
    (updateReq : Option MySQL.updateCartItemsRequest) :
    (MySQL.createShoppingCart db createReq).db.oneActiveCartPerCustomer ∧
      (MySQL.updateItemToShoppingCart db cartIDStr updateReq).db.oneActiveCartPerCustomer ∧
      (MySQL.getShoppingCart db cartIDStr).db.oneActiveCartPerCustomer ∧
      (MySQL.clearCartsData db).db.oneActiveCartPerCustomer := by
  refine ⟨MySQL.create_oneActiveCartPerCustomer db createReq hinv, ?_, ?_, ?_⟩
  · unfold MySQL.DB.oneActiveCartPerCustomer at hinv ⊢
    rw [MySQL.update_shopping_cart]
    exact hinv
  · rw [MySQL.get_db]
    exact hinv
  · unfold MySQL.DB.oneActiveCartPerCustomer MySQL.clearCartsData
    exact List.nodup_nil

/-- C10 at the sample database, for a creation that succeeds, one that is
rejected and an update that commits. -/
theorem C10_one_active_cart_per_customer_invariant_witness :
    MySQL.sampleDB.oneActiveCartPerCustomer ∧
      (MySQL.createShoppingCart MySQL.sampleDB (some 44)).db.oneActiveCartPerCustomer ∧
      (MySQL.createShoppingCart MySQL.sampleDB (some 42)).db.oneActiveCartPerCustomer ∧
      (MySQL.updateItemToShoppingCart MySQL.sampleDB "1"
        (some ⟨[⟨1, 5⟩, ⟨2, 3⟩]⟩)).db.oneActiveCartPerCustomer :=
  ⟨by decide,
    (C10_one_active_cart_per_customer_invariant MySQL.sampleDB (by decide) (some 44) "1"
      (some ⟨[⟨1, 5⟩, ⟨2, 3⟩]⟩)).1,
    (C10_one_active_cart_per_customer_invariant MySQL.sampleDB (by decide) (some 42) "1"
      (some ⟨[⟨1, 5⟩, ⟨2, 3⟩]⟩)).1,
    (C10_one_active_cart_per_customer_invariant MySQL.sampleDB (by decide) (some 44) "1"
      (some ⟨[⟨1, 5⟩, ⟨2, 3⟩]⟩)).2.1⟩

/-! ## C11 -/

/-- C11. In both strategies' `createShoppingCart`, a bound request gets the
customer-identifier rejection (status 400, `INVALID_INPUT`, "customer_id
cannot be 0") if and only if its `customer_id` is 0; for 0 the handler
issues no storage call, leaves the store as it was and, in the single-table
strategy, does not depend on the generated identity. The error code
`INVALID_INPUT` alone marks customer id 0 in the single-table strategy; in
the relational strategy it is also the code of the duplicate-active-cart
rejection, which has another message. -/
theorem C11_zero_customer_id_rejected_before_storage
    (db : MySQL.DB) (t : DynamoDB.Table) (n : Nat) (cartID : String) :
    ((MySQL.createShoppingCart db (some n)).response =
        ⟨400, .error ⟨"INVALID_INPUT", "customer_id cannot be 0", ""⟩⟩ ↔ n = 0) ∧
      (n = 0 → (MySQL.createShoppingCart db (some n)).calls = [] ∧
        (MySQL.createShoppingCart db (some n)).db = db) ∧
      ((MySQL.createShoppingCart db (some n)).response.errorCode = some "INVALID_INPUT" ↔
        n = 0 ∨ (MySQL.selectActiveCart db n).isSome) ∧
      ((DynamoDB.createShoppingCart t (some n) cartID).response =
        ⟨400, .error ⟨"INVALID_INPUT", "customer_id cannot be 0", ""⟩⟩ ↔ n = 0) ∧
      ((DynamoDB.createShoppingCart t (some n) cartID).response.errorCode =
        some "INVALID_INPUT" ↔ n = 0) ∧
      (n = 0 → (DynamoDB.createShoppingCart t (some n) cartID).calls = [] ∧
        (DynamoDB.createShoppingCart t (some n) cartID).table = t ∧
        ∀ cartID', DynamoDB.createShoppingCart t (some n) cartID' =
          DynamoDB.createShoppingCart t (some n) cartID) := by
  have hmsg : ¬ ("Active cart already exists" = "customer_id cannot be 0") := by decide
  have hc1 : ¬ ("DB_ERROR" = "INVALID_INPUT") := by decide
  have hc2 : ¬ ("INTERNAL_ERROR" = "INVALID_INPUT") := by decide
  by_cases hn : n = 0
  · subst hn
    simp [MySQL.createShoppingCart, DynamoDB.createShoppingCart, MySQL.Response.errorCode,
      DynamoDB.Response.errorCode]
  · refine ⟨?_, fun h => absurd h hn, ?_, ?_, ?_, fun h => absurd h hn⟩
    · simp only [hn, iff_false, MySQL.createShoppingCart, if_false]
      cases MySQL.selectActiveCart db n with
      | some c => simp [hmsg]
      | none =>
        cases MySQL.insertCart db n with
        | error e => simp
        | ok r => simp
    · simp only [hn, false_or, MySQL.createShoppingCart, if_false]
      cases MySQL.selectActiveCart db n with
      | some c => simp [MySQL.Response.errorCode]
      | none =>
        cases MySQL.insertCart db n with
        | error e => simp [MySQL.Response.errorCode, hc1]
        | ok r => simp [MySQL.Response.errorCode]
    · simp only [hn, iff_false, DynamoDB.createShoppingCart, if_false]
      cases DynamoDB.PutItemIfNotExists t _ with
      | error e => cases e <;> simp
      | ok r => simp
    · simp only [hn, iff_false, DynamoDB.createShoppingCart, if_false]
      cases DynamoDB.PutItemIfNotExists t _ with
      | error e => cases e <;> simp [DynamoDB.Response.errorCode, hc1, hc2]
      | ok r => simp [DynamoDB.Response.errorCode]

/-- C11 at the sample stores: customer id 0 is rejected without a storage
call in both strategies. -/
theorem C11_zero_customer_id_rejected_before_storage_witness :
    MySQL.createShoppingCart MySQL.sampleDB (some 0) =
        ⟨⟨400, .error ⟨"INVALID_INPUT", "customer_id cannot be 0", ""⟩⟩,
          MySQL.sampleDB, []⟩ ∧
      DynamoDB.createShoppingCart DynamoDB.sampleTable (some 0) DynamoDB.sampleUUID =
        ⟨⟨400, .error ⟨"INVALID_INPUT", "customer_id cannot be 0", ""⟩⟩,
          DynamoDB.sampleTable, []⟩ := by
  have h := C11_zero_customer_id_rejected_before_storage MySQL.sampleDB
    DynamoDB.sampleTable 0 DynamoDB.sampleUUID
  have h1 := h.1.2 rfl
  have h2 := h.2.1 rfl
  have h3 := h.2.2.2.1.2 rfl
  have h4 := h.2.2.2.2.2 rfl
  constructor
  · cases hx : MySQL.createShoppingCart MySQL.sampleDB (some 0) with
    | mk r d c =>
      rw [hx] at h1 h2
      simp only at h1 h2
      rw [h1, h2.1, h2.2]
  · cases hx : DynamoDB.createShoppingCart DynamoDB.sampleTable (some 0)
        DynamoDB.sampleUUID with
    | mk r d c =>
      rw [hx] at h3 h4
      simp only at h3 h4
      rw [h3, h4.1, h4.2.1]

/-! ## Decimal text is injective -/

/-- The value of a digit character is the digit it prints. -/
theorem digitChar_toNat_sub (k : Nat) (hk : k < 10) : (Nat.digitChar k).toNat - 48 = k := by
  interval_cases k <;> decide

/-- With enough fuel `Nat.toDigitsCore` puts the decimal digits of a positive
number, most significant first, in front of the accumulator. -/
theorem toDigitsCore_eq_digits (fuel : Nat) :
    ∀ (n : Nat) (acc : List Char), 0 < n → n < fuel →
      Nat.toDigitsCore 10 fuel n acc =
        ((Nat.digits 10 n).reverse.map Nat.digitChar) ++ acc := by
  induction fuel with
  | zero => intro n acc _ h; omega
  | succ fuel ih =>
    intro n acc hpos hlt
    rw [Nat.digits_def' (by decide) hpos]
    simp only [Nat.toDigitsCore]
    by_cases hz : n / 10 = 0
    · simp [hz]
    · rw [if_neg hz, ih (n / 10) _ (Nat.pos_of_ne_zero hz) (by omega)]
      simp

/-- The decimal digits of a number, read back from its text. -/
theorem toDigits_value (n : Nat) :
    Nat.ofDigits 10 (((Nat.toDigits 10 n).map (fun c => c.toNat - 48)).reverse) = n := by
  rcases Nat.eq_zero_or_pos n with rfl | hpos
  · decide
  · unfold Nat.toDigits
    rw [toDigitsCore_eq_digits (n + 1) n [] hpos (by omega), List.append_nil,
      List.map_map, List.map_reverse, List.reverse_reverse]
    have hmap : (Nat.digits 10 n).map ((fun c => c.toNat - 48) ∘ Nat.digitChar) =
        Nat.digits 10 n := by
      conv_rhs => rw [← List.map_id (Nat.digits 10 n)]
      apply List.map_congr_left
      intro d hd
      exact digitChar_toNat_sub d (Nat.digits_lt_base (by decide) hd)
    rw [hmap, Nat.ofDigits_digits]

/-- Two natural numbers with the same decimal text are equal. -/
theorem nat_toString_injective (n m : Nat) (h : toString n = toString m) : n = m := by
  have h2 : Nat.toDigits 10 n = Nat.toDigits 10 m := by
    have h3 : (Nat.repr n).data = (Nat.repr m).data := congrArg String.data h
    simpa [Nat.repr, List.asString] using h3
  rw [← toDigits_value n, ← toDigits_value m, h2]

/-- A string is determined by what follows a fixed beginning. -/
theorem string_append_left_cancel (a b c : String) (h : a ++ b = a ++ c) : b = c := by
  have h2 : (a ++ b).data = (a ++ c).data := congrArg String.data h
  rw [String.data_append, String.data_append] at h2
  exact String.ext (List.append_cancel_left h2)

/-- Two integers with the same decimal text are equal. -/
theorem int_toString_injective (p q : Int) (h : toString p = toString q) : p = q := by
  have hminus : ∀ (a b : Nat), toString (Int.ofNat a) ≠ toString (Int.negSucc b) := by
    intro a b hab
    have h1 : (toString a).data = ("-" ++ toString (Nat.succ b)).data :=
      congrArg String.data hab
    obtain ⟨hne, hdig⟩ := nat_toString_digits a
    obtain ⟨c, cs, hcs⟩ := List.exists_cons_of_ne_nil hne
    have hc := hdig c (by rw [hcs]; exact List.mem_cons_self _ _)
    rw [hcs, String.data_append] at h1
    have hhead : c = '-' := by
      have h3 : "-".data = ['-'] := rfl
      rw [h3] at h1
      exact (List.cons.inj h1).1
    rw [hhead] at hc
    exact absurd hc (by decide)
  cases p with
  | ofNat a =>
    cases q with
    | ofNat b =>
      have h1 : toString a = toString b := h
      rw [nat_toString_injective a b h1]
    | negSucc b => exact absurd h (hminus a b)
  | negSucc a =>
    cases q with
    | ofNat b => exact absurd h.symm (hminus b a)
    | negSucc b =>
      have h1 : "-" ++ toString (Nat.succ a) = "-" ++ toString (Nat.succ b) := h
      have h2 := nat_toString_injective _ _ (string_append_left_cancel _ _ _ h1)
      rw [Nat.succ.inj h2]

namespace DynamoDB

/-! ## The query and the scan of `getShoppingCart` -/

/-- The query returns the records of the partition, each of them. -/
theorem mem_Query (t : Table) (pk : String) (r : Item) :
    r ∈ Query t pk ↔ r ∈ t ∧ r.PK = pk := by
  unfold Query
  rw [List.mem_insertionSort, List.mem_filter]
  simp

/-- The query returns nothing exactly when the partition holds no record. -/
theorem Query_length_eq_zero (t : Table) (pk : String) :
    (Query t pk).length = 0 ↔ ∀ r ∈ t, r.PK ≠ pk := by
  rw [List.length_eq_zero, List.eq_nil_iff_forall_not_mem]
  constructor
  · intro h r hr hpk
    exact h r ((mem_Query t pk r).2 ⟨hr, hpk⟩)
  · intro h r hr
    exact h r ((mem_Query t pk r).1 hr).1 ((mem_Query t pk r).1 hr).2

/-- A metadata sort key is not an item sort key. -/
theorem isItemRecord_of_SK_CART (r : Item) (h : r.SK = "CART") : r.isItemRecord = false := by
  unfold Item.isItemRecord
  rw [h]
  decide

/-- The scan has found the metadata exactly when it started so or passed a
record with sort key `CART`. -/
theorem scan_foundCartMeta (L : List Item) :
    ∀ s : GetScan, (L.foldl GetScan.step s).foundCartMeta =
      (s.foundCartMeta || L.any (fun r => decide (r.SK = "CART"))) := by
  induction L with
  | nil => intro s; simp
  | cons r L ih =>
    intro s
    rw [List.foldl_cons, ih]
    by_cases h1 : r.SK = "CART"
    · simp [GetScan.step, h1]
    · by_cases h2 : "ITEM#".data.isPrefixOf r.SK.data = true
      · simp [GetScan.step, h1, h2]
      · simp [GetScan.step, h1, h2]

/-- The scan appends one entry per item record, in the order of the query. -/
theorem scan_Items (L : List Item) :
    ∀ s : GetScan, (L.foldl GetScan.step s).response.Items =
      s.response.Items ++ (L.filter Item.isItemRecord).map Item.info := by
  induction L with
  | nil => intro s; simp
  | cons r L ih =>
    intro s
    rw [List.foldl_cons, ih]
    by_cases h1 : r.SK = "CART"
    · have h3 := isItemRecord_of_SK_CART r h1
      simp [GetScan.step, h1, List.filter_cons, h3]
    · by_cases h2 : "ITEM#".data.isPrefixOf r.SK.data = true
      · have h3 : r.isItemRecord = true := h2
        simp [GetScan.step, h1, h2, List.filter_cons, h3, Item.info]
      · have h3 : r.isItemRecord = false := by
          unfold Item.isItemRecord
          exact Bool.eq_false_iff.2 h2
        simp [GetScan.step, h1, h2, List.filter_cons, h3]

/-- When every record with sort key `CART` among the scanned ones unmarshals
to `m` and there is one, the scan reports the cart fields of `m`. -/
theorem scan_meta (m : cartMetadata) (L : List Item) :
    ∀ s : GetScan, (∀ r ∈ L, r.SK = "CART" → unmarshalMetadata r = m) →
      (s.foundCartMeta = true →
        s.response.CartID = m.CartID ∧ s.response.CustomerID = m.CustomerID ∧
          s.response.Status = m.Status) →
      (L.foldl GetScan.step s).foundCartMeta = true →
      (L.foldl GetScan.step s).response.CartID = m.CartID ∧
        (L.foldl GetScan.step s).response.CustomerID = m.CustomerID ∧
        (L.foldl GetScan.step s).response.Status = m.Status := by
  induction L with
  | nil => intro s _ hs hf; exact hs hf
  | cons r L ih =>
    intro s hall hs hf
    rw [List.foldl_cons] at hf ⊢
    apply ih _ (fun x hx => hall x (List.mem_cons_of_mem _ hx)) _ hf
    by_cases h1 : r.SK = "CART"
    · have hm := hall r (List.mem_cons_self _ _) h1
      intro _
      simp [GetScan.step, h1, hm]
    · by_cases h2 : "ITEM#".data.isPrefixOf r.SK.data = true
      · simpa [GetScan.step, h1, h2] using hs
      · simpa [GetScan.step, h1, h2] using hs

/-- The read of a partition that holds records but none with sort key `CART`:
status 404 under the code `CART_NOT_FOUND`, with the message of the
corrupted-cart branch. -/
theorem get_without_metadata (t : Table) (c : String)
    (hsome : ∃ r ∈ t, r.PK = "CART#" ++ c)
    (hnometa : ∀ r ∈ t, r.PK = "CART#" ++ c → r.SK ≠ "CART") :
    getShoppingCart t c =
      ⟨⟨404, .error ⟨"CART_NOT_FOUND", "Cart data corrupted, metadata not found",
          "Cart " ++ c ++ " has items but no main record"⟩⟩,
        t, [.Query ("CART#" ++ c)]⟩ := by
  have hlen : ¬ (Query t ("CART#" ++ c)).length = 0 := by
    rw [Query_length_eq_zero]
    push_neg
    exact hsome
  have hfound : (List.foldl GetScan.step ⟨⟨"", 0, "", []⟩, false⟩
      (Query t ("CART#" ++ c))).foundCartMeta = false := by
    rw [scan_foundCartMeta, Bool.false_or, List.any_eq_false]
    intro r hr
    have hr2 := (mem_Query t _ r).1 hr
    simpa using hnometa r hr2.1 hr2.2
  simp only [getShoppingCart, hlen, if_false, hfound, Bool.false_eq_true, not_false_eq_true,
    if_true]

/-- The read of a partition that holds no record: status 404 under the code
`CART_NOT_FOUND`, with the message of the not-found branch. -/
theorem get_empty_partition (t : Table) (c : String)
    (hnone : ∀ r ∈ t, r.PK ≠ "CART#" ++ c) :
    getShoppingCart t c =
      ⟨⟨404, .error ⟨"CART_NOT_FOUND", "Shopping cart not found",
          "Shopping cart " ++ c ++ " does not exist"⟩⟩,
        t, [.Query ("CART#" ++ c)]⟩ := by
  have hlen : (Query t ("CART#" ++ c)).length = 0 := (Query_length_eq_zero t _).2 hnone
  simp only [getShoppingCart, hlen, if_true]

end DynamoDB

namespace MySQL

/-! ## Reading a cart in the relational strategy -/

/-- The read of an existing cart without `cart_item` rows: status 200, and
the item list is the one entry that the all-`NULL` row of the left join
unmarshals to. -/
theorem get_cart_without_items (db : DB) (cartIDStr : String) (cartID : Nat)
    (hparse : ParseUint cartIDStr = some cartID) (hpos : 1 ≤ cartID)
    (sc : ShoppingCartRow)
    (hrow : db.shopping_cart.find? (fun r => decide (r.cart_id = cartID)) = some sc)
    (hno : ∀ ci ∈ db.cart_item, ci.cart_id ≠ cartID) :
    getShoppingCart db cartIDStr =
      ⟨⟨200, .info ⟨sc.cart_id, sc.customer_id, sc.status.text, [⟨0, "", 0⟩]⟩⟩,
        db, [.selectCartWithItems cartID]⟩ := by
  have h1 : ¬ cartID < 1 := by omega
  have hfilter : db.cart_item.filter (fun ci => decide (ci.cart_id = cartID)) = [] := by
    rw [List.filter_eq_nil_iff]
    intro ci hci
    simpa using hno ci hci
  simp only [getShoppingCart, hparse, h1, if_false, hrow, selectItems, hfilter]

end MySQL

/-! ## C13 -/

/-- C13, the code at the failing input. Against the sample database customer
44 is given cart 3; reading cart 3, which has no `cart_item` row, succeeds
with status "active", and its item list is not empty: it holds one entry with
product id 0, empty name and quantity 0. -/
theorem C13_read_of_cart_without_items_returns_placeholder :
    (MySQL.createShoppingCart MySQL.sampleDB (some 44)).response =
        ⟨201, .cart 3 "active"⟩ ∧
      (MySQL.getShoppingCart (MySQL.createShoppingCart MySQL.sampleDB (some 44)).db
        "3").response = ⟨200, .info ⟨3, 44, "active", [⟨0, "", 0⟩]⟩⟩ := by
  decide

/-! ## C14 -/

/-- C14 fails as stated: the read of a partition that holds one item record
and no metadata record and the read of a partition that holds no record are
both answered with status 404 and error code `CART_NOT_FOUND`. -/
theorem C14_counterexample :
    (DynamoDB.getShoppingCart DynamoDB.orphanTable DynamoDB.sampleUUID).response =
        ⟨404, .error ⟨"CART_NOT_FOUND", "Cart data corrupted, metadata not found",
          "Cart 3f2b8c1e-9d4a-4e57-8a6b-0c1d2e3f4a5b has items but no main record"⟩⟩ ∧
      (DynamoDB.getShoppingCart [] DynamoDB.sampleUUID).response =
        ⟨404, .error ⟨"CART_NOT_FOUND", "Shopping cart not found",
          "Shopping cart 3f2b8c1e-9d4a-4e57-8a6b-0c1d2e3f4a5b does not exist"⟩⟩ ∧
      (DynamoDB.getShoppingCart DynamoDB.orphanTable DynamoDB.sampleUUID).response.errorCode =
        (DynamoDB.getShoppingCart [] DynamoDB.sampleUUID).response.errorCode := by
  decide

/-- C14, amended. In the single-table `getShoppingCart`, the read of a
partition that holds at least one item record and no metadata record fails
with the same classification as the read of a partition that holds no record
at all, status 404 and error code `CART_NOT_FOUND`; the two failures differ
in their message ("Cart data corrupted, metadata not found" against
"Shopping cart not found") and details only. -/
theorem C14_corrupted_cart_reported_under_not_found_code
    (t : DynamoDB.Table) (c : String)
    (hitem : ∃ r ∈ t, r.PK = "CART#" ++ c ∧ r.isItemRecord = true)
    (hnometa : ∀ r ∈ t, r.PK = "CART#" ++ c → r.SK ≠ "CART")
    (t0 : DynamoDB.Table) (hnone : ∀ r ∈ t0, r.PK ≠ "CART#" ++ c) :
    (DynamoDB.getShoppingCart t c).response =
        ⟨404, .error ⟨"CART_NOT_FOUND", "Cart data corrupted, metadata not found",
          "Cart " ++ c ++ " has items but no main record"⟩⟩ ∧
      (DynamoDB.getShoppingCart t0 c).response =
        ⟨404, .error ⟨"CART_NOT_FOUND", "Shopping cart not found",
          "Shopping cart " ++ c ++ " does not exist"⟩⟩ ∧
      (DynamoDB.getShoppingCart t c).response.status =
        (DynamoDB.getShoppingCart t0 c).response.status ∧
      (DynamoDB.getShoppingCart t c).response.errorCode = some "CART_NOT_FOUND" ∧
      (DynamoDB.getShoppingCart t0 c).response.errorCode = some "CART_NOT_FOUND" ∧
      (DynamoDB.getShoppingCart t c).response ≠ (DynamoDB.getShoppingCart t0 c).response := by
  obtain ⟨r, hr, hpk, _⟩ := hitem
  rw [DynamoDB.get_without_metadata t c ⟨r, hr, hpk⟩ hnometa,
    DynamoDB.get_empty_partition t0 c hnone]
  refine ⟨rfl, rfl, rfl, rfl, rfl, ?_⟩
  intro h
  have hmsg : ¬ ("Cart data corrupted, metadata not found" = "Shopping cart not found") := by
    decide
  simp only [DynamoDB.Response.mk.injEq, DynamoDB.Body.error.injEq,
    DynamoDB.ErrorResponse.mk.injEq] at h
  exact hmsg h.2.2.1

/-- C14 amended, at the orphan table and the empty table. -/
theorem C14_corrupted_cart_reported_under_not_found_code_witness :
    (DynamoDB.getShoppingCart DynamoDB.orphanTable DynamoDB.sampleUUID).response.errorCode =
        some "CART_NOT_FOUND" ∧
      (DynamoDB.getShoppingCart [] DynamoDB.sampleUUID).response.errorCode =
        some "CART_NOT_FOUND" := by
  have h := C14_corrupted_cart_reported_under_not_found_code DynamoDB.orphanTable
    DynamoDB.sampleUUID
    ⟨.cartItem ⟨"CART#3f2b8c1e-9d4a-4e57-8a6b-0c1d2e3f4a5b", "ITEM#7", 7, 2, "Widget #7"⟩,
      by decide, by decide, by decide⟩
    (by decide) [] (by decide)
  exact ⟨h.2.2.2.1, h.2.2.2.2.1⟩

namespace DynamoDB

/-! ## What the single-table handlers send to the service -/

/-- Every put request the update loop collects is the record of a request
entry of quantity above zero (or was collected before). -/
theorem collectWrites_mem (cartPK : String) (items : List updateCartItem) :
    ∀ (seen : List Int) (w out : List Item),
      collectWrites cartPK seen w items = some out →
      ∀ r ∈ out, r ∈ w ∨ ∃ i ∈ items, 0 < i.Quantity ∧ r = itemRecord cartPK i := by
  induction items with
  | nil =>
    intro seen w out h r hr
    simp only [collectWrites, Option.some.injEq] at h
    subst h
    exact Or.inl hr
  | cons item rest ih =>
    intro seen w out h r hr
    simp only [collectWrites] at h
    split_ifs at h with hseen hq
    · rcases ih _ _ _ h r hr with h1 | ⟨i, hi, hqi, hri⟩
      · rcases List.mem_append.1 h1 with h2 | h2
        · exact Or.inl h2
        · rw [List.mem_singleton] at h2
          exact Or.inr ⟨item, List.mem_cons_self _ _, hq, h2⟩
      · exact Or.inr ⟨i, List.mem_cons_of_mem _ hi, hqi, hri⟩
    · rcases ih _ _ _ h r hr with h1 | ⟨i, hi, hqi, hri⟩
      · exact Or.inl h1
      · exact Or.inr ⟨i, List.mem_cons_of_mem _ hi, hqi, hri⟩

/-- The update handler sends nothing or one batch write, and every record of
that batch is the record of a request entry of quantity above zero. -/
theorem update_calls (t : Table) (cartIDStr : String) (req : Option updateCartItemsRequest) :
    ∀ call ∈ (updateItemToShoppingCart t cartIDStr req).calls,
      ∃ puts, call = .BatchWriteItem puts ∧
        ∀ r ∈ puts, ∃ items, req = some ⟨items⟩ ∧
          ∃ i ∈ items, 0 < i.Quantity ∧ r = itemRecord ("CART#" ++ cartIDStr) i := by
  intro call hcall
  cases req with
  | none => simp [updateItemToShoppingCart] at hcall
  | some req =>
    simp only [updateItemToShoppingCart] at hcall
    cases hw : collectWrites ("CART#" ++ cartIDStr) [] [] req.Items with
    | none =>
      rw [hw] at hcall
      simp at hcall
    | some W =>
      rw [hw] at hcall
      have hmem : ∀ r ∈ W, ∃ items, some req = some ⟨items⟩ ∧
          ∃ i ∈ items, 0 < i.Quantity ∧ r = itemRecord ("CART#" ++ cartIDStr) i := by
        intro r hr
        rcases collectWrites_mem _ _ _ _ _ hw r hr with h | h
        · simp at h
        · exact ⟨req.Items, rfl, h⟩
      simp only at hcall
      split_ifs at hcall
      · simp at hcall
      · cases hb : BatchWriteItem t W with
        | error e =>
          rw [hb] at hcall
          simp only [List.mem_singleton] at hcall
          exact ⟨W, hcall, hmem⟩
        | ok t1 =>
          rw [hb] at hcall
          simp only [List.mem_singleton] at hcall
          exact ⟨W, hcall, hmem⟩

/-- The read handler sends one query, for the partition of the cart id. -/
theorem get_calls (t : Table) (c : String) :
    (getShoppingCart t c).calls = [.Query ("CART#" ++ c)] := by
  simp only [getShoppingCart]
  split_ifs <;> rfl

/-- A put at a key that holds no record appends the item. -/
theorem put_of_absent (t : Table) (w : Item)
    (habsent : ∀ r ∈ t, ¬ (r.PK = w.PK ∧ r.SK = w.SK)) :
    t.put w = t ++ [w] := by
  unfold Table.put
  congr 1
  rw [List.filter_eq_self]
  intro r hr
  have h := habsent r hr
  simp only [Item.hasKey, Bool.not_eq_true', decide_eq_false_iff_not]
  exact h

/-- Creation when no record holds the metadata key of the generated
identity. -/
theorem create_absent (t : Table) (C : String) (n : Nat) (hn : n ≠ 0)
    (habsent : ∀ r ∈ t, ¬ (r.PK = "CART#" ++ C ∧ r.SK = "CART")) :
    createShoppingCart t (some n) C =
      ⟨⟨201, .created C "active"⟩,
        t ++ [.cart ⟨"CART#" ++ C, "CART", "CUST#" ++ toString n, "CART#" ++ C, C, n,
          "active"⟩],
        [.PutItem (.cart ⟨"CART#" ++ C, "CART", "CUST#" ++ toString n, "CART#" ++ C, C, n,
          "active"⟩)]⟩ := by
  have hget : t.get ("CART#" ++ C) "CART" = none := by
    unfold Table.get
    rw [List.find?_eq_none]
    intro r hr
    simpa [Item.hasKey] using habsent r hr
  simp only [createShoppingCart, hn, if_false, PutItemIfNotExists, Item.PK, Item.SK, hget,
    Option.isSome_none, Bool.false_eq_true]
  rw [put_of_absent t (.cart ⟨"CART#" ++ C, "CART", "CUST#" ++ toString n, "CART#" ++ C, C,
    n, "active"⟩) habsent]

/-- Creation when a record holds the metadata key of the generated
identity. -/
theorem create_present (t : Table) (C : String) (n : Nat) (hn : n ≠ 0)
    (hpresent : ∃ r ∈ t, r.PK = "CART#" ++ C ∧ r.SK = "CART") :
    createShoppingCart t (some n) C =
      ⟨⟨500, .error ⟨"INTERNAL_ERROR", "Cart ID collision, try again.",
          DynamoError.ConditionalCheckFailedException.Error⟩⟩,
        t,
        [.PutItem (.cart ⟨"CART#" ++ C, "CART", "CUST#" ++ toString n, "CART#" ++ C, C, n,
          "active"⟩)]⟩ := by
  have hget : (t.get ("CART#" ++ C) "CART").isSome = true := by
    unfold Table.get
    rw [List.find?_isSome]
    obtain ⟨r, hr, hk⟩ := hpresent
    exact ⟨r, hr, by simpa [Item.hasKey] using hk⟩
  simp only [createShoppingCart, hn, if_false, PutItemIfNotExists, Item.PK, Item.SK, hget,
    if_true]

end DynamoDB

/-! ## C15 -/

/-- C15. In the single-table strategy, for every cart id `c`, non-zero
customer id `n` and request: `createShoppingCart` sends one put, of the
metadata record with `PK = CART#c`, `SK = CART`, `GSI1PK = CUST#` decimal of
`n` and `GSI1SK = CART#c`; every record `updateItemToShoppingCart` sends for
cart `c` is the item record of a request entry, with `PK = CART#c` and
`SK = ITEM#` decimal of its product id; `getShoppingCart` sends one query,
for the partition `CART#c`. -/
theorem C15_persisted_key_layout
    (t : DynamoDB.Table) (c : String) (n : Nat) (hn : n ≠ 0)
    (req : Option DynamoDB.updateCartItemsRequest) :
    (DynamoDB.createShoppingCart t (some n) c).calls =
        [.PutItem (.cart ⟨"CART#" ++ c, "CART", "CUST#" ++ toString n, "CART#" ++ c, c, n,
          "active"⟩)] ∧
      (∀ call ∈ (DynamoDB.updateItemToShoppingCart t c req).calls,
        ∃ puts, call = .BatchWriteItem puts ∧
          ∀ r ∈ puts, ∃ items, req = some ⟨items⟩ ∧ ∃ i ∈ items,
            r = .cartItem ⟨"CART#" ++ c, "ITEM#" ++ toString i.ProductID, i.ProductID,
              i.Quantity, "Widget #" ++ toString i.ProductID⟩) ∧
      (DynamoDB.getShoppingCart t c).calls = [.Query ("CART#" ++ c)] := by
  refine ⟨?_, ?_, DynamoDB.get_calls t c⟩
  · by_cases hp : ∃ r ∈ t, r.PK = "CART#" ++ c ∧ r.SK = "CART"
    · rw [DynamoDB.create_present t c n hn hp]
    · rw [DynamoDB.create_absent t c n hn (fun r hr h => hp ⟨r, hr, h⟩)]
  · intro call hcall
    obtain ⟨puts, hputs, hall⟩ := DynamoDB.update_calls t c req call hcall
    refine ⟨puts, hputs, fun r hr => ?_⟩
    obtain ⟨items, hreq, i, hi, _, hri⟩ := hall r hr
    exact ⟨items, hreq, i, hi, hri⟩

/-- C15 at the sample table: the metadata record of customer 42 under the
sample identity, the batch of the update `[(1,3),(2,0)]`, and the query. -/
theorem C15_persisted_key_layout_witness :
    (DynamoDB.createShoppingCart DynamoDB.sampleTable (some 42) DynamoDB.sampleUUID).calls =
        [.PutItem (.cart ⟨"CART#3f2b8c1e-9d4a-4e57-8a6b-0c1d2e3f4a5b", "CART", "CUST#42",
          "CART#3f2b8c1e-9d4a-4e57-8a6b-0c1d2e3f4a5b",
          "3f2b8c1e-9d4a-4e57-8a6b-0c1d2e3f4a5b", 42, "active"⟩)] ∧
      (DynamoDB.updateItemToShoppingCart DynamoDB.sampleTable DynamoDB.sampleUUID
        (some ⟨[⟨1, 3⟩, ⟨2, 0⟩]⟩)).calls =
        [.BatchWriteItem [.cartItem ⟨"CART#3f2b8c1e-9d4a-4e57-8a6b-0c1d2e3f4a5b", "ITEM#1",
          1, 3, "Widget #1"⟩]] ∧
      (DynamoDB.getShoppingCart DynamoDB.sampleTable DynamoDB.sampleUUID).calls =
        [.Query "CART#3f2b8c1e-9d4a-4e57-8a6b-0c1d2e3f4a5b"] := by
  have h := C15_persisted_key_layout DynamoDB.sampleTable DynamoDB.sampleUUID 42
    (by decide) (some ⟨[⟨1, 3⟩, ⟨2, 0⟩]⟩)
  exact ⟨h.1, by decide, h.2.2⟩

/-! ## C18 -/

/-- C18. In the single-table `createShoppingCart`, for every non-zero
customer id the outcome is decided by the metadata key of the generated
identity alone. If no record of the table holds `(CART#C, CART)`, the handler
answers 201 with `C` and "active" and the table afterwards is the old table
with the one metadata record of status "active" added, whatever carts the
customer already owns. If a record holds that key, the handler answers 500
("Cart ID collision, try again.") and the table, the existing record
included, is unchanged. -/
theorem C18_create_decided_by_metadata_key_alone
    (t : DynamoDB.Table) (C : String) (n : Nat) (hn : n ≠ 0) :
    ((∀ r ∈ t, ¬ (r.PK = "CART#" ++ C ∧ r.SK = "CART")) →
        DynamoDB.createShoppingCart t (some n) C =
          ⟨⟨201, .created C "active"⟩,
            t ++ [.cart ⟨"CART#" ++ C, "CART", "CUST#" ++ toString n, "CART#" ++ C, C, n,
              "active"⟩],
            [.PutItem (.cart ⟨"CART#" ++ C, "CART", "CUST#" ++ toString n, "CART#" ++ C,
              C, n, "active"⟩)]⟩) ∧
      ((∃ r ∈ t, r.PK = "CART#" ++ C ∧ r.SK = "CART") →
        DynamoDB.createShoppingCart t (some n) C =
          ⟨⟨500, .error ⟨"INTERNAL_ERROR", "Cart ID collision, try again.",
              DynamoDB.DynamoError.ConditionalCheckFailedException.Error⟩⟩,
            t,
            [.PutItem (.cart ⟨"CART#" ++ C, "CART", "CUST#" ++ toString n, "CART#" ++ C,
              C, n, "active"⟩)]⟩) :=
  ⟨DynamoDB.create_absent t C n hn, DynamoDB.create_present t C n hn⟩

/-- C18 at the sample table, where customer 42 owns the active cart `C`: a
creation for customer 42 under the sample identity succeeds and adds one
record; a creation under the identity `C` collides and changes nothing. -/
theorem C18_create_decided_by_metadata_key_alone_witness :
    (DynamoDB.createShoppingCart DynamoDB.sampleTable (some 42)
        DynamoDB.sampleUUID).response =
        ⟨201, .created "3f2b8c1e-9d4a-4e57-8a6b-0c1d2e3f4a5b" "active"⟩ ∧
      (DynamoDB.createShoppingCart DynamoDB.sampleTable (some 42) DynamoDB.sampleUUID).table =
        DynamoDB.sampleTable ++
          [.cart ⟨"CART#3f2b8c1e-9d4a-4e57-8a6b-0c1d2e3f4a5b", "CART", "CUST#42",
            "CART#3f2b8c1e-9d4a-4e57-8a6b-0c1d2e3f4a5b",
            "3f2b8c1e-9d4a-4e57-8a6b-0c1d2e3f4a5b", 42, "active"⟩] ∧
      (DynamoDB.createShoppingCart DynamoDB.sampleTable (some 42) "C").response.status =
        500 ∧
      (DynamoDB.createShoppingCart DynamoDB.sampleTable (some 42) "C").table =
        DynamoDB.sampleTable := by
  have h1 := (C18_create_decided_by_metadata_key_alone DynamoDB.sampleTable
    DynamoDB.sampleUUID 42 (by decide)).1 (by decide)
  have h2 := (C18_create_decided_by_metadata_key_alone DynamoDB.sampleTable "C" 42
    (by decide)).2 ⟨.cart ⟨"CART#C", "CART", "CUST#42", "CART#C", "C", 42, "active"⟩,
      by decide, by decide⟩
  rw [h1, h2]
  exact ⟨rfl, rfl, rfl, rfl⟩

namespace DynamoDB

/-- The read of a partition whose records with sort key `CART` all unmarshal
to `m`, and which has one: status 200, the cart fields of `m`, and one entry
per item record of the partition, in sort-key order. -/
theorem get_with_metadata (t : Table) (c : String) (m : cartMetadata)
    (hsome : ∃ r ∈ t, r.PK = "CART#" ++ c ∧ r.SK = "CART")
    (hall : ∀ r ∈ t, r.PK = "CART#" ++ c → r.SK = "CART" → unmarshalMetadata r = m) :
    (getShoppingCart t c).response =
      ⟨200, .info ⟨m.CartID, m.CustomerID, m.Status,
        ((Query t ("CART#" ++ c)).filter Item.isItemRecord).map Item.info⟩⟩ := by
  obtain ⟨w, hw, hwpk, hwsk⟩ := hsome
  have hwq : w ∈ Query t ("CART#" ++ c) := (mem_Query t _ w).2 ⟨hw, hwpk⟩
  have hlen : ¬ (Query t ("CART#" ++ c)).length = 0 := by
    intro h
    rw [List.length_eq_zero] at h
    rw [h] at hwq
    exact List.not_mem_nil _ hwq
  have hfound : (List.foldl GetScan.step ⟨⟨"", 0, "", []⟩, false⟩
      (Query t ("CART#" ++ c))).foundCartMeta = true := by
    rw [scan_foundCartMeta, Bool.false_or, List.any_eq_true]
    exact ⟨w, hwq, by simpa using hwsk⟩
  have hfields := scan_meta m (Query t ("CART#" ++ c)) ⟨⟨"", 0, "", []⟩, false⟩
    (fun r hr hsk => hall r ((mem_Query t _ r).1 hr).1 ((mem_Query t _ r).1 hr).2 hsk)
    (by intro h; simp at h) hfound
  have hitems := scan_Items (Query t ("CART#" ++ c)) ⟨⟨"", 0, "", []⟩, false⟩
  simp only [getShoppingCart, hlen, if_false, hfound, not_true_eq_false]
  cases hs : (List.foldl GetScan.step ⟨⟨"", 0, "", []⟩, false⟩
      (Query t ("CART#" ++ c))).response with
  | mk cid cust st its =>
    rw [hs] at hfields hitems
    simp only [List.nil_append] at hfields hitems
    rw [hfields.1, hfields.2.1, hfields.2.2, hitems]

end DynamoDB

/-! ## C12 -/

/-- C12 fails as stated: the table that an update of the never created sample
identity leaves holds an item record under that identity and no metadata
record; on it `createShoppingCart` for customer 42 generating that identity
succeeds, and the read that follows returns a non-empty item list. -/
theorem C12_counterexample :
    DynamoDB.Reachable DynamoDB.orphanTable ∧
      (DynamoDB.createShoppingCart DynamoDB.orphanTable (some 42)
        DynamoDB.sampleUUID).response =
        ⟨201, .created "3f2b8c1e-9d4a-4e57-8a6b-0c1d2e3f4a5b" "active"⟩ ∧
      (DynamoDB.getShoppingCart
        (DynamoDB.createShoppingCart DynamoDB.orphanTable (some 42)
          DynamoDB.sampleUUID).table DynamoDB.sampleUUID).response =
        ⟨200, .info ⟨"3f2b8c1e-9d4a-4e57-8a6b-0c1d2e3f4a5b", 42, "active",
          [⟨7, "Widget #7", 2⟩]⟩⟩ := by
  have hreach := DynamoDB.Reachable.update [] DynamoDB.sampleUUID (some ⟨[⟨7, 2⟩]⟩)
    DynamoDB.Reachable.empty
  have htab : (DynamoDB.updateItemToShoppingCart [] DynamoDB.sampleUUID
      (some ⟨[⟨7, 2⟩]⟩)).table = DynamoDB.orphanTable := by decide
  rw [htab] at hreach
  exact ⟨hreach, by decide, by decide⟩

/-- C12, amended. In the single-table strategy, for every table and non-zero
customer id, if `createShoppingCart` succeeds and returns `C` and "active",
the read of `C` that follows succeeds and returns cart id `C`, the same
customer id and status "active"; its item list has exactly the entries of the
item records that the partition `CART#C` held before the creation, so it is
empty if and only if the partition held no item record. -/
theorem C12_created_cart_reads_back_with_partition_items
    (t : DynamoDB.Table) (C : String) (n : Nat) (hn : n ≠ 0)
    (hcreate : (DynamoDB.createShoppingCart t (some n) C).response =
      ⟨201, .created C "active"⟩) :
    ∃ items,
      (DynamoDB.getShoppingCart (DynamoDB.createShoppingCart t (some n) C).table
        C).response = ⟨200, .info ⟨C, n, "active", items⟩⟩ ∧
      (∀ i, i ∈ items ↔
        ∃ r ∈ t, r.PK = "CART#" ++ C ∧ r.isItemRecord = true ∧ r.info = i) ∧
      (items = [] ↔ ∀ r ∈ t, r.PK = "CART#" ++ C → r.isItemRecord = false) := by
  have habsent : ∀ r ∈ t, ¬ (r.PK = "CART#" ++ C ∧ r.SK = "CART") := by
    intro r hr hk
    rw [DynamoDB.create_present t C n hn ⟨r, hr, hk⟩] at hcreate
    simp at hcreate
  rw [DynamoDB.create_absent t C n hn habsent]
  have hget := DynamoDB.get_with_metadata
    (t ++ [.cart ⟨"CART#" ++ C, "CART", "CUST#" ++ toString n, "CART#" ++ C, C, n,
      "active"⟩]) C
    ⟨"CART#" ++ C, "CART", "CUST#" ++ toString n, "CART#" ++ C, C, n, "active"⟩
    ⟨.cart ⟨"CART#" ++ C, "CART", "CUST#" ++ toString n, "CART#" ++ C, C, n, "active"⟩,
      List.mem_append_right _ (List.mem_singleton.2 rfl), rfl, rfl⟩
    (by
      intro r hr hpk hsk
      rcases List.mem_append.1 hr with h | h
      · exact absurd ⟨hpk, hsk⟩ (habsent r h)
      · rw [List.mem_singleton.1 h]
        rfl)
  have hmem : ∀ i, i ∈ ((DynamoDB.Query
      (t ++ [.cart ⟨"CART#" ++ C, "CART", "CUST#" ++ toString n, "CART#" ++ C, C, n,
        "active"⟩]) ("CART#" ++ C)).filter DynamoDB.Item.isItemRecord).map
      DynamoDB.Item.info ↔
      ∃ r ∈ t, r.PK = "CART#" ++ C ∧ r.isItemRecord = true ∧ r.info = i := by
    intro i
    simp only [List.mem_map, List.mem_filter, DynamoDB.mem_Query, List.mem_append,
      List.mem_singleton]
    constructor
    · rintro ⟨r, ⟨⟨hr | hr, hpk⟩, hit⟩, hinfo⟩
      · exact ⟨r, hr, hpk, hit, hinfo⟩
      · rw [hr, DynamoDB.isItemRecord_of_SK_CART
          (.cart ⟨"CART#" ++ C, "CART", "CUST#" ++ toString n, "CART#" ++ C, C, n,
            "active"⟩) rfl] at hit
        exact absurd hit (by decide)
    · rintro ⟨r, hr, hpk, hit, hinfo⟩
      exact ⟨r, ⟨⟨Or.inl hr, hpk⟩, hit⟩, hinfo⟩
  refine ⟨_, hget, hmem, ?_⟩
  rw [List.eq_nil_iff_forall_not_mem]
  constructor
  · intro h r hr hpk
    by_contra hit
    exact h r.info ((hmem r.info).2 ⟨r, hr, hpk, by simpa using hit, rfl⟩)
  · intro h i hi
    obtain ⟨r, hr, hpk, hit, _⟩ := (hmem i).1 hi
    rw [h r hr hpk] at hit
    exact absurd hit (by decide)

/-- C12 amended, at the sample table: a cart created for customer 44 under
the sample identity, whose partition holds nothing, reads back empty. -/
theorem C12_created_cart_reads_back_with_partition_items_witness :
    (DynamoDB.getShoppingCart
      (DynamoDB.createShoppingCart DynamoDB.sampleTable (some 44)
        DynamoDB.sampleUUID).table DynamoDB.sampleUUID).response =
      ⟨200, .info ⟨"3f2b8c1e-9d4a-4e57-8a6b-0c1d2e3f4a5b", 44, "active", []⟩⟩ := by
  obtain ⟨items, hget, _, hempty⟩ :=
    C12_created_cart_reads_back_with_partition_items DynamoDB.sampleTable
      DynamoDB.sampleUUID 44 (by decide) (by decide)
  have hnil : items = [] := hempty.2 (by decide)
  rw [hget, hnil]
  rfl

namespace DynamoDB

/-! ## Item keys -/

/-- An item sort key is never the metadata sort key. -/
theorem item_SK_ne_CART (x : String) : "ITEM#" ++ x ≠ "CART" := by
  intro h
  have h2 : ("ITEM#" ++ x).data = "CART".data := congrArg String.data h
  rw [String.data_append] at h2
  have h3 : "ITEM#".data = 'I' :: "TEM#".data := rfl
  have h4 : "CART".data = 'C' :: "ART".data := rfl
  rw [h3, h4, List.cons_append] at h2
  exact absurd (List.cons.inj h2).1 (by decide)

/-- The item key is an injective function of cart id and product id. -/
theorem item_key_injective (c c' : String) (p p' : Int)
    (h : ("CART#" ++ c, "ITEM#" ++ toString p) = ("CART#" ++ c', "ITEM#" ++ toString p')) :
    c = c' ∧ p = p' := by
  rw [Prod.mk.injEq] at h
  exact ⟨string_append_left_cancel _ _ _ h.1,
    int_toString_injective _ _ (string_append_left_cancel _ _ _ h.2)⟩

/-- The put requests of a request with pairwise distinct product ids have
pairwise distinct keys. -/
theorem writes_keys_nodup (cartPK : String) (items : List updateCartItem)
    (hdistinct : (items.map (fun i => i.ProductID)).Nodup) :
    (((items.filter (fun i => decide (i.Quantity > 0))).map (itemRecord cartPK)).map
      (fun r => (r.PK, r.SK))).Nodup := by
  have hsub : ((items.filter (fun i => decide (i.Quantity > 0))).map
      (fun i => i.ProductID)).Nodup :=
    hdistinct.sublist ((List.filter_sublist items).map _)
  have hinj : Function.Injective (fun p : Int => (cartPK, "ITEM#" ++ toString p)) := by
    intro p q hpq
    simp only [Prod.mk.injEq, true_and] at hpq
    exact int_toString_injective _ _ (string_append_left_cancel _ _ _ hpq)
  have h := hsub.map hinj
  rw [List.map_map] at h ⊢
  exact h

/-- Puts at pairwise distinct keys that hold no record append the items in
order. -/
theorem foldl_put_of_absent (W : List Item) :
    ∀ t : Table, (∀ r ∈ t, ∀ w ∈ W, ¬ (r.PK = w.PK ∧ r.SK = w.SK)) →
      (W.map (fun r => (r.PK, r.SK))).Nodup → W.foldl Table.put t = t ++ W := by
  induction W with
  | nil => intro t _ _; simp
  | cons w W ih =>
    intro t habs hnd
    rw [List.map_cons, List.nodup_cons] at hnd
    rw [List.foldl_cons, put_of_absent t w (fun r hr => habs r hr w (List.mem_cons_self _ _)),
      ih (t ++ [w]) _ hnd.2]
    · simp
    · intro r hr x hx hk
      rcases List.mem_append.1 hr with h | h
      · exact habs r h x (List.mem_cons_of_mem _ hx) hk
      · rw [List.mem_singleton] at h
        subst h
        apply hnd.1
        rw [List.mem_map]
        exact ⟨x, hx, by rw [Prod.mk.injEq]; exact ⟨hk.1.symm, hk.2.symm⟩⟩

/-- An update with pairwise distinct product ids and between 1 and 25 entries
of quantity above zero succeeds and applies its puts. -/
theorem update_ok (t : Table) (cartIDStr : String) (items : List updateCartItem)
    (hdistinct : (items.map (fun i => i.ProductID)).Nodup)
    (hpos : ∃ i ∈ items, 0 < i.Quantity)
    (hmax : (items.filter (fun i => decide (i.Quantity > 0))).length ≤ 25) :
    updateItemToShoppingCart t cartIDStr (some ⟨items⟩) =
      ⟨⟨200, .message ("Cart " ++ cartIDStr ++ " updated")⟩,
        ((items.filter (fun i => decide (i.Quantity > 0))).map
          (itemRecord ("CART#" ++ cartIDStr))).foldl Table.put t,
        [.BatchWriteItem ((items.filter (fun i => decide (i.Quantity > 0))).map
          (itemRecord ("CART#" ++ cartIDStr)))]⟩ := by
  have hw := collectWrites_distinct ("CART#" ++ cartIDStr) items hdistinct
  have hnd := writes_keys_nodup ("CART#" ++ cartIDStr) items hdistinct
  have hlen1 : 0 < (items.filter (fun i => decide (i.Quantity > 0))).length := by
    obtain ⟨i, hi, hq⟩ := hpos
    exact List.length_pos_of_mem (List.mem_filter.2 ⟨hi, by simpa using hq⟩)
  have hlen0 : ¬ ((items.filter (fun i => decide (i.Quantity > 0))).map
      (itemRecord ("CART#" ++ cartIDStr))).length = 0 := by
    rw [List.length_map]
    omega
  have hrange : ¬ (((items.filter (fun i => decide (i.Quantity > 0))).map
      (itemRecord ("CART#" ++ cartIDStr))).length < 1 ∨
      25 < ((items.filter (fun i => decide (i.Quantity > 0))).map
      (itemRecord ("CART#" ++ cartIDStr))).length) := by
    rw [List.length_map]
    omega
  simp only [updateItemToShoppingCart, hw, hlen0, if_false, BatchWriteItem, hrange, hnd,
    not_true_eq_false]

/-- An update with more than 25 entries of quantity above zero is refused by
the service and leaves the table unchanged. -/
theorem update_too_many (t : Table) (cartIDStr : String) (items : List updateCartItem)
    (hdistinct : (items.map (fun i => i.ProductID)).Nodup)
    (hmany : 25 < (items.filter (fun i => decide (i.Quantity > 0))).length) :
    updateItemToShoppingCart t cartIDStr (some ⟨items⟩) =
      ⟨⟨500, .error ⟨"DB_ERROR", "Failed to batch write items",
          DynamoError.ValidationException.Error⟩⟩,
        t,
        [.BatchWriteItem ((items.filter (fun i => decide (i.Quantity > 0))).map
          (itemRecord ("CART#" ++ cartIDStr)))]⟩ := by
  have hw := collectWrites_distinct ("CART#" ++ cartIDStr) items hdistinct
  have hlen0 : ¬ ((items.filter (fun i => decide (i.Quantity > 0))).map
      (itemRecord ("CART#" ++ cartIDStr))).length = 0 := by
    rw [List.length_map]
    omega
  have hrange : ((items.filter (fun i => decide (i.Quantity > 0))).map
      (itemRecord ("CART#" ++ cartIDStr))).length < 1 ∨
      25 < ((items.filter (fun i => decide (i.Quantity > 0))).map
      (itemRecord ("CART#" ++ cartIDStr))).length := by
    rw [List.length_map]
    exact Or.inr hmany
  simp only [updateItemToShoppingCart, hw, hlen0, if_false, BatchWriteItem, hrange, if_true]

end DynamoDB

/-! ## C20 -/

/-- C20 fails as stated: for the sample identity, whose partition in the empty
table holds no record, the batch of 26 entries with pairwise distinct product
ids and quantity 1 is not written: the service refuses a batch write of more
than 25 requests, the handler answers status 500 and the table stays
empty. -/
theorem C20_counterexample :
    (DynamoDB.batch26.map (fun i => i.ProductID)).Nodup ∧
      (∃ i ∈ DynamoDB.batch26, 0 < i.Quantity) ∧
      (DynamoDB.updateItemToShoppingCart [] DynamoDB.sampleUUID
        (some ⟨DynamoDB.batch26⟩)).response =
        ⟨500, .error ⟨"DB_ERROR", "Failed to batch write items",
          DynamoDB.DynamoError.ValidationException.Error⟩⟩ ∧
      (DynamoDB.updateItemToShoppingCart [] DynamoDB.sampleUUID
        (some ⟨DynamoDB.batch26⟩)).table = [] := by
  have hd : (DynamoDB.batch26.map (fun i => i.ProductID)).Nodup := by decide
  have h := DynamoDB.update_too_many [] DynamoDB.sampleUUID DynamoDB.batch26 hd (by decide)
  rw [h]
  exact ⟨hd, ⟨⟨1, 1⟩, by decide, by decide⟩, rfl, rfl⟩

/-- C20, amended. In the single-table strategy, for every cart id `c` whose
partition holds no record and every batch of pairwise distinct product ids
with at least one and at most 25 entries of quantity above zero,
`updateItemToShoppingCart` succeeds without any cart-existence check and
appends the item records of those entries to the table; the read of `c` that
follows does not succeed but reports the missing metadata ("Cart data
corrupted, metadata not found") with status 404. -/
theorem C20_update_of_uncreated_cart_then_corrupted_read
    (t : DynamoDB.Table) (c : String) (hfresh : ∀ r ∈ t, r.PK ≠ "CART#" ++ c)
    (items : List DynamoDB.updateCartItem)
    (hdistinct : (items.map (fun i => i.ProductID)).Nodup)
    (hpos : ∃ i ∈ items, 0 < i.Quantity)
    (hmax : (items.filter (fun i => decide (i.Quantity > 0))).length ≤ 25) :
    DynamoDB.updateItemToShoppingCart t c (some ⟨items⟩) =
        ⟨⟨200, .message ("Cart " ++ c ++ " updated")⟩,
          t ++ (items.filter (fun i => decide (i.Quantity > 0))).map
            (fun i => .cartItem ⟨"CART#" ++ c, "ITEM#" ++ toString i.ProductID,
              i.ProductID, i.Quantity, "Widget #" ++ toString i.ProductID⟩),
          [.BatchWriteItem ((items.filter (fun i => decide (i.Quantity > 0))).map
            (fun i => .cartItem ⟨"CART#" ++ c, "ITEM#" ++ toString i.ProductID,
              i.ProductID, i.Quantity, "Widget #" ++ toString i.ProductID⟩))]⟩ ∧
      (DynamoDB.getShoppingCart
        (DynamoDB.updateItemToShoppingCart t c (some ⟨items⟩)).table c).response =
        ⟨404, .error ⟨"CART_NOT_FOUND", "Cart data corrupted, metadata not found",
          "Cart " ++ c ++ " has items but no main record"⟩⟩ := by
  have hW : ∀ w ∈ (items.filter (fun i => decide (i.Quantity > 0))).map
      (DynamoDB.itemRecord ("CART#" ++ c)),
      w.PK = "CART#" ++ c ∧ w.SK ≠ "CART" := by
    intro w hw
    obtain ⟨i, _, rfl⟩ := List.mem_map.1 hw
    exact ⟨rfl, DynamoDB.item_SK_ne_CART _⟩
  have hfold := DynamoDB.foldl_put_of_absent
    ((items.filter (fun i => decide (i.Quantity > 0))).map
      (DynamoDB.itemRecord ("CART#" ++ c))) t
    (fun r hr w hw hk => hfresh r hr (hk.1.trans (hW w hw).1))
    (DynamoDB.writes_keys_nodup ("CART#" ++ c) items hdistinct)
  have hupd := DynamoDB.update_ok t c items hdistinct hpos hmax
  rw [hfold] at hupd
  have hrec : (items.filter (fun i => decide (i.Quantity > 0))).map
      (DynamoDB.itemRecord ("CART#" ++ c)) =
      (items.filter (fun i => decide (i.Quantity > 0))).map
        (fun i => DynamoDB.Item.cartItem ⟨"CART#" ++ c, "ITEM#" ++ toString i.ProductID,
          i.ProductID, i.Quantity, "Widget #" ++ toString i.ProductID⟩) := rfl
  refine ⟨by rw [hupd, hrec], ?_⟩
  rw [hupd]
  obtain ⟨i, hi, hq⟩ := hpos
  have hin : DynamoDB.itemRecord ("CART#" ++ c) i ∈
      (items.filter (fun i => decide (i.Quantity > 0))).map
        (DynamoDB.itemRecord ("CART#" ++ c)) :=
    List.mem_map.2 ⟨i, List.mem_filter.2 ⟨hi, by simpa using hq⟩, rfl⟩
  rw [DynamoDB.get_without_metadata _ c
    ⟨_, List.mem_append_right _ hin, rfl⟩
    (by
      intro r hr hpk
      rcases List.mem_append.1 hr with h | h
      · exact absurd hpk (hfresh r h)
      · exact (hW r h).2)]

/-- C20 amended, at the sample table and the update `[(1,3),(2,0)]` of a cart
id that was never created. -/
theorem C20_update_of_uncreated_cart_then_corrupted_read_witness :
    (DynamoDB.updateItemToShoppingCart DynamoDB.sampleTable DynamoDB.sampleUUID
        (some ⟨[⟨1, 3⟩, ⟨2, 0⟩]⟩)).table =
        DynamoDB.sampleTable ++
          [.cartItem ⟨"CART#3f2b8c1e-9d4a-4e57-8a6b-0c1d2e3f4a5b", "ITEM#1", 1, 3,
            "Widget #1"⟩] ∧
      (DynamoDB.getShoppingCart
        (DynamoDB.updateItemToShoppingCart DynamoDB.sampleTable DynamoDB.sampleUUID
          (some ⟨[⟨1, 3⟩, ⟨2, 0⟩]⟩)).table DynamoDB.sampleUUID).response =
        ⟨404, .error ⟨"CART_NOT_FOUND", "Cart data corrupted, metadata not found",
          "Cart 3f2b8c1e-9d4a-4e57-8a6b-0c1d2e3f4a5b has items but no main record"⟩⟩ := by
  have h := C20_update_of_uncreated_cart_then_corrupted_read DynamoDB.sampleTable
    DynamoDB.sampleUUID (by decide) [⟨1, 3⟩, ⟨2, 0⟩] (by decide)
    ⟨⟨1, 3⟩, by decide, by decide⟩ (by decide)
  refine ⟨?_, h.2⟩
  rw [h.1]
  decide

namespace DynamoDB

/-! ## The reachable tables -/

/-- Puts of item records of request entries keep the shape of the stored
records. -/
theorem shape_foldl_put (cartPK : String) (W : List Item) :
    ∀ t : Table,
      (∀ r ∈ t, (∃ m, r = .cart m ∧ m.SK = "CART") ∨
        (∃ d, r = .cartItem d ∧ d.SK = "ITEM#" ++ toString d.ProductID)) →
      (∀ w ∈ W, ∃ i, w = itemRecord cartPK i) →
      ∀ r ∈ W.foldl Table.put t, (∃ m, r = .cart m ∧ m.SK = "CART") ∨
        (∃ d, r = .cartItem d ∧ d.SK = "ITEM#" ++ toString d.ProductID) := by
  induction W with
  | nil => intro t ht _; exact ht
  | cons w W ihW =>
    intro t ht hW
    rw [List.foldl_cons]
    apply ihW (t.put w)
    · intro r hr
      rcases (mem_put t w r).1 hr with h2 | h2
      · obtain ⟨i, hi⟩ := hW w (List.mem_cons_self _ _)
        exact Or.inr ⟨_, h2.trans hi, rfl⟩
      · exact ht r h2.1
    · exact fun x hx => hW x (List.mem_cons_of_mem _ hx)

/-- The shape of the records the handlers write: a metadata record has sort
key `CART`, an item record has the sort key `ITEM#` followed by the decimal
text of its product id. -/
theorem shape_of_reachable_aux (t : Table) (h : Reachable t) :
    t.wellFormed ∧
      ∀ r ∈ t, (∃ m, r = .cart m ∧ m.SK = "CART") ∨
        (∃ d, r = .cartItem d ∧ d.SK = "ITEM#" ++ toString d.ProductID) := by
  induction h with
  | empty => exact ⟨List.nodup_nil, fun r hr => absurd hr (List.not_mem_nil r)⟩
  | create t req cartID _ ih =>
    have hcases : (createShoppingCart t req cartID).table = t ∨
        ∃ m : cartMetadata, m.SK = "CART" ∧
          (createShoppingCart t req cartID).table = t.put (.cart m) := by
      unfold createShoppingCart
      cases req with
      | none => exact Or.inl rfl
      | some n =>
        simp only
        split_ifs
        · exact Or.inl rfl
        · unfold PutItemIfNotExists
          split_ifs
          · exact Or.inl rfl
          · exact Or.inr ⟨_, rfl, rfl⟩
    rcases hcases with h1 | ⟨m, hm, h1⟩
    · rw [h1]; exact ih
    · rw [h1]
      refine ⟨put_wellFormed t _ ih.1, fun r hr => ?_⟩
      rcases (mem_put t _ r).1 hr with h2 | h2
      · exact Or.inl ⟨m, h2, hm⟩
      · exact ih.2 r h2.1
  | update t cartIDStr req _ ih =>
    have hcases : (updateItemToShoppingCart t cartIDStr req).table = t ∨
        ∃ W : List Item, (∀ w ∈ W, ∃ i, w = itemRecord ("CART#" ++ cartIDStr) i) ∧
          (updateItemToShoppingCart t cartIDStr req).table = W.foldl Table.put t := by
      cases req with
      | none => exact Or.inl rfl
      | some req =>
        simp only [updateItemToShoppingCart]
        cases hw : collectWrites ("CART#" ++ cartIDStr) [] [] req.Items with
        | none => exact Or.inl rfl
        | some W =>
          simp only
          split_ifs
          · exact Or.inl rfl
          · have hWrec : ∀ w ∈ W, ∃ i, w = itemRecord ("CART#" ++ cartIDStr) i := by
              intro w hw2
              rcases collectWrites_mem _ _ _ _ _ hw w hw2 with h | ⟨i, _, _, hi⟩
              · exact absurd h (List.not_mem_nil w)
              · exact ⟨i, hi⟩
            unfold BatchWriteItem
            split_ifs
            all_goals first
              | exact Or.inl rfl
              | exact Or.inr ⟨W, hWrec, rfl⟩
    rcases hcases with h1 | ⟨W, hW, h1⟩
    · rw [h1]; exact ih
    · rw [h1]
      exact ⟨foldl_put_wellFormed W t ih.1, shape_foldl_put _ W t ih.2 hW⟩

/-- In a reachable table, a record of a partition that the read takes for an
item record has the key made of the partition and the decimal text of the
product id it unmarshals to. -/
theorem key_of_reachable_item (t : Table) (h : Reachable t) (r : Item) (hr : r ∈ t)
    (hitem : r.isItemRecord = true) :
    r.SK = "ITEM#" ++ toString (unmarshalItemData r).ProductID := by
  rcases (shape_of_reachable_aux t h).2 r hr with ⟨m, rfl, hm⟩ | ⟨d, rfl, hd⟩
  · rw [isItemRecord_of_SK_CART (.cart m) hm] at hitem
    exact absurd hitem (by decide)
  · exact hd

/-- The item list of a successful read: one entry per item record of the
partition, in sort-key order. -/
theorem get_success_Items (t : Table) (c : String) (x : shoppingCartInfo)
    (h : (getShoppingCart t c).response = ⟨200, .info x⟩) :
    x.Items = ((Query t ("CART#" ++ c)).filter Item.isItemRecord).map Item.info := by
  simp only [getShoppingCart] at h
  split_ifs at h with h1 h2
  · simp at h
  · simp only [Response.mk.injEq, Body.info.injEq, true_and] at h
    rw [← h, scan_Items]
    rfl
  · simp at h

end DynamoDB

/-- A list without repetition all of whose elements are the same has at most
one element. -/
theorem length_le_one_of_nodup_of_all_eq {α : Type} (l : List α) (k : α)
    (hnd : l.Nodup) (hall : ∀ x ∈ l, k = x) : l.length ≤ 1 := by
  match l, hnd, hall with
  | [], _, _ => simp
  | [_], _, _ => simp
  | a :: b :: l, hnd, hall =>
    exfalso
    have ha := hall a (by simp)
    have hb := hall b (by simp)
    rw [List.nodup_cons] at hnd
    exact hnd.1 (by rw [← ha, hb]; exact List.mem_cons_self _ _)

/-! ## C17 -/

/-- C17. In the single-table strategy the key of an item record, (`CART#` cart
id, `ITEM#` product id), determines the cart id and the product id, and its
sort key is never the metadata sort key `CART`. Hence in every table
reachable from the empty table through `createShoppingCart` and
`updateItemToShoppingCart`, a partition holds at most one item record per
product id, and the item list of a successful `getShoppingCart` has pairwise
distinct product ids. -/
theorem C17_one_item_record_per_cart_and_product :
    (∀ (c c' : String) (i i' : DynamoDB.updateCartItem),
        (DynamoDB.itemRecord ("CART#" ++ c) i).PK =
            (DynamoDB.itemRecord ("CART#" ++ c') i').PK →
          (DynamoDB.itemRecord ("CART#" ++ c) i).SK =
            (DynamoDB.itemRecord ("CART#" ++ c') i').SK →
          c = c' ∧ i.ProductID = i'.ProductID) ∧
      (∀ (cartPK : String) (i : DynamoDB.updateCartItem),
        (DynamoDB.itemRecord cartPK i).SK ≠ "CART") ∧
      (∀ t : DynamoDB.Table, DynamoDB.Reachable t →
        (∀ (pk : String) (pid : Int),
          (t.filter (fun r => decide (r.PK = pk) && r.isItemRecord &&
            decide ((DynamoDB.unmarshalItemData r).ProductID = pid))).length ≤ 1) ∧
        (∀ (c : String) (x : DynamoDB.shoppingCartInfo),
          (DynamoDB.getShoppingCart t c).response = ⟨200, .info x⟩ →
          (x.Items.map (fun i => i.ProductID)).Nodup)) := by
  refine ⟨?_, fun cartPK i => DynamoDB.item_SK_ne_CART _, ?_⟩
  · intro c c' i i' hpk hsk
    exact DynamoDB.item_key_injective c c' i.ProductID i'.ProductID
      (by rw [Prod.mk.injEq]; exact ⟨hpk, hsk⟩)
  · intro t hreach
    have hwf := (DynamoDB.shape_of_reachable_aux t hreach).1
    constructor
    · intro pk pid
      have hsubl : List.Sublist
          ((t.filter (fun r => decide (r.PK = pk) && r.isItemRecord &&
            decide ((DynamoDB.unmarshalItemData r).ProductID = pid))).map
            (fun r => (r.PK, r.SK)))
          (t.map (fun r => (r.PK, r.SK))) :=
        (List.filter_sublist t).map _
      have hnd := List.Nodup.sublist hsubl hwf
      have hall : ∀ k ∈ (t.filter (fun r => decide (r.PK = pk) && r.isItemRecord &&
          decide ((DynamoDB.unmarshalItemData r).ProductID = pid))).map
          (fun r => (r.PK, r.SK)), (pk, "ITEM#" ++ toString pid) = k := by
        intro k hk
        obtain ⟨r, hr, rfl⟩ := List.mem_map.1 hk
        rw [List.mem_filter] at hr
        simp only [Bool.and_eq_true, decide_eq_true_eq] at hr
        obtain ⟨hrt, ⟨hpk, hit⟩, hpid⟩ := hr
        rw [DynamoDB.key_of_reachable_item t hreach r hrt hit, hpk, hpid]
      have hle := length_le_one_of_nodup_of_all_eq _ _ hnd hall
      rw [List.length_map] at hle
      exact hle
    · intro c x hx
      rw [DynamoDB.get_success_Items t c x hx, List.map_map]
      have hperm : List.Perm
          ((DynamoDB.Query t ("CART#" ++ c)).map (fun r => (r.PK, r.SK)))
          ((t.filter (fun r => decide (r.PK = "CART#" ++ c))).map
            (fun r => (r.PK, r.SK))) :=
        (List.perm_insertionSort _ _).map _
      have hqnd : ((DynamoDB.Query t ("CART#" ++ c)).map (fun r => (r.PK, r.SK))).Nodup :=
        hperm.nodup_iff.2 (List.Nodup.sublist ((List.filter_sublist t).map _) hwf)
      have hfnd : (((DynamoDB.Query t ("CART#" ++ c)).filter
          DynamoDB.Item.isItemRecord).map (fun r => (r.PK, r.SK))).Nodup :=
        List.Nodup.sublist ((List.filter_sublist _).map _) hqnd
      apply List.Nodup.map_on _ (List.Nodup.of_map _ hfnd)
      intro a ha b hb hab
      have ha2 := List.mem_filter.1 ha
      have hb2 := List.mem_filter.1 hb
      have ha3 := (DynamoDB.mem_Query t _ a).1 ha2.1
      have hb3 := (DynamoDB.mem_Query t _ b).1 hb2.1
      have hska := DynamoDB.key_of_reachable_item t hreach a ha3.1 ha2.2
      have hskb := DynamoDB.key_of_reachable_item t hreach b hb3.1 hb2.2
      have hpid : (DynamoDB.unmarshalItemData a).ProductID =
          (DynamoDB.unmarshalItemData b).ProductID := hab
      apply List.inj_on_of_nodup_map hfnd ha hb
      rw [Prod.mk.injEq]
      exact ⟨ha3.2.trans hb3.2.symm, by rw [hska, hskb, hpid]⟩

/-- C17 at a table reached by creating a cart under the sample identity and
updating it twice: the read returns products 1 and 2 once each. -/
theorem C17_one_item_record_per_cart_and_product_witness :
    (DynamoDB.getShoppingCart
        (DynamoDB.updateItemToShoppingCart
          (DynamoDB.updateItemToShoppingCart
            (DynamoDB.createShoppingCart [] (some 42) DynamoDB.sampleUUID).table
            DynamoDB.sampleUUID (some ⟨[⟨1, 3⟩, ⟨2, 4⟩]⟩)).table
          DynamoDB.sampleUUID (some ⟨[⟨2, 9⟩, ⟨1, 5⟩]⟩)).table
        DynamoDB.sampleUUID).response =
        ⟨200, .info ⟨"3f2b8c1e-9d4a-4e57-8a6b-0c1d2e3f4a5b", 42, "active",
          [⟨1, "Widget #1", 5⟩, ⟨2, "Widget #2", 9⟩]⟩⟩ ∧
      (([⟨1, "Widget #1", 5⟩, ⟨2, "Widget #2", 9⟩] : List DynamoDB.cartItemInfo).map
        (fun i => i.ProductID)).Nodup := by
  have hget : (DynamoDB.getShoppingCart
      (DynamoDB.updateItemToShoppingCart
        (DynamoDB.updateItemToShoppingCart
          (DynamoDB.createShoppingCart [] (some 42) DynamoDB.sampleUUID).table
          DynamoDB.sampleUUID (some ⟨[⟨1, 3⟩, ⟨2, 4⟩]⟩)).table
        DynamoDB.sampleUUID (some ⟨[⟨2, 9⟩, ⟨1, 5⟩]⟩)).table
      DynamoDB.sampleUUID).response =
      ⟨200, .info ⟨"3f2b8c1e-9d4a-4e57-8a6b-0c1d2e3f4a5b", 42, "active",
        [⟨1, "Widget #1", 5⟩, ⟨2, "Widget #2", 9⟩]⟩⟩ := by decide
  exact ⟨hget,
    (C17_one_item_record_per_cart_and_product.2.2 _
      (DynamoDB.Reachable.update _ _ _
        (DynamoDB.Reachable.update _ _ _
          (DynamoDB.Reachable.create _ _ _ DynamoDB.Reachable.empty)))).2
      DynamoDB.sampleUUID _ hget⟩

namespace MySQL

/-! ## Repeating a relational update -/

/-- What a successful upsert says about its arguments and its result. -/
theorem upsertCartItem_of_ok (db db1 : DB) (pid : Int) (q cid : Nat)
    (h : upsertCartItem db pid q cid = .ok db1) :
    0 < q ∧ q ≤ maxIntUnsigned ∧
      db1.product = db.product ∧ db1.shopping_cart = db.shopping_cart ∧
      (∀ r, r ∈ db1.cart_item ↔
        r = ⟨pid, q, cid⟩ ∨
          (r ∈ db.cart_item ∧ ¬ (r.cart_id = cid ∧ r.product_id = pid))) := by
  unfold upsertCartItem at h
  by_cases h1 : maxIntUnsigned < q
  · rw [if_pos h1] at h; cases h
  · rw [if_neg h1] at h
    by_cases h2 : q = 0
    · rw [if_pos h2] at h; cases h
    · rw [if_neg h2] at h
      refine ⟨Nat.pos_of_ne_zero h2, Nat.le_of_not_lt h1, ?_⟩
      by_cases hany : db.cart_item.any
          (fun r => decide (r.cart_id = cid ∧ r.product_id = pid)) = true
      · rw [if_pos hany] at h
        cases h
        refine ⟨rfl, rfl, fun r => ?_⟩
        simp only [List.mem_map]
        constructor
        · rintro ⟨r0, hr0, rfl⟩
          by_cases hm : r0.cart_id = cid ∧ r0.product_id = pid
          · left
            rw [if_pos hm]
            obtain ⟨ha, hb⟩ := hm
            subst ha hb
            rfl
          · right
            rw [if_neg hm]
            exact ⟨hr0, hm⟩
        · rintro (rfl | ⟨hr, hm⟩)
          · obtain ⟨r0, hr0, hm0⟩ := List.any_eq_true.1 hany
            have hm0 : r0.cart_id = cid ∧ r0.product_id = pid := by simpa using hm0
            refine ⟨r0, hr0, ?_⟩
            rw [if_pos hm0]
            obtain ⟨ha, hb⟩ := hm0
            subst ha hb
            rfl
          · exact ⟨r, hr, by rw [if_neg hm]⟩
      · rw [if_neg hany] at h
        have hnone : ∀ r ∈ db.cart_item, ¬ (r.cart_id = cid ∧ r.product_id = pid) := by
          intro r hr hm
          exact hany (List.any_eq_true.2 ⟨r, hr, by simpa using hm⟩)
        split_ifs at h
        cases h
        refine ⟨rfl, rfl, fun r => ?_⟩
        simp only [List.mem_append, List.mem_singleton]
        constructor
        · rintro (hr | rfl)
          · exact Or.inr ⟨hr, hnone r hr⟩
          · exact Or.inl rfl
        · rintro (rfl | ⟨hr, _⟩)
          · exact Or.inr rfl
          · exact Or.inl hr

/-- An upsert that finds the rows of its cart and product already at its
quantity leaves the database as it is. -/
theorem upsertCartItem_fixed (db : DB) (pid : Int) (q cid : Nat)
    (hq : 0 < q) (hmax : q ≤ maxIntUnsigned)
    (hrow : ∃ r ∈ db.cart_item, r.cart_id = cid ∧ r.product_id = pid)
    (hall : ∀ r ∈ db.cart_item, r.cart_id = cid ∧ r.product_id = pid → r.quantity = q) :
    upsertCartItem db pid q cid = .ok db := by
  have h1 : ¬ maxIntUnsigned < q := by omega
  have h2 : ¬ q = 0 := by omega
  have hany : db.cart_item.any
      (fun r => decide (r.cart_id = cid ∧ r.product_id = pid)) = true := by
    obtain ⟨r, hr, hm⟩ := hrow
    exact List.any_eq_true.2 ⟨r, hr, by simpa using hm⟩
  have hmap : db.cart_item.map (fun r =>
      if r.cart_id = cid ∧ r.product_id = pid then { r with quantity := q } else r) =
      db.cart_item := by
    conv_rhs => rw [← List.map_id db.cart_item]
    apply List.map_congr_left
    intro r hr
    by_cases hm : r.cart_id = cid ∧ r.product_id = pid
    · rw [if_pos hm, ← hall r hr hm]
      rfl
    · rw [if_neg hm]
      rfl
  simp only [upsertCartItem, h1, h2, hany, if_true, if_false, hmap]

/-- What a loop without a failing statement says about its batch and its
result, for pairwise distinct product ids. -/
theorem execLoop_of_success (cid : Nat) (items : List updateCartItem) :
    ∀ db : DB, (items.map (fun i => i.ProductID)).Nodup →
      (execLoop cid db items).failed = none →
      (∀ i ∈ items, 0 < i.Quantity ∧ i.Quantity ≤ maxIntUnsigned) ∧
      (execLoop cid db items).calls =
        items.map (fun i => SqlCall.execUpsert i.ProductID i.Quantity cid) ∧
      (execLoop cid db items).db.product = db.product ∧
      (execLoop cid db items).db.shopping_cart = db.shopping_cart ∧
      (∀ r, r ∈ (execLoop cid db items).db.cart_item ↔
        (∃ i ∈ items, r = ⟨i.ProductID, i.Quantity, cid⟩) ∨
          (r ∈ db.cart_item ∧
            ¬ (r.cart_id = cid ∧ r.product_id ∈ items.map (fun i => i.ProductID)))) := by
  induction items with
  | nil =>
    intro db _ _
    simp [execLoop]
  | cons item rest ih =>
    intro db hnd hf
    rw [List.map_cons, List.nodup_cons] at hnd
    cases hup : upsertCartItem db item.ProductID item.Quantity cid with
    | error e =>
      simp [execLoop, hup] at hf
    | ok db1 =>
      simp only [execLoop, hup] at hf ⊢
      obtain ⟨hq, hmax, hP, hS, hmem⟩ := upsertCartItem_of_ok db db1 _ _ _ hup
      obtain ⟨hqs, hc, hP2, hS2, hmem2⟩ := ih db1 hnd.2 hf
      refine ⟨?_, by rw [hc]; rfl, hP2.trans hP, hS2.trans hS, ?_⟩
      · intro i hi
        rcases List.mem_cons.1 hi with rfl | h
        · exact ⟨hq, hmax⟩
        · exact hqs i h
      intro r
      rw [hmem2, hmem]
      simp only [List.mem_cons, List.map_cons, exists_eq_or_imp]
      constructor
      · rintro (h | ⟨rfl | ⟨hr, hm⟩, hn⟩)
        · exact Or.inl (Or.inr h)
        · exact Or.inl (Or.inl rfl)
        · right
          refine ⟨hr, ?_⟩
          rintro ⟨hc1, heq | hin⟩
          · exact hm ⟨hc1, heq⟩
          · exact hn ⟨hc1, hin⟩
      · rintro ((rfl | h) | ⟨hr, hn⟩)
        · right
          refine ⟨Or.inl rfl, ?_⟩
          rintro ⟨_, hin⟩
          exact hnd.1 hin
        · exact Or.inl h
        · right
          refine ⟨Or.inr ⟨hr, fun hm => hn ⟨hm.1, Or.inl hm.2⟩⟩, ?_⟩
          rintro ⟨hc1, hin⟩
          exact hn ⟨hc1, Or.inr hin⟩

/-- A loop over entries whose rows are already stored at their quantities
executes every upsert and leaves the database as it is. -/
theorem execLoop_fixed (cid : Nat) (db : DB) (items : List updateCartItem)
    (h : ∀ i ∈ items, 0 < i.Quantity ∧ i.Quantity ≤ maxIntUnsigned ∧
      (∃ r ∈ db.cart_item, r.cart_id = cid ∧ r.product_id = i.ProductID) ∧
      (∀ r ∈ db.cart_item, r.cart_id = cid ∧ r.product_id = i.ProductID →
        r.quantity = i.Quantity)) :
    execLoop cid db items =
      ⟨db, items.map (fun i => SqlCall.execUpsert i.ProductID i.Quantity cid), none⟩ := by
  induction items with
  | nil => rfl
  | cons item rest ih =>
    obtain ⟨hq, hmax, hrow, hall⟩ := h item (List.mem_cons_self _ _)
    simp only [execLoop, upsertCartItem_fixed db _ _ cid hq hmax hrow hall,
      ih (fun i hi => h i (List.mem_cons_of_mem _ hi)), List.map_cons]

/-- Running the loop again on the database it produced changes nothing. -/
theorem execLoop_idem (cid : Nat) (db : DB) (items : List updateCartItem)
    (hnd : (items.map (fun i => i.ProductID)).Nodup)
    (hf : (execLoop cid db items).failed = none) :
    execLoop cid (execLoop cid db items).db items =
      ⟨(execLoop cid db items).db, (execLoop cid db items).calls, none⟩ := by
  obtain ⟨hqs, hc, _, _, hmem⟩ := execLoop_of_success cid items db hnd hf
  rw [hc]
  apply execLoop_fixed
  intro i hi
  refine ⟨(hqs i hi).1, (hqs i hi).2, ⟨⟨i.ProductID, i.Quantity, cid⟩,
    (hmem _).2 (Or.inl ⟨i, hi, rfl⟩), rfl, rfl⟩, ?_⟩
  intro r hr hm
  rcases (hmem r).1 hr with ⟨j, hj, rfl⟩ | ⟨_, hn⟩
  · have hji : j = i := List.inj_on_of_nodup_map hnd hj hi hm.2
    rw [hji]
  · exact absurd ⟨hm.1, hm.2 ▸ List.mem_map.2 ⟨i, hi, rfl⟩⟩ hn

end MySQL

namespace MySQL

/-- Running the transaction again on the database it left gives the same
outcome. -/
theorem updateInTx_idem (db : DB) (cartIDStr : String) (cartID : Nat)
    (items : List updateCartItem)
    (hnd : (items.map (fun i => i.ProductID)).Nodup) (ids : List Int) :
    updateInTx (updateInTx db cartIDStr cartID ⟨items⟩ ids).db cartIDStr cartID ⟨items⟩ ids =
      updateInTx db cartIDStr cartID ⟨items⟩ ids := by
  by_cases hex : selectCartExists db cartID = true
  · cases hsp : selectProducts db ids with
    | error e =>
      have h1 : updateInTx db cartIDStr cartID ⟨items⟩ ids =
          ⟨⟨500, .error ⟨"DB_ERROR", "Fail to check products in the database", e.Error⟩⟩,
            db, [.Begin, .selectCartExists cartID, .selectProducts ids, .Rollback]⟩ := by
        simp only [updateInTx, hex, hsp, not_true_eq_false, if_false]
      rw [h1]
      exact h1
    | ok existingList =>
      by_cases hlt : existingList.length < ids.length
      · have h1 : (updateInTx db cartIDStr cartID ⟨items⟩ ids).db = db := by
          simp only [updateInTx, hex, hsp, not_true_eq_false, if_false, hlt, if_true]
        rw [h1]
      · cases hf : (execLoop cartID db items).failed with
        | some pid =>
          have h1 : (updateInTx db cartIDStr cartID ⟨items⟩ ids).db = db := by
            simp only [updateInTx, hex, hsp, not_true_eq_false, if_false, hlt, hf]
          rw [h1]
        | none =>
          have h1 : updateInTx db cartIDStr cartID ⟨items⟩ ids =
              ⟨⟨200, .H "message" ("Cart " ++ toString cartID ++ " updated")⟩,
                (execLoop cartID db items).db,
                [.Begin, .selectCartExists cartID, .selectProducts ids, .prepareUpsert]
                  ++ (execLoop cartID db items).calls ++ [.Commit]⟩ := by
            simp only [updateInTx, hex, hsp, not_true_eq_false, if_false, hlt, hf]
          obtain ⟨_, _, hP, hS, _⟩ := execLoop_of_success cartID items db hnd hf
          have hex2 : selectCartExists (execLoop cartID db items).db cartID = true := by
            unfold selectCartExists at hex ⊢
            rw [hS]
            exact hex
          have hsp2 : selectProducts (execLoop cartID db items).db ids =
              .ok existingList := by
            unfold selectProducts at hsp ⊢
            rw [hP]
            exact hsp
          rw [h1]
          simp only [updateInTx, hex2, hsp2, not_true_eq_false, if_false, hlt,
            execLoop_idem cartID db items hnd hf]
  · have h1 : (updateInTx db cartIDStr cartID ⟨items⟩ ids).db = db := by
      simp only [updateInTx, hex, Bool.false_eq_true, not_false_eq_true, if_true]
    rw [h1]

/-- Repeating an update with pairwise distinct product ids on the database the
first run left gives the same outcome, the same database included. -/
theorem sql_update_idem (db : DB) (cartIDStr : String) (items : List updateCartItem)
    (hnd : (items.map (fun i => i.ProductID)).Nodup) :
    updateItemToShoppingCart (updateItemToShoppingCart db cartIDStr (some ⟨items⟩)).db
        cartIDStr (some ⟨items⟩) =
      updateItemToShoppingCart db cartIDStr (some ⟨items⟩) := by
  cases hparse : ParseUint cartIDStr with
  | none =>
    have h1 : (updateItemToShoppingCart db cartIDStr (some ⟨items⟩)).db = db := by
      simp only [updateItemToShoppingCart, hparse]
    rw [h1]
  | some cartID =>
    by_cases hpos : cartID < 1
    · have h1 : (updateItemToShoppingCart db cartIDStr (some ⟨items⟩)).db = db := by
        simp only [updateItemToShoppingCart, hparse, hpos, if_true]
      rw [h1]
    · rw [update_eq_updateInTx db cartIDStr cartID hparse (by omega) items hnd,
        update_eq_updateInTx _ cartIDStr cartID hparse (by omega) items hnd]
      exact updateInTx_idem db cartIDStr cartID items hnd _

end MySQL

namespace DynamoDB

/-! ## Repeating a single-table update -/

/-- The table after puts at pairwise distinct keys: the old items at other
keys, in their order, followed by the put items, in theirs. -/
theorem foldl_put_eq (W : List Item) :
    ∀ t : Table, (W.map (fun r => (r.PK, r.SK))).Nodup →
      W.foldl Table.put t =
        t.filter (fun r => W.all (fun w => ! Item.hasKey w.PK w.SK r)) ++ W := by
  induction W with
  | nil => intro t _; simp
  | cons w W ih =>
    intro t hnd
    rw [List.map_cons, List.nodup_cons] at hnd
    rw [List.foldl_cons, ih (t.put w) hnd.2]
    have hw : W.all (fun x => ! Item.hasKey x.PK x.SK w) = true := by
      rw [List.all_eq_true]
      intro x hx
      simp only [Item.hasKey, Bool.not_eq_true', decide_eq_false_iff_not]
      intro hk
      apply hnd.1
      rw [List.mem_map]
      exact ⟨x, hx, by rw [Prod.mk.injEq]; exact ⟨hk.1.symm, hk.2.symm⟩⟩
    simp only [Table.put, List.filter_append, List.filter_filter, List.filter_cons, hw,
      if_true, List.filter_nil, List.append_assoc, List.singleton_append, List.all_cons]
    congr 1
    apply List.filter_congr
    intro r _
    rw [Bool.and_comm]

/-- Repeating an update with pairwise distinct product ids on the table the
first run left gives the same outcome, the same table included. -/
theorem dyn_update_idem (t : Table) (cartIDStr : String) (items : List updateCartItem)
    (hnd : (items.map (fun i => i.ProductID)).Nodup) :
    updateItemToShoppingCart (updateItemToShoppingCart t cartIDStr (some ⟨items⟩)).table
        cartIDStr (some ⟨items⟩) =
      updateItemToShoppingCart t cartIDStr (some ⟨items⟩) := by
  have hw := collectWrites_distinct ("CART#" ++ cartIDStr) items hnd
  have hk := writes_keys_nodup ("CART#" ++ cartIDStr) items hnd
  by_cases hlen : ((items.filter (fun i => decide (i.Quantity > 0))).map
      (itemRecord ("CART#" ++ cartIDStr))).length = 0
  · have h1 : (updateItemToShoppingCart t cartIDStr (some ⟨items⟩)).table = t := by
      simp only [updateItemToShoppingCart, hw, hlen, if_true]
    rw [h1]
  · by_cases hrange : ((items.filter (fun i => decide (i.Quantity > 0))).map
        (itemRecord ("CART#" ++ cartIDStr))).length < 1 ∨
        25 < ((items.filter (fun i => decide (i.Quantity > 0))).map
        (itemRecord ("CART#" ++ cartIDStr))).length
    · have h1 : (updateItemToShoppingCart t cartIDStr (some ⟨items⟩)).table = t := by
        simp only [updateItemToShoppingCart, hw, hlen, if_false, BatchWriteItem, hrange,
          if_true]
      rw [h1]
    · have h1 : ∀ t0 : Table, updateItemToShoppingCart t0 cartIDStr (some ⟨items⟩) =
          ⟨⟨200, .message ("Cart " ++ cartIDStr ++ " updated")⟩,
            ((items.filter (fun i => decide (i.Quantity > 0))).map
              (itemRecord ("CART#" ++ cartIDStr))).foldl Table.put t0,
            [.BatchWriteItem ((items.filter (fun i => decide (i.Quantity > 0))).map
              (itemRecord ("CART#" ++ cartIDStr)))]⟩ := by
        intro t0
        simp only [updateItemToShoppingCart, hw, hlen, if_false, BatchWriteItem, hrange, hk,
          not_true_eq_false]
      rw [h1 t, h1]
      simp only [Outcome.mk.injEq, true_and, and_true]
      rw [foldl_put_eq _ t hk, foldl_put_eq _ _ hk]
      congr 1
      simp only [List.filter_append, List.filter_filter, Bool.and_self]
      have hnil : List.filter
          (fun r => ((items.filter (fun i => decide (i.Quantity > 0))).map
            (itemRecord ("CART#" ++ cartIDStr))).all
            (fun w => ! Item.hasKey w.PK w.SK r))
          ((items.filter (fun i => decide (i.Quantity > 0))).map
            (itemRecord ("CART#" ++ cartIDStr))) = [] := by
        rw [List.filter_eq_nil_iff]
        intro r hr
        rw [List.all_eq_true]
        intro hall
        have := hall r hr
        simp [Item.hasKey] at this
      rw [hnil, List.append_nil]

end DynamoDB

/-! ## C16 -/

/-- C16. In both strategies, for every store, every cart id and every update
batch with pairwise distinct product ids, running `updateItemToShoppingCart`
with that batch a second time, on the store the first run left, gives the
outcome of the first run: the same response and the same store, so the same
stored items with the same quantities. Nothing is added up. -/
theorem C16_update_twice_equals_update_once
    (db : MySQL.DB) (cartIDStr : String) (items : List MySQL.updateCartItem)
    (hdistinct : (items.map (fun i => i.ProductID)).Nodup)
    (t : DynamoDB.Table) (cartIDStr' : String) (items' : List DynamoDB.updateCartItem)
    (hdistinct' : (items'.map (fun i => i.ProductID)).Nodup) :
    (MySQL.updateItemToShoppingCart
        (MySQL.updateItemToShoppingCart db cartIDStr (some ⟨items⟩)).db
        cartIDStr (some ⟨items⟩) =
        MySQL.updateItemToShoppingCart db cartIDStr (some ⟨items⟩) ∧
      (MySQL.updateItemToShoppingCart
        (MySQL.updateItemToShoppingCart db cartIDStr (some ⟨items⟩)).db
        cartIDStr (some ⟨items⟩)).db.cart_item =
        (MySQL.updateItemToShoppingCart db cartIDStr (some ⟨items⟩)).db.cart_item) ∧
    (DynamoDB.updateItemToShoppingCart
        (DynamoDB.updateItemToShoppingCart t cartIDStr' (some ⟨items'⟩)).table
        cartIDStr' (some ⟨items'⟩) =
        DynamoDB.updateItemToShoppingCart t cartIDStr' (some ⟨items'⟩) ∧
      (DynamoDB.updateItemToShoppingCart
        (DynamoDB.updateItemToShoppingCart t cartIDStr' (some ⟨items'⟩)).table
        cartIDStr' (some ⟨items'⟩)).table =
        (DynamoDB.updateItemToShoppingCart t cartIDStr' (some ⟨items'⟩)).table) := by
  have h1 := MySQL.sql_update_idem db cartIDStr items hdistinct
  have h2 := DynamoDB.dyn_update_idem t cartIDStr' items' hdistinct'
  exact ⟨⟨h1, by rw [h1]⟩, h2, by rw [h2]⟩

/-- C16 at the sample stores: the batch `[(1,5),(2,3)]` on cart 1 and the
batch `[(7,5),(8,0),(9,1)]` on cart `C`, each applied twice. -/
theorem C16_update_twice_equals_update_once_witness :
    (MySQL.updateItemToShoppingCart
        (MySQL.updateItemToShoppingCart MySQL.sampleDB "1" (some ⟨[⟨1, 5⟩, ⟨2, 3⟩]⟩)).db
        "1" (some ⟨[⟨1, 5⟩, ⟨2, 3⟩]⟩)).db.cart_item =
        [⟨1, 5, 1⟩, ⟨3, 1, 2⟩, ⟨2, 3, 1⟩] ∧
      (DynamoDB.updateItemToShoppingCart
        (DynamoDB.updateItemToShoppingCart DynamoDB.sampleTable "C"
          (some ⟨[⟨7, 5⟩, ⟨8, 0⟩, ⟨9, 1⟩]⟩)).table
        "C" (some ⟨[⟨7, 5⟩, ⟨8, 0⟩, ⟨9, 1⟩]⟩)).table =
        [.cart ⟨"CART#C", "CART", "CUST#42", "CART#C", "C", 42, "active"⟩,
          .cartItem ⟨"CART#C", "ITEM#7", 7, 5, "Widget #7"⟩,
          .cartItem ⟨"CART#C", "ITEM#9", 9, 1, "Widget #9"⟩] := by
  have h := C16_update_twice_equals_update_once MySQL.sampleDB "1" [⟨1, 5⟩, ⟨2, 3⟩]
    (by decide) DynamoDB.sampleTable "C" [⟨7, 5⟩, ⟨8, 0⟩, ⟨9, 1⟩] (by decide)
  rw [h.1.2, h.2.2]
  exact ⟨by decide, by decide⟩

namespace DynamoDB

/-! ## The scenario of a created and once updated cart -/

/-- A record can only be created by a bound, non-zero customer id. -/
theorem customer_ne_zero_of_created (t : Table) (C : String) (n : Nat)
    (h : (createShoppingCart t (some n) C).response = ⟨201, .created C "active"⟩) :
    n ≠ 0 := by
  rintro rfl
  simp [createShoppingCart] at h

/-- The update `[(1,3),(2,0)]` of a cart whose partition holds its metadata
record and no item record writes the one item record of product 1. -/
theorem update_over_metadata (t : Table) (C : String) (m : cartMetadata)
    (hsk : m.SK = "CART")
    (hnoitem : ∀ r ∈ t, r.PK = "CART#" ++ C → r.isItemRecord = false) :
    updateItemToShoppingCart (t ++ [.cart m]) C (some ⟨[⟨1, 3⟩, ⟨2, 0⟩]⟩) =
      ⟨⟨200, .message ("Cart " ++ C ++ " updated")⟩,
        t ++ [.cart m, .cartItem ⟨"CART#" ++ C, "ITEM#1", 1, 3, "Widget #1"⟩],
        [.BatchWriteItem [.cartItem ⟨"CART#" ++ C, "ITEM#1", 1, 3, "Widget #1"⟩]]⟩ := by
  have hrec : itemRecord ("CART#" ++ C) ⟨1, 3⟩ =
      .cartItem ⟨"CART#" ++ C, "ITEM#1", 1, 3, "Widget #1"⟩ := by
    have h1 : "ITEM#" ++ toString (1 : Int) = "ITEM#1" := by decide
    have h2 : "Widget #" ++ toString (1 : Int) = "Widget #1" := by decide
    simp only [itemRecord, lookupProductName, h1, h2]
  have hw : collectWrites ("CART#" ++ C) [] [] [⟨1, 3⟩, ⟨2, 0⟩] =
      some [.cartItem ⟨"CART#" ++ C, "ITEM#1", 1, 3, "Widget #1"⟩] := by
    rw [collectWrites_distinct _ _ (by decide)]
    simp [List.filter_cons, hrec]
  have hne : "CART" ≠ "ITEM#1" := by decide
  have hput : (t ++ [Item.cart m]).put
      (.cartItem ⟨"CART#" ++ C, "ITEM#1", 1, 3, "Widget #1"⟩) =
      t ++ [.cart m, .cartItem ⟨"CART#" ++ C, "ITEM#1", 1, 3, "Widget #1"⟩] := by
    rw [put_of_absent]
    · simp
    · intro r hr hk
      have h1 : r.PK = "CART#" ++ C := hk.1
      have h2 : r.SK = "ITEM#1" := hk.2
      rcases List.mem_append.1 hr with h | h
      · have hit : r.isItemRecord = true := by
          unfold Item.isItemRecord
          rw [h2]
          decide
        rw [hnoitem r h h1] at hit
        exact absurd hit (by decide)
      · rw [List.mem_singleton] at h
        subst h
        exact hne (hsk.symm.trans h2)
  simp only [updateItemToShoppingCart, hw, BatchWriteItem, List.length_singleton,
    List.foldl_cons, List.foldl_nil, hput]
  simp

/-- The read of a cart whose partition holds its metadata record, the item
record of product 1 and otherwise no item record and no record with sort key
`CART`: the one item. -/
theorem get_over_metadata (t : Table) (C g1 g2 : String) (customer : Nat)
    (habsent : ∀ r ∈ t, ¬ (r.PK = "CART#" ++ C ∧ r.SK = "CART"))
    (hnoitem : ∀ r ∈ t, r.PK = "CART#" ++ C → r.isItemRecord = false) :
    (getShoppingCart
      (t ++ [.cart ⟨"CART#" ++ C, "CART", g1, g2, C, customer, "active"⟩,
        .cartItem ⟨"CART#" ++ C, "ITEM#1", 1, 3, "Widget #1"⟩]) C).response =
      ⟨200, .info ⟨C, customer, "active", [⟨1, "Widget #1", 3⟩]⟩⟩ := by
  have hitem1 : (Item.cartItem ⟨"CART#" ++ C, "ITEM#1", 1, 3, "Widget #1"⟩).isItemRecord =
      true := by
    show "ITEM#".data.isPrefixOf "ITEM#1".data = true
    decide
  have hmeta : (Item.cart ⟨"CART#" ++ C, "CART", g1, g2, C, customer,
      "active"⟩).isItemRecord = false :=
    isItemRecord_of_SK_CART _ rfl
  have hne : ¬ ("ITEM#1" = "CART") := by decide
  rw [get_with_metadata _ C ⟨"CART#" ++ C, "CART", g1, g2, C, customer, "active"⟩
    ⟨.cart ⟨"CART#" ++ C, "CART", g1, g2, C, customer, "active"⟩, by simp, rfl, rfl⟩
    (by
      intro r hr hpk hsk
      simp only [List.mem_append, List.mem_cons, List.mem_singleton,
        List.not_mem_nil, or_false] at hr
      rcases hr with h | rfl | rfl
      · exact absurd ⟨hpk, hsk⟩ (habsent r h)
      · rfl
      · exact absurd hsk hne)]
  have hperm : List.Perm
      ((Query (t ++ [.cart ⟨"CART#" ++ C, "CART", g1, g2, C, customer, "active"⟩,
        .cartItem ⟨"CART#" ++ C, "ITEM#1", 1, 3, "Widget #1"⟩])
        ("CART#" ++ C)).filter Item.isItemRecord)
      [.cartItem ⟨"CART#" ++ C, "ITEM#1", 1, 3, "Widget #1"⟩] := by
    have h1 := (List.perm_insertionSort
      (fun a b : Item => sortKeyLE a.SK.data b.SK.data = true)
      ((t ++ [Item.cart ⟨"CART#" ++ C, "CART", g1, g2, C, customer, "active"⟩,
        Item.cartItem ⟨"CART#" ++ C, "ITEM#1", 1, 3, "Widget #1"⟩]).filter
        (fun r => decide (r.PK = "CART#" ++ C)))).filter Item.isItemRecord
    have h2 : ((t ++ [Item.cart ⟨"CART#" ++ C, "CART", g1, g2, C, customer, "active"⟩,
        Item.cartItem ⟨"CART#" ++ C, "ITEM#1", 1, 3, "Widget #1"⟩]).filter
        (fun r : Item => decide (r.PK = "CART#" ++ C))).filter Item.isItemRecord =
        [Item.cartItem ⟨"CART#" ++ C, "ITEM#1", 1, 3, "Widget #1"⟩] := by
      have h3 : (t.filter (fun r : Item => decide (r.PK = "CART#" ++ C))).filter
          Item.isItemRecord = [] := by
        rw [List.filter_eq_nil_iff]
        intro r hr
        have hr2 := List.mem_filter.1 hr
        rw [hnoitem r hr2.1 (by simpa using hr2.2)]
        decide
      have h4 : ([Item.cart ⟨"CART#" ++ C, "CART", g1, g2, C, customer, "active"⟩,
          Item.cartItem ⟨"CART#" ++ C, "ITEM#1", 1, 3, "Widget #1"⟩].filter
          (fun r : Item => decide (r.PK = "CART#" ++ C))).filter Item.isItemRecord =
          [Item.cartItem ⟨"CART#" ++ C, "ITEM#1", 1, 3, "Widget #1"⟩] := by
        simp [List.filter_cons, Item.PK, hitem1, hmeta]
      rw [List.filter_append, List.filter_append, h3, h4, List.nil_append]
    rw [h2] at h1
    exact h1
  rw [List.perm_singleton.1 hperm]
  rfl

end DynamoDB

/-! ## C8 -/

/-- C8 fails as stated: on the table that holds an item record of product 7
under the sample identity and no metadata record, `createShoppingCart`
generating that identity succeeds, the update `[(1,3),(2,0)]` of the cart
succeeds, and the read that follows returns two items, product 1 at quantity
3 and product 7 at quantity 2. -/
theorem C8_counterexample :
    (DynamoDB.createShoppingCart DynamoDB.orphanTable (some 42)
        DynamoDB.sampleUUID).response =
        ⟨201, .created "3f2b8c1e-9d4a-4e57-8a6b-0c1d2e3f4a5b" "active"⟩ ∧
      (DynamoDB.updateItemToShoppingCart
        (DynamoDB.createShoppingCart DynamoDB.orphanTable (some 42)
          DynamoDB.sampleUUID).table DynamoDB.sampleUUID
        (some ⟨[⟨1, 3⟩, ⟨2, 0⟩]⟩)).response.status = 200 ∧
      (DynamoDB.getShoppingCart
        (DynamoDB.updateItemToShoppingCart
          (DynamoDB.createShoppingCart DynamoDB.orphanTable (some 42)
            DynamoDB.sampleUUID).table DynamoDB.sampleUUID
          (some ⟨[⟨1, 3⟩, ⟨2, 0⟩]⟩)).table DynamoDB.sampleUUID).response =
        ⟨200, .info ⟨"3f2b8c1e-9d4a-4e57-8a6b-0c1d2e3f4a5b", 42, "active",
          [⟨1, "Widget #1", 3⟩, ⟨7, "Widget #7", 2⟩]⟩⟩ := by
  decide

/-- C8, amended. In the single-table strategy, a successful update with pairwise
distinct product ids leaves the table with exactly these items: for each
entry of quantity above zero the record at (`CART#` cart id, `ITEM#` product
id) holding that product id, that quantity and the name `Widget #` product
id, and every old item whose key is not the key of such an entry; entries of
quantity zero write and delete nothing, and keys stay unique. Consequently a
cart `C` that `createShoppingCart` created on a table whose partition
`CART#C` held no item record (as for every fresh identity) and that is then
updated with `[(1,3),(2,0)]` is read back with exactly one item, product 1 at
quantity 3. -/
theorem C8_successful_update_writes_positive_entries_only
    (t : DynamoDB.Table) (cartIDStr : String) (items : List DynamoDB.updateCartItem)
    (hdistinct : (items.map (fun i => i.ProductID)).Nodup)
    (hsucc : (DynamoDB.updateItemToShoppingCart t cartIDStr
      (some ⟨items⟩)).response.status = 200)
    (t0 : DynamoDB.Table) (C : String) (customer : Nat)
    (hcreate : (DynamoDB.createShoppingCart t0 (some customer) C).response =
      ⟨201, .created C "active"⟩)
    (hnoitem : ∀ r ∈ t0, r.PK = "CART#" ++ C → r.isItemRecord = false) :
    ((∀ r, r ∈ (DynamoDB.updateItemToShoppingCart t cartIDStr (some ⟨items⟩)).table ↔
        (∃ i ∈ items, 0 < i.Quantity ∧
          r = .cartItem ⟨"CART#" ++ cartIDStr, "ITEM#" ++ toString i.ProductID,
            i.ProductID, i.Quantity, "Widget #" ++ toString i.ProductID⟩) ∨
        (r ∈ t ∧ ¬ ∃ i ∈ items, 0 < i.Quantity ∧
          r.PK = "CART#" ++ cartIDStr ∧ r.SK = "ITEM#" ++ toString i.ProductID)) ∧
      (∀ i ∈ items, 0 < i.Quantity →
        (DynamoDB.updateItemToShoppingCart t cartIDStr (some ⟨items⟩)).table.get
            ("CART#" ++ cartIDStr) ("ITEM#" ++ toString i.ProductID) =
          some (.cartItem ⟨"CART#" ++ cartIDStr, "ITEM#" ++ toString i.ProductID,
            i.ProductID, i.Quantity, "Widget #" ++ toString i.ProductID⟩)) ∧
      (∀ pk sk, (¬ ∃ i ∈ items, 0 < i.Quantity ∧
          pk = "CART#" ++ cartIDStr ∧ sk = "ITEM#" ++ toString i.ProductID) →
        (DynamoDB.updateItemToShoppingCart t cartIDStr (some ⟨items⟩)).table.get pk sk =
          t.get pk sk) ∧
      (t.wellFormed →
        (DynamoDB.updateItemToShoppingCart t cartIDStr (some ⟨items⟩)).table.wellFormed)) ∧
    ((DynamoDB.updateItemToShoppingCart
        (DynamoDB.createShoppingCart t0 (some customer) C).table C
        (some ⟨[⟨1, 3⟩, ⟨2, 0⟩]⟩)).response.status = 200 ∧
      (DynamoDB.getShoppingCart
        (DynamoDB.updateItemToShoppingCart
          (DynamoDB.createShoppingCart t0 (some customer) C).table C
          (some ⟨[⟨1, 3⟩, ⟨2, 0⟩]⟩)).table C).response =
        ⟨200, .info ⟨C, customer, "active", [⟨1, "Widget #1", 3⟩]⟩⟩) := by
  constructor
  · obtain ⟨htab, hnd⟩ := DynamoDB.update_success t cartIDStr items hdistinct hsucc
    rw [htab]
    refine ⟨?_, ?_, ?_, fun h => DynamoDB.foldl_put_wellFormed _ t h⟩
    · intro r
      rw [DynamoDB.mem_foldl_put _ t hnd r, DynamoDB.mem_writes]
      refine or_congr Iff.rfl (and_congr Iff.rfl ?_)
      constructor
      · rintro hall ⟨i, hi, hq, hpk, hsk⟩
        exact hall (DynamoDB.itemRecord ("CART#" ++ cartIDStr) i)
          ((DynamoDB.mem_writes _ items _).2 ⟨i, hi, hq, rfl⟩) ⟨hpk, hsk⟩
      · rintro hno w hw ⟨hpk, hsk⟩
        obtain ⟨i, hi, hq, rfl⟩ := (DynamoDB.mem_writes _ items w).1 hw
        exact hno ⟨i, hi, hq, hpk, hsk⟩
    · intro i hi hq
      rw [DynamoDB.get_foldl_put _ t hnd]
      have hin := (DynamoDB.mem_writes ("CART#" ++ cartIDStr) items _).2 ⟨i, hi, hq, rfl⟩
      cases hfind : List.find?
          (DynamoDB.Item.hasKey ("CART#" ++ cartIDStr) ("ITEM#" ++ toString i.ProductID))
          ((items.filter (fun i => decide (i.Quantity > 0))).map
            (DynamoDB.itemRecord ("CART#" ++ cartIDStr))) with
      | none =>
        rw [List.find?_eq_none] at hfind
        exact absurd (by simp [DynamoDB.Item.hasKey, DynamoDB.Item.PK, DynamoDB.Item.SK])
          (hfind _ hin)
      | some w =>
        have hwk := List.find?_some hfind
        have hwm := List.mem_of_find?_eq_some hfind
        simp only [DynamoDB.Item.hasKey, decide_eq_true_eq] at hwk
        have heq : w = .cartItem ⟨"CART#" ++ cartIDStr, "ITEM#" ++ toString i.ProductID,
            i.ProductID, i.Quantity, "Widget #" ++ toString i.ProductID⟩ :=
          List.inj_on_of_nodup_map hnd hwm hin
            (by simp only [DynamoDB.Item.PK, DynamoDB.Item.SK, Prod.mk.injEq]; exact hwk)
        simp only [heq]
    · intro pk sk hno
      rw [DynamoDB.get_foldl_put _ t hnd]
      have hfind : List.find? (DynamoDB.Item.hasKey pk sk)
          ((items.filter (fun i => decide (i.Quantity > 0))).map
            (DynamoDB.itemRecord ("CART#" ++ cartIDStr))) = none := by
        rw [List.find?_eq_none]
        intro w hw hk
        obtain ⟨i, hi, hq, rfl⟩ := (DynamoDB.mem_writes _ items w).1 hw
        simp only [DynamoDB.Item.hasKey, DynamoDB.Item.PK, DynamoDB.Item.SK,
          decide_eq_true_eq] at hk
        exact hno ⟨i, hi, hq, hk.1.symm, hk.2.symm⟩
      rw [hfind]
  · have hcust := DynamoDB.customer_ne_zero_of_created t0 C customer hcreate
    have habsent : ∀ r ∈ t0, ¬ (r.PK = "CART#" ++ C ∧ r.SK = "CART") := by
      intro r hr hk
      rw [DynamoDB.create_present t0 C customer hcust ⟨r, hr, hk⟩] at hcreate
      simp at hcreate
    rw [DynamoDB.create_absent t0 C customer hcust habsent,
      DynamoDB.update_over_metadata t0 C _ rfl hnoitem]
    exact ⟨rfl, DynamoDB.get_over_metadata t0 C _ _ customer habsent hnoitem⟩

/-- C8 amended, at the sample table: the update `[(7,5),(8,0),(9,1)]` of cart `C`
overwrites product 7, skips product 8 and adds product 9; and a cart created
as `D` and updated with `[(1,3),(2,0)]` is read back with product 1 at
quantity 3 only. -/
theorem C8_successful_update_writes_positive_entries_only_witness :
    (DynamoDB.updateItemToShoppingCart DynamoDB.sampleTable "C"
        (some ⟨[⟨7, 5⟩, ⟨8, 0⟩, ⟨9, 1⟩]⟩)).table.get "CART#C" "ITEM#7" =
        some (.cartItem ⟨"CART#C", "ITEM#7", 7, 5, "Widget #7"⟩) ∧
      (DynamoDB.updateItemToShoppingCart DynamoDB.sampleTable "C"
        (some ⟨[⟨7, 5⟩, ⟨8, 0⟩, ⟨9, 1⟩]⟩)).table.get "CART#C" "ITEM#8" = none ∧
      (DynamoDB.getShoppingCart
        (DynamoDB.updateItemToShoppingCart
          (DynamoDB.createShoppingCart DynamoDB.sampleTable (some 42) "D").table "D"
          (some ⟨[⟨1, 3⟩, ⟨2, 0⟩]⟩)).table "D").response =
        ⟨200, .info ⟨"D", 42, "active", [⟨1, "Widget #1", 3⟩]⟩⟩ := by
  have h := C8_successful_update_writes_positive_entries_only DynamoDB.sampleTable "C"
    [⟨7, 5⟩, ⟨8, 0⟩, ⟨9, 1⟩] (by decide) (by decide) DynamoDB.sampleTable "D" 42
    (by decide) (by decide)
  refine ⟨?_, ?_, h.2.2⟩
  · exact h.1.2.1 ⟨7, 5⟩ (by decide) (by decide)
  · rw [h.1.2.2.1 "CART#C" "ITEM#8" (by decide)]
    decide
